import Mathlib

/-!
# Verification of the spool-coder NFC tag codec

Shallow embedding of the core of the `spool-coder` repository:

* `src/services/nfc/bambu_key.py`   — key derivation (HKDF path and HMAC fallback),
* `src/services/nfc/bambu_algorithm.py` — the 1024-byte tag codec (XOR cipher + CRC32),
* `src/services/nfc/decoder.py`     — the defensive payload normalizer.

Modelling conventions:
* Python `bytes` values are `List Nat` with every element `< 256`;
* Python `int` is `ℤ` (unbounded, as in Python);
* Python `float` is modelled exactly: `PyFloat` is either an exact rational
  or one of the special values `nan`, `inf`, `-inf`.  Conversion through the
  IEEE-754 binary32 wire format is modelled explicitly (`f32_to_bits`,
  `bits_to_f32`); the binary64 quantisation of Python arithmetic is not
  modelled — the code under verification only moves values through binary32
  and compares/rounds them, which is exact on the rationals involved;
* a raised Python exception is an `Except`-error; returning `None` from a
  function typed `Optional[...]` is `Option.none` inside `Except.ok`.
-/

namespace SpoolCoder

deriving instance DecidableEq for Except

/-- Python exception kinds that the modelled code can raise. -/
inductive PyErr where
  | structError
  | valueError
  | overflowError
  | typeError
  | decodingError
  deriving DecidableEq, Repr

/-- A Python float: an exact rational, or one of the IEEE special values. -/
inductive PyFloat where
  | finite (q : ℚ)
  | nan
  | inf
  | ninf
  deriving DecidableEq, Repr

/-! ## Little-endian and big-endian byte (de)serialisation, as in `struct` -/

/-- The two bytes of `struct.pack("<H", n)` for `n < 2^16`. -/
def le16_bytes (n : Nat) : List Nat := [n % 256, n / 256 % 256]

/-- The four bytes of `struct.pack("<I", n)` for `n < 2^32`. -/
def le32_bytes (n : Nat) : List Nat :=
  [n % 256, n / 256 % 256, n / 65536 % 256, n / 16777216 % 256]

/-- `struct.unpack("<H", b)`: little-endian 16-bit read. -/
def le16 (l : List Nat) : Nat := l.getD 0 0 + 256 * l.getD 1 0

/-- `struct.unpack("<I", b)`: little-endian 32-bit read. -/
def le32 (l : List Nat) : Nat :=
  l.getD 0 0 + 256 * l.getD 1 0 + 65536 * l.getD 2 0 + 16777216 * l.getD 3 0

/-- Big-endian 32-bit serialisation (used inside SHA-256). -/
def be32_bytes (n : Nat) : List Nat :=
  [n / 16777216 % 256, n / 65536 % 256, n / 256 % 256, n % 256]

/-- Big-endian 32-bit read of four bytes (used inside SHA-256). -/
def be32 (l : List Nat) : Nat :=
  16777216 * l.getD 0 0 + 65536 * l.getD 1 0 + 256 * l.getD 2 0 + l.getD 3 0

/-- Slice `data[off : off+n]` of a byte string. -/
def read_at (data : List Nat) (off n : Nat) : List Nat := (data.drop off).take n

theorem le16_le16_bytes (n : Nat) (h : n < 65536) : le16 (le16_bytes n) = n := by
  simp only [le16, le16_bytes, List.getD]
  simp only [List.get?_eq_getElem?, List.getElem?_cons_zero, List.getElem?_cons_succ,
    Option.getD_some]
  omega

theorem le32_le32_bytes (n : Nat) (h : n < 4294967296) : le32 (le32_bytes n) = n := by
  simp only [le32, le32_bytes, List.getD]
  simp only [List.get?_eq_getElem?, List.getElem?_cons_zero, List.getElem?_cons_succ,
    Option.getD_some]
  omega

theorem le32_bytes_length (n : Nat) : (le32_bytes n).length = 4 := rfl

theorem le16_bytes_length (n : Nat) : (le16_bytes n).length = 2 := rfl

theorem le16_bytes_lt (n : Nat) : ∀ b ∈ le16_bytes n, b < 256 := by
  intro b hb
  simp only [le16_bytes, List.mem_cons, List.not_mem_nil, or_false] at hb
  rcases hb with h | h <;> subst h <;> omega

theorem le32_bytes_lt (n : Nat) : ∀ b ∈ le32_bytes n, b < 256 := by
  intro b hb
  simp only [le32_bytes, List.mem_cons, List.not_mem_nil, or_false] at hb
  rcases hb with h | h | h | h <;> subst h <;> omega

theorem be32_bytes_length (n : Nat) : (be32_bytes n).length = 4 := rfl

theorem be32_bytes_lt (n : Nat) : ∀ b ∈ be32_bytes n, b < 256 := by
  intro b hb
  simp only [be32_bytes, List.mem_cons, List.not_mem_nil, or_false] at hb
  rcases hb with h | h | h | h <;> subst h <;> omega

/-! ## Python rounding

CPython's `round` rounds half to even (banker's rounding); `round(x, n)`
rounds to the nearest multiple of `10^(-n)`. -/

/-- Round-half-to-even of a rational to an integer (Python `round(x)`). -/
def round_half_even (x : ℚ) : ℤ :=
  let n := ⌊x⌋
  let f := x - n
  if f < 1/2 then n
  else if 1/2 < f then n + 1
  else if n % 2 = 0 then n else n + 1

/-- Python `round(x, nd)` for a finite float, exact on rationals. -/
def py_round_q (nd : Nat) (x : ℚ) : ℚ :=
  (round_half_even (x * 10 ^ nd) : ℚ) / 10 ^ nd

/-- `round(f, nd)` on a Python float: specials are returned unchanged. -/
def py_round_f (nd : Nat) (f : PyFloat) : PyFloat :=
  match f with
  | .finite q => .finite (py_round_q nd q)
  | f => f

/-- `round(f)` with no digit count returns an `int` and raises on specials. -/
def py_round_int (f : PyFloat) : Except PyErr ℤ :=
  match f with
  | .finite q => .ok (round_half_even q)
  | .nan => .error .valueError
  | _ => .error .overflowError

theorem round_half_even_close (x : ℚ) : |((round_half_even x : ℤ) : ℚ) - x| ≤ 1/2 := by
  have hfl : (⌊x⌋ : ℚ) ≤ x := Int.floor_le x
  have hfu : x < (⌊x⌋ : ℚ) + 1 := Int.lt_floor_add_one x
  unfold round_half_even
  by_cases h1 : x - (⌊x⌋ : ℚ) < 1/2
  · simp only [h1, if_true]
    rw [abs_le]; constructor <;> linarith
  · simp only [h1, if_false]
    by_cases h2 : (1:ℚ)/2 < x - (⌊x⌋ : ℚ)
    · simp only [h2, if_true]
      push_cast
      rw [abs_le]; constructor <;> linarith
    · simp only [h2, if_false]
      by_cases h3 : ⌊x⌋ % 2 = 0 <;> simp only [h3, if_true, if_false] <;>
        · push_cast
          rw [abs_le]; constructor <;> linarith

theorem py_round_q_close (nd : Nat) (x : ℚ) :
    |py_round_q nd x - x| ≤ 1 / (2 * 10 ^ nd) := by
  have h10 : (0:ℚ) < 10 ^ nd := by positivity
  have h := round_half_even_close (x * 10 ^ nd)
  unfold py_round_q
  rw [div_sub' _ _ _ (ne_of_gt h10), abs_div, abs_of_pos h10,
    div_le_div_iff₀ h10 (by positivity), mul_comm ((10:ℚ) ^ nd) x]
  calc |(round_half_even (x * 10 ^ nd) : ℚ) - x * 10 ^ nd| * (2 * 10 ^ nd)
      ≤ (1/2) * (2 * 10 ^ nd) := by
        apply mul_le_mul_of_nonneg_right h (by positivity)
    _ = 1 * 10 ^ nd := by ring

/-! ## SHA-256 over `Nat` (needed by `bambu_key.py`)

Machine words are `Nat` kept below `2^32` by explicit reduction. -/

/-- Addition modulo `2^32`. -/
def add32 (a b : Nat) : Nat := (a + b) % 4294967296

/-- Right-rotation of a 32-bit word. -/
def rotr32 (x n : Nat) : Nat := ((x >>> n) ||| (x <<< (32 - n))) % 4294967296

/-- Bitwise complement of a 32-bit word. -/
def not32 (x : Nat) : Nat := x ^^^ 4294967295

/-- The SHA-256 round constants (decimal). -/
def sha_k : List Nat :=
  [1116352408, 1899447441, 3049323471, 3921009573, 961987163, 1508970993, 2453635748,
    2870763221, 3624381080, 310598401, 607225278, 1426881987, 1925078388, 2162078206, 2614888103,
    3248222580, 3835390401, 4022224774, 264347078, 604807628, 770255983, 1249150122, 1555081692,
    1996064986, 2554220882, 2821834349, 2952996808, 3210313671, 3336571891, 3584528711,
    113926993, 338241895, 666307205, 773529912, 1294757372, 1396182291, 1695183700, 1986661051,
    2177026350, 2456956037, 2730485921, 2820302411, 3259730800, 3345764771, 3516065817,
    3600352804, 4094571909, 275423344, 430227734, 506948616, 659060556, 883997877, 958139571,
    1322822218, 1537002063, 1747873779, 1955562222, 2024104815, 2227730452, 2361852424,
    2428436474, 2756734187, 3204031479, 3329325298]

/-- The SHA-256 initial hash state (decimal). -/
def sha_h0 : List Nat :=
  [1779033703, 3144134277, 1013904242, 2773480762, 1359893119, 2600822924, 528734635,
    1541459225]

/-- SHA-256 padding: append `0x80`, zero bytes, and the 64-bit bit length. -/
def sha256_pad (msg : List Nat) : List Nat :=
  let l := msg.length
  let zeros := (120 - (l + 1) % 64) % 64
  msg ++ [0x80] ++ List.replicate zeros 0 ++
    [8 * l / 2^56 % 256, 8 * l / 2^48 % 256, 8 * l / 2^40 % 256, 8 * l / 2^32 % 256,
     8 * l / 2^24 % 256, 8 * l / 2^16 % 256, 8 * l / 2^8 % 256, 8 * l % 256]

/-- Split a padded message into 64-byte blocks. -/
def sha256_blocks (padded : List Nat) : List (List Nat) :=
  (List.range (padded.length / 64)).map fun i => (padded.drop (64 * i)).take 64

/-- The 64-word message schedule of one block. -/
def sha256_sched (block : List Nat) : List Nat :=
  let w16 := (List.range 16).map fun i => be32 (read_at block (4 * i) 4)
  (List.range 48).foldl
    (fun ws j =>
      let s0 := (rotr32 (ws.getD (j+1) 0) 7) ^^^ (rotr32 (ws.getD (j+1) 0) 18) ^^^
        ((ws.getD (j+1) 0) >>> 3)
      let s1 := (rotr32 (ws.getD (j+14) 0) 17) ^^^ (rotr32 (ws.getD (j+14) 0) 19) ^^^
        ((ws.getD (j+14) 0) >>> 10)
      ws ++ [add32 (add32 (ws.getD j 0) s0) (add32 (ws.getD (j+9) 0) s1)])
    w16

/-- One SHA-256 compression round over the 8-word working state. -/
def sha256_round (st : List Nat) (ki wi : Nat) : List Nat :=
  let a := st.getD 0 0
  let b := st.getD 1 0
  let c := st.getD 2 0
  let d := st.getD 3 0
  let e := st.getD 4 0
  let f := st.getD 5 0
  let g := st.getD 6 0
  let h := st.getD 7 0
  let s1 := (rotr32 e 6) ^^^ (rotr32 e 11) ^^^ (rotr32 e 25)
  let ch := (e &&& f) ^^^ ((not32 e) &&& g)
  let t1 := add32 (add32 h s1) (add32 ch (add32 ki wi))
  let s0 := (rotr32 a 2) ^^^ (rotr32 a 13) ^^^ (rotr32 a 22)
  let mj := (a &&& b) ^^^ (a &&& c) ^^^ (b &&& c)
  let t2 := add32 s0 mj
  [add32 t1 t2, a, b, c, add32 d t1, e, f, g]

/-- SHA-256 compression of one 64-byte block into the running hash state. -/
def sha256_compress (hv : List Nat) (block : List Nat) : List Nat :=
  let w := sha256_sched block
  let st := (List.range 64).foldl (fun st i => sha256_round st (sha_k.getD i 0) (w.getD i 0)) hv
  [add32 (hv.getD 0 0) (st.getD 0 0), add32 (hv.getD 1 0) (st.getD 1 0),
   add32 (hv.getD 2 0) (st.getD 2 0), add32 (hv.getD 3 0) (st.getD 3 0),
   add32 (hv.getD 4 0) (st.getD 4 0), add32 (hv.getD 5 0) (st.getD 5 0),
   add32 (hv.getD 6 0) (st.getD 6 0), add32 (hv.getD 7 0) (st.getD 7 0)]

/-- The SHA-256 digest (32 bytes) of a byte string. -/
def sha256 (msg : List Nat) : List Nat :=
  (((sha256_blocks (sha256_pad msg)).foldl sha256_compress sha_h0).map be32_bytes).flatten

theorem sha256_length (msg : List Nat) : (sha256 msg).length = 32 := by
  unfold sha256
  have hlen : ∀ bs : List (List Nat),
      ((bs.foldl sha256_compress sha_h0).map be32_bytes).flatten.length = 32 := by
    intro bs
    have h8 : (bs.foldl sha256_compress sha_h0).length = 8 := by
      induction bs using List.reverseRecOn with
      | nil => rfl
      | append_singleton l b _ => rw [List.foldl_append]; rfl
    generalize (bs.foldl sha256_compress sha_h0) = st at h8
    match st, h8 with
    | [a, b, c, d, e, f, g, h], _ => rfl
  exact hlen _

theorem sha256_bytes_lt (msg : List Nat) : ∀ b ∈ sha256 msg, b < 256 := by
  intro b hb
  unfold sha256 at hb
  rw [List.mem_flatten] at hb
  obtain ⟨l, hl, hbl⟩ := hb
  rw [List.mem_map] at hl
  obtain ⟨w, _, hw⟩ := hl
  subst hw
  exact be32_bytes_lt w b hbl

/-! ## HMAC-SHA256 and the two key derivations of `bambu_key.py` -/

/-- HMAC-SHA256 (`hmac.new(key, msg, hashlib.sha256).digest()`). -/
def hmac_sha256 (key msg : List Nat) : List Nat :=
  let k0 := if key.length > 64 then sha256 key else key
  let kp := k0 ++ List.replicate (64 - k0.length) 0
  sha256 ((kp.map (fun b => b ^^^ 0x5c)) ++ sha256 ((kp.map (fun b => b ^^^ 0x36)) ++ msg))

theorem hmac_sha256_length (key msg : List Nat) : (hmac_sha256 key msg).length = 32 :=
  sha256_length _

theorem hmac_sha256_bytes_lt (key msg : List Nat) : ∀ b ∈ hmac_sha256 key msg, b < 256 :=
  sha256_bytes_lt _

/-- The chaining loop of `simple_kdf`; `fuel` bounds the iteration count
(each iteration appends a 32-byte digest, so `key_len` iterations always
suffice). -/
def simple_kdf_loop (salt : List Nat) (key_len : Nat) :
    Nat → List Nat → List Nat → List Nat
  | 0, _, result => result.take key_len
  | fuel + 1, key, result =>
    if key_len ≤ result.length then result.take key_len
    else
      let key2 := hmac_sha256 salt key
      simple_kdf_loop salt key_len fuel key2 (result ++ key2)

/-- `simple_kdf(input_key_material, salt, key_len)` from `bambu_key.py`:
HMAC of the input under `salt`, chained until `key_len` bytes exist. -/
def simple_kdf (input_key_material salt : List Nat) (key_len : Nat) : List Nat :=
  let key := hmac_sha256 salt input_key_material
  simple_kdf_loop salt key_len key_len key key

/-- The fixed master key of the Bambu key derivation. -/
def bambu_master : List Nat :=
  [0x9a, 0x75, 0x9c, 0xf2, 0xc4, 0xf7, 0xca, 0xff, 0x22, 0x2c, 0xb9, 0x76, 0x9b, 0x41, 0xbc, 0x96]

/-- The context string `b"RFID-A\0"`. -/
def rfid_context : List Nat := [0x52, 0x46, 0x49, 0x44, 0x2d, 0x41, 0x00]

/-- `derive_bambu_key` in its HMAC fallback form (the `except ImportError`
branch of `bambu_key.py`): `simple_kdf(master, uid + context, 16)`. -/
def derive_bambu_key_fallback (uid : List Nat) : List Nat :=
  simple_kdf bambu_master (uid ++ rfid_context) 16

/-- The 16 six-byte keys produced by the pycryptodomex call
`HKDF(uid, 6, master, SHA256, 16, context=b"RFID-A\0")`: RFC 5869 extract
with salt `master` and input `uid`, expand with info `context` to
`6 * 16 = 96` bytes, split into 16 chunks of 6 bytes. -/
def bambu_hkdf_keys (uid : List Nat) : List (List Nat) :=
  let prk := hmac_sha256 bambu_master uid
  let t1 := hmac_sha256 prk (rfid_context ++ [1])
  let t2 := hmac_sha256 prk (t1 ++ rfid_context ++ [2])
  let t3 := hmac_sha256 prk (t2 ++ rfid_context ++ [3])
  let okm := (t1 ++ t2 ++ t3).take 96
  (List.range 16).map fun i => (okm.drop (6 * i)).take 6

/-- `derive_bambu_key` in its HKDF form (the pycryptodomex branch of
`bambu_key.py`): the call returns the list of 16 keys, and the code
returns `result[0]` — the first six-byte chunk. -/
def derive_bambu_key_hkdf (uid : List Nat) : List Nat :=
  (bambu_hkdf_keys uid).getD 0 []

theorem derive_bambu_key_fallback_length (uid : List Nat) :
    (derive_bambu_key_fallback uid).length = 16 := by
  unfold derive_bambu_key_fallback simple_kdf simple_kdf_loop
  rw [if_pos (by rw [hmac_sha256_length]; norm_num)]
  rw [List.length_take, hmac_sha256_length]
  norm_num

theorem derive_bambu_key_hkdf_length (uid : List Nat) :
    (derive_bambu_key_hkdf uid).length = 6 := by
  unfold derive_bambu_key_hkdf bambu_hkdf_keys
  simp only [List.getD, List.range_succ_eq_map, List.map_cons, Nat.mul_zero, List.drop_zero,
    List.get?_eq_getElem?, List.getElem?_cons_zero, Option.getD_some]
  rw [List.length_take, List.length_take]
  have h1 := hmac_sha256_length (hmac_sha256 bambu_master uid) (rfid_context ++ [1])
  simp only [List.length_append, h1, hmac_sha256_length]
  omega

theorem derive_bambu_key_fallback_lt (uid : List Nat) :
    ∀ b ∈ derive_bambu_key_fallback uid, b < 256 := by
  intro b hb
  unfold derive_bambu_key_fallback simple_kdf simple_kdf_loop at hb
  rw [if_pos (by rw [hmac_sha256_length]; norm_num)] at hb
  exact hmac_sha256_bytes_lt _ _ b (List.mem_of_mem_take hb)

theorem derive_bambu_key_fallback_ne_nil (uid : List Nat) :
    derive_bambu_key_fallback uid ≠ [] := by
  intro h
  have := derive_bambu_key_fallback_length uid
  rw [h] at this
  simp at this

theorem derive_bambu_key_hkdf_lt (uid : List Nat) :
    ∀ b ∈ derive_bambu_key_hkdf uid, b < 256 := by
  intro b hb
  unfold derive_bambu_key_hkdf bambu_hkdf_keys at hb
  simp only [List.getD, List.range_succ_eq_map, List.map_cons, Nat.mul_zero, List.drop_zero,
    List.get?_eq_getElem?, List.getElem?_cons_zero, Option.getD_some] at hb
  have hb' := List.mem_of_mem_take (List.mem_of_mem_take hb)
  simp only [List.append_assoc, List.mem_append] at hb'
  rcases hb' with h | h | h
  · exact hmac_sha256_bytes_lt _ _ b h
  · exact hmac_sha256_bytes_lt _ _ b h
  · exact hmac_sha256_bytes_lt _ _ b h

theorem derive_bambu_key_hkdf_ne_nil (uid : List Nat) :
    derive_bambu_key_hkdf uid ≠ [] := by
  intro h
  have := derive_bambu_key_hkdf_length uid
  rw [h] at this
  simp at this

/-! ## CRC-32 (`binascii.crc32`)

Reflected CRC-32, polynomial `0xEDB88320`, initial value and final
complement `0xFFFFFFFF`. -/

/-- The reflected CRC-32 polynomial. -/
def crc_poly : Nat := 0xEDB88320

/-- One LFSR shift step of the CRC computation. -/
def crc_shift (x : Nat) : Nat := (x / 2) ^^^ (if x % 2 = 1 then crc_poly else 0)

/-- Absorb one byte into the running CRC state. -/
def crc_byte (x b : Nat) : Nat := crc_shift^[8] (x ^^^ b)

/-- `binascii.crc32(data)`. -/
def crc32 (data : List Nat) : Nat := (data.foldl crc_byte 0xFFFFFFFF) ^^^ 0xFFFFFFFF

theorem xor_lt_4294967296 {a b : Nat} (ha : a < 4294967296) (hb : b < 4294967296) :
    a ^^^ b < 4294967296 := by
  have := Nat.xor_lt_two_pow (n := 32) (by simpa using ha) (by simpa using hb)
  simpa using this

theorem crc_shift_lt {x : Nat} (hx : x < 4294967296) : crc_shift x < 4294967296 := by
  unfold crc_shift
  have h2 : x / 2 < 4294967296 := by omega
  split
  · exact xor_lt_4294967296 h2 (by norm_num [crc_poly])
  · simpa using h2

/-- The inverse of `crc_shift` on 32-bit states. -/
def crc_unshift (y : Nat) : Nat :=
  let b := y / 2147483648
  2 * (y ^^^ (if b = 1 then crc_poly else 0)) + b

theorem crc_unshift_shift {x : Nat} (hx : x < 4294967296) :
    crc_unshift (crc_shift x) = x := by
  unfold crc_unshift crc_shift
  rcases Nat.even_or_odd x with he | ho
  · have hx2 : x % 2 = 0 := Nat.even_iff.mp he
    simp only [hx2, if_neg (by omega : ¬ (0:Nat) = 1), Nat.xor_zero]
    have hlt : x / 2 < 2147483648 := by omega
    rw [Nat.div_eq_of_lt hlt]
    simp only [if_neg (by omega : ¬ (0:Nat) = 1), Nat.xor_zero]
    omega
  · have hx2 : x % 2 = 1 := Nat.odd_iff.mp ho
    simp only [hx2, if_pos rfl, if_true, eq_self_iff_true]
    have hlt : x / 2 < 2147483648 := by omega
    have hbit : (x / 2 ^^^ crc_poly) / 2147483648 = 1 := by
      have htop : Nat.testBit (x / 2 ^^^ crc_poly) 31 = true := by
        rw [Nat.testBit_xor]
        have h1 : Nat.testBit (x / 2) 31 = false :=
          Nat.testBit_lt_two_pow (by simpa using hlt)
        have h2 : Nat.testBit crc_poly 31 = true := by decide
        simp [h1, h2]
      have hlt' : x / 2 ^^^ crc_poly < 4294967296 :=
        xor_lt_4294967296 (by omega) (by norm_num [crc_poly])
      have := Nat.testBit_to_div_mod (x := x / 2 ^^^ crc_poly) (i := 31)
      rw [htop] at this
      have hdm : (x / 2 ^^^ crc_poly) / 2 ^ 31 % 2 = 1 := by
        simpa using this.symm
      have hsmall : (x / 2 ^^^ crc_poly) / 2 ^ 31 < 2 := by
        have : (2:Nat) ^ 31 * 2 = 4294967296 := by norm_num
        omega
      have h31 : (2:Nat) ^ 31 = 2147483648 := by norm_num
      omega
    rw [hbit]
    simp only [if_pos rfl, if_true, eq_self_iff_true]
    rw [Nat.xor_assoc, Nat.xor_self, Nat.xor_zero]
    omega

theorem crc_shift_injOn {x y : Nat} (hx : x < 4294967296) (hy : y < 4294967296)
    (h : crc_shift x = crc_shift y) : x = y := by
  have := congrArg crc_unshift h
  rwa [crc_unshift_shift hx, crc_unshift_shift hy] at this

theorem crc_shift_iter_lt {x : Nat} (hx : x < 4294967296) (n : Nat) :
    crc_shift^[n] x < 4294967296 := by
  induction n with
  | zero => simpa using hx
  | succ n ih => rw [Function.iterate_succ_apply']; exact crc_shift_lt ih

theorem crc_shift_iter_injOn {x y : Nat} (hx : x < 4294967296) (hy : y < 4294967296)
    (n : Nat) (h : crc_shift^[n] x = crc_shift^[n] y) : x = y := by
  induction n with
  | zero => simpa using h
  | succ n ih =>
    apply ih
    simp only [Function.iterate_succ_apply'] at h
    exact crc_shift_injOn (crc_shift_iter_lt hx n) (crc_shift_iter_lt hy n) h

theorem crc_byte_lt {x b : Nat} (hx : x < 4294967296) (hb : b < 256) :
    crc_byte x b < 4294967296 :=
  crc_shift_iter_lt (xor_lt_4294967296 hx (by omega)) 8

theorem crc_byte_injOn_state {x y b : Nat} (hx : x < 4294967296) (hy : y < 4294967296)
    (hb : b < 256) (h : crc_byte x b = crc_byte y b) : x = y := by
  have hxb : x ^^^ b < 4294967296 := xor_lt_4294967296 hx (by omega)
  have hyb : y ^^^ b < 4294967296 := xor_lt_4294967296 hy (by omega)
  have := crc_shift_iter_injOn hxb hyb 8 h
  have h2 := congrArg (· ^^^ b) this
  simpa only [Nat.xor_cancel_right] using h2

theorem crc_byte_ne_of_byte_ne {x b b' : Nat} (hx : x < 4294967296)
    (hb : b < 256) (hb' : b' < 256) (hne : b ≠ b') :
    crc_byte x b ≠ crc_byte x b' := by
  intro h
  apply hne
  have hxb : x ^^^ b < 4294967296 := xor_lt_4294967296 hx (by omega)
  have hxb' : x ^^^ b' < 4294967296 := xor_lt_4294967296 hx (by omega)
  have := crc_shift_iter_injOn hxb hxb' 8 h
  have h2 := congrArg (· ^^^ x) this
  simpa only [Nat.xor_comm x, Nat.xor_cancel_right] using h2

theorem crc_fold_lt (l : List Nat) : ∀ (s : Nat), (∀ b ∈ l, b < 256) → s < 4294967296 →
    l.foldl crc_byte s < 4294967296 := by
  induction l with
  | nil => intro s _ hs; simpa using hs
  | cons a t ih =>
    intro s hl hs
    simp only [List.foldl_cons]
    exact ih _ (fun b hb => hl b (List.mem_cons_of_mem a hb))
      (crc_byte_lt hs (hl a (List.mem_cons_self a t)))

theorem crc32_lt (data : List Nat) (hd : ∀ b ∈ data, b < 256) : crc32 data < 4294967296 := by
  unfold crc32
  exact xor_lt_4294967296 (crc_fold_lt data 0xFFFFFFFF hd (by norm_num)) (by norm_num)

theorem crc_fold_ne (l : List Nat) : ∀ (s s' : Nat), (∀ b ∈ l, b < 256) →
    s < 4294967296 → s' < 4294967296 → s ≠ s' →
    l.foldl crc_byte s ≠ l.foldl crc_byte s' := by
  induction l with
  | nil => intro s s' _ _ _ hne; simpa using hne
  | cons a t ih =>
    intro s s' hl hs hs' hne
    simp only [List.foldl_cons]
    have ha : a < 256 := hl a (List.mem_cons_self a t)
    apply ih _ _ (fun b hb => hl b (List.mem_cons_of_mem a hb))
      (crc_byte_lt hs ha) (crc_byte_lt hs' ha)
    intro h
    exact hne (crc_byte_injOn_state hs hs' ha h)

/-- Changing a single byte of a message changes its CRC-32: CRC-32 detects
every single-byte (hence every single-bit) substitution. -/
theorem crc32_byte_flip_ne (pre suf : List Nat) (b b' : Nat)
    (hpre : ∀ x ∈ pre, x < 256) (hsuf : ∀ x ∈ suf, x < 256)
    (hb : b < 256) (hb' : b' < 256) (hne : b ≠ b') :
    crc32 (pre ++ b :: suf) ≠ crc32 (pre ++ b' :: suf) := by
  unfold crc32
  intro h
  have h2 : (pre ++ b :: suf).foldl crc_byte 0xFFFFFFFF =
      (pre ++ b' :: suf).foldl crc_byte 0xFFFFFFFF := by
    have := congrArg (· ^^^ 0xFFFFFFFF) h
    simpa only [Nat.xor_cancel_right] using this
  rw [List.foldl_append, List.foldl_append, List.foldl_cons, List.foldl_cons] at h2
  have hs : pre.foldl crc_byte 0xFFFFFFFF < 4294967296 :=
    crc_fold_lt pre 0xFFFFFFFF hpre (by norm_num)
  exact crc_fold_ne suf _ _ hsuf (crc_byte_lt hs hb) (crc_byte_lt hs hb')
    (crc_byte_ne_of_byte_ne hs hb hb' hne) h2

/-! ## IEEE-754 binary32, as moved through `struct.pack/unpack("<f", ·)` -/

/-- The rational value `2^k` for an integer exponent. -/
def zpow2 (k : ℤ) : ℚ := if 0 ≤ k then (2:ℚ) ^ k.toNat else 1 / (2:ℚ) ^ (-k).toNat

/-- Decode a 32-bit pattern as an IEEE-754 binary32 value
(`struct.unpack("<f", bits)` after little-endian assembly). -/
def bits_to_f32 (n : Nat) : PyFloat :=
  let s := n / 2147483648 % 2
  let e := n / 8388608 % 256
  let m := n % 8388608
  if e = 255 then
    if m = 0 then (if s = 1 then .ninf else .inf) else .nan
  else
    let mag : ℚ :=
      if e = 0 then (m : ℚ) / 2 ^ 149
      else ((8388608 + m : ℕ) : ℚ) * zpow2 ((e : ℤ) - 150)
    .finite (if s = 1 then -mag else mag)

/-- Fuel-limited `⌊log₂ a⌋` for `1 ≤ a` (executable in the kernel). -/
def rat_log2_up : Nat → ℚ → ℤ
  | 0, _ => 0
  | f + 1, a => if a < 2 then 0 else rat_log2_up f (a / 2) + 1

/-- Fuel-limited `⌊log₂ a⌋` for `0 < a < 1` (executable in the kernel). -/
def rat_log2_down : Nat → ℚ → ℤ
  | 0, _ => 0
  | f + 1, a => if 1 ≤ a then 0 else rat_log2_down f (a * 2) - 1

/-- `⌊log₂ a⌋` of a positive rational; the fuel `1100` covers every
exponent within (and far beyond) the binary32 range. -/
def rat_log2 (a : ℚ) : ℤ :=
  if 1 ≤ a then rat_log2_up 1100 a else rat_log2_down 1100 a

/-- Encode a rational as the nearest IEEE-754 binary32 bit pattern,
rounding half to even (`struct.pack("<f", x)`).  Overflow is clamped to
the infinity pattern (CPython raises `OverflowError` there; no verified
path reaches it).  The final reduction modulo `2^32` is the identity on
every input inside the binary32 range; it only totalises the range bound
for exotic rationals outside it. -/
def f32_to_bits (q : ℚ) : Nat :=
  (if q = 0 then 0
  else
    let sgn := if q < 0 then 2147483648 else 0
    let a := |q|
    let e : ℤ := rat_log2 a
    if e < -126 then
      let m := (round_half_even (a * 2 ^ 149)).toNat
      if m ≥ 8388608 then sgn + 8388608 else sgn + m
    else
      let m := (round_half_even (a * zpow2 (23 - e))).toNat
      let m2 := if m = 16777216 then 8388608 else m
      let e2 := if m = 16777216 then e + 1 else e
      if e2 + 127 ≥ 255 then sgn + 255 * 8388608
      else sgn + (e2 + 127).toNat * 8388608 + (m2 - 8388608)) % 4294967296

/-- A rational is exactly representable in binary32 when packing and
unpacking it is the identity.  Valid spool records carry binary32 values
(`SpoolRecord` floats are 32-bit on the wire), so their fields satisfy
this. -/
def repr32 (q : ℚ) : Prop := bits_to_f32 (f32_to_bits q) = .finite q

instance (q : ℚ) : Decidable (repr32 q) := by unfold repr32; infer_instance

/-- `struct.pack("<f", q)`: four little-endian bytes of the binary32 image. -/
def f32le_bytes (q : ℚ) : List Nat := le32_bytes (f32_to_bits q)

/-- `struct.unpack("<f", b)`: binary32 value of four little-endian bytes. -/
def f32le (l : List Nat) : PyFloat := bits_to_f32 (le32 l)

theorem zpow2_eq (k : ℤ) : zpow2 k = (2:ℚ) ^ k := by
  unfold zpow2
  split
  · rw [← zpow_natCast]
    congr 1
    omega
  · rw [one_div, ← zpow_natCast, ← zpow_neg]
    congr 1
    omega

theorem zpow2_pos (k : ℤ) : 0 < zpow2 k := by
  rw [zpow2_eq]; positivity

theorem round_half_even_le (x : ℚ) : ((round_half_even x : ℤ) : ℚ) ≤ x + 1/2 := by
  have h := round_half_even_close x
  rw [abs_le] at h
  linarith [h.2]

theorem f32_to_bits_lt (q : ℚ) : f32_to_bits q < 4294967296 := by
  unfold f32_to_bits
  exact Nat.mod_lt _ (by norm_num)

theorem f32le_f32le_bytes {q : ℚ} (h : repr32 q) : f32le (f32le_bytes q) = .finite q := by
  unfold f32le f32le_bytes
  rw [le32_le32_bytes _ (f32_to_bits_lt q)]
  exact h

/-! ## `bambu_algorithm.py`: the 1024-byte tag codec -/

/-- `TAG_HEADER = b'\xaa\x55\xcc\x33'`. -/
def tag_header : List Nat := [0xaa, 0x55, 0xcc, 0x33]

/-- The default UID used by `decode_tag_data` when no UID is available. -/
def default_uid : List Nat := [0xaa, 0x55, 0xcc, 0x33]

/-- The development placeholder `XOR_KEY` (environment variable unset):
`bytes.fromhex("0123456789abcdef0123456789abcdef")`. -/
def xor_key_placeholder : List Nat :=
  [0x01, 0x23, 0x45, 0x67, 0x89, 0xab, 0xcd, 0xef, 0x01, 0x23, 0x45, 0x67, 0x89, 0xab, 0xcd, 0xef]

/-- The `FILAMENT_TYPES` id-to-name table. -/
def filament_types : List (Nat × String) :=
  [(0, "PLA Basic"), (1, "PLA"), (2, "PETG Basic"), (3, "PETG"), (4, "ABS"), (5, "TPU"),
   (6, "PLA-CF"), (7, "PA-CF"), (8, "PET-CF"), (9, "ASA"), (10, "PC"), (11, "PA"),
   (12, "Support"), (13, "PVA"), (14, "HIPS")]

/-- `FILAMENT_TYPES.get(id, "Unknown")`. -/
def name_of_type_id (i : Nat) : String := (filament_types.lookup i).getD "Unknown"

/-- The reversed table lookup `{v: k}.get(name, 1)` of the encoder (the
table's names are pairwise distinct, so first-match equals the Python
reversed dict). -/
def type_id_of_name (s : String) : Nat :=
  ((filament_types.find? (fun p => p.2 == s)).map Prod.fst).getD 1

/-- Value of one hexadecimal digit, as accepted by `int(·, 16)`. -/
def hex_digit_val (c : Char) : Option Nat :=
  if '0' ≤ c ∧ c ≤ '9' then some (c.toNat - 48)
  else if 'a' ≤ c ∧ c ≤ 'f' then some (c.toNat - 87)
  else if 'A' ≤ c ∧ c ≤ 'F' then some (c.toNat - 55)
  else none

/-- `int(cd, 16)` on a two-character slice.  (CPython additionally strips
whitespace and accepts a sign; no verified path feeds it such strings.) -/
def hex_pair_val (c1 c2 : Char) : Option Nat := do
  let h ← hex_digit_val c1
  let l ← hex_digit_val c2
  pure (16 * h + l)

/-- The colour encoding of `_encode_spool_data`: a string of shape
`#RRGGBB` is parsed pairwise (a bad digit raises `ValueError`), anything
else falls back to white. -/
def encode_color_bytes (color : String) : Except PyErr (List Nat) :=
  match color.toList with
  | ['#', c1, c2, c3, c4, c5, c6] =>
    match hex_pair_val c1 c2, hex_pair_val c3 c4, hex_pair_val c5 c6 with
    | some r, some g, some b => .ok [r, g, b]
    | _, _, _ => .error .valueError
  | _ => .ok [255, 255, 255]

/-- Upper-case hexadecimal digit. -/
def up_hex (n : Nat) : Char := "0123456789ABCDEF".toList.getD n '0'

/-- `f"{n:02X}"` for a byte `n < 256`. -/
def up_hex2 (n : Nat) : List Char := [up_hex (n / 16 % 16), up_hex (n % 16)]

/-- `f"#{r:02X}{g:02X}{b:02X}"`. -/
def color_str (r g b : Nat) : String := String.mk ('#' :: (up_hex2 r ++ up_hex2 g ++ up_hex2 b))

/-- `_encode_string`: UTF-8 bytes truncated to `max_length - 1 = 31`,
a NUL terminator, and the zero bytes the fresh buffer already holds. -/
def str32 (s : List Nat) : List Nat :=
  s.take 31 ++ [0] ++ List.replicate (31 - (s.take 31).length) 0

/-- `data[i]` with the out-of-range default `0` (all modelled callers stay
in range, where Python indexing never fails). -/
def byte_at (data : List Nat) (i : Nat) : Nat := (data.drop i).headD 0

/-- `_extract_string`: scan for the first NUL (or the end of the data)
within the field; if the field is full and has no NUL the scan never
breaks and the function returns the empty string (`end_pos` keeps its
initial value `offset`). -/
def extract_string (data : List Nat) (off max_length : Nat) : List Nat :=
  let seg := (data.drop off).take max_length
  match seg.findIdx? (fun b => b == 0) with
  | some k => seg.take k
  | none => if seg.length < max_length then seg else []

/-- The cyclic XOR of `_encrypt_data`/`_decrypt_data`, tracking the
absolute byte index: bytes `0..3` are left in the clear, byte `i ≥ 4` is
XORed with `key[(i - 4) % len(key)]`.  The two Python methods perform the
identical operation. -/
def xor_cipher_from (key : List Nat) (kl : Nat) : Nat → List Nat → List Nat
  | _, [] => []
  | i, b :: rest =>
    (if i < 4 then b else b ^^^ key.getD ((i - 4) % kl) 0) :: xor_cipher_from key kl (i + 1) rest

/-- XOR-encrypt (equivalently decrypt) a full buffer. -/
def xor_cipher (key data : List Nat) : List Nat := xor_cipher_from key key.length 0 data

/-- A decoded tag, the result dictionary of `_parse_tag_data`.  String
fields are kept as their UTF-8 byte content (`decode('utf-8', 'replace')`
is injective on the valid byte strings the codec produces); `raw_header`
and `flags` are kept as bytes rather than hex strings. -/
structure TagData where
  rawHeader : List Nat
  version : Nat
  flags : List Nat
  typeId : Nat
  ftype : String
  color : String
  diameter : PyFloat
  nozzleTemp : Nat
  bedTemp : Nat
  density : PyFloat
  remainingLength : PyFloat
  remainingWeight : ℤ
  manufacturer : List Nat
  name : List Nat
  serial : List Nat
  date : Nat
  deriving DecidableEq, Repr

/-- `_parse_tag_data` on a decrypted buffer (callers guarantee at least
516 bytes, so every fixed-width read is in range). -/
def parse_tag_data (data : List Nat) : Except PyErr TagData :=
  let ft := le16 (read_at data 128 2)
  match py_round_int (f32le (read_at data 149 4)) with
  | .error e => .error e
  | .ok weight =>
    .ok { rawHeader := data.take 16
          version := byte_at data 4
          flags := read_at data 5 3
          typeId := ft
          ftype := name_of_type_id ft
          color := color_str (byte_at data 130) (byte_at data 131) (byte_at data 132)
          diameter := py_round_f 2 (f32le (read_at data 133 4))
          nozzleTemp := le16 (read_at data 137 2)
          bedTemp := le16 (read_at data 139 2)
          density := py_round_f 3 (f32le (read_at data 141 4))
          remainingLength := py_round_f 1 (f32le (read_at data 145 4))
          remainingWeight := weight
          manufacturer := extract_string data 153 32
          name := extract_string data 185 32
          serial := extract_string data 256 32
          date := le32 (read_at data 288 4) }

/-- `_verify_header`. -/
def verify_header (data : List Nat) : Bool := data.take 4 == tag_header

/-- `_verify_checksum`: `struct.unpack("<I", data[512:516])` raises
`struct.error` when fewer than four bytes remain, else the stored word is
compared against `binascii.crc32(data[:512])`. -/
def verify_checksum (data : List Nat) : Except PyErr Bool :=
  if data.length < 516 then .error .structError
  else .ok (le32 (read_at data 512 4) == crc32 (data.take 512))

/-- `decode_tag_data` with working key `key` (the key the instance holds
after the UID logic: `derive_bambu_key(uid)` when a UID was supplied). -/
def decode_tag_data (key raw : List Nat) : Except PyErr (Option TagData) :=
  if raw.length < 512 then .ok none
  else if verify_header raw then
    let dec := xor_cipher key raw
    match verify_checksum dec with
    | .error e => .error e
    | .ok false => .ok none
    | .ok true =>
      match parse_tag_data dec with
      | .error e => .error e
      | .ok td => .ok (some td)
  else .ok none

/-- `decode_tag_data` on a decoder that never received a UID: after the
length and header gates it replaces its key by `derive_bambu_key(default
UID aa55cc33)` and proceeds.  The substitution happens before any use of
the key, and the repeated gates agree, so this equals `decode_tag_data`
with that derived key. -/
def decode_tag_data_no_uid (derive : List Nat → List Nat) (raw : List Nat) :
    Except PyErr (Option TagData) :=
  decode_tag_data (derive default_uid) raw

/-- The spool record handed to `encode_tag_data` (the `spool_data`
dictionary with the `version`/`flags`/`spool_data`/`manufacturing_info`
shape of `SAMPLE_TAG_DATA`; every field present and of the type the
encoder expects).  String fields carry their UTF-8 byte content. -/
structure SpoolRecord where
  version : Nat
  flags : List Nat
  ftype : String
  color : String
  diameter : ℚ
  nozzleTemp : Nat
  bedTemp : Nat
  density : ℚ
  remainingLength : ℚ
  remainingWeight : ℚ
  manufacturer : List Nat
  name : List Nat
  serial : List Nat
  date : Nat
  deriving DecidableEq, Repr

/-- The encoder raises when byte/word writes overflow or the colour has
hex-shape but bad digits; this guard collects exactly the conditions
under which all `struct.pack_into`/`bytearray` writes succeed and write
the advertised widths. -/
def encodable (r : SpoolRecord) : Prop :=
  r.version < 256 ∧ r.flags.length = 3 ∧ (∀ b ∈ r.flags, b < 256) ∧
  r.nozzleTemp < 65536 ∧ r.bedTemp < 65536 ∧ r.date < 4294967296 ∧
  (∀ b ∈ r.manufacturer, b < 256) ∧ (∀ b ∈ r.name, b < 256) ∧ (∀ b ∈ r.serial, b < 256)

instance (r : SpoolRecord) : Decidable (encodable r) := by unfold encodable; infer_instance

/-- The checksummed region `tag_buffer[:512]` as laid out by
`_encode_spool_data` and `_encode_manufacturing_info`: every write lands
at its fixed offset in the zero-initialised buffer, so the buffer is the
concatenation of the written chunks and the remaining zero gaps. -/
def record_plain (r : SpoolRecord) (rgb : List Nat) : List Nat :=
  tag_header ++ [r.version] ++ r.flags ++ List.replicate 120 0 ++
  le16_bytes (type_id_of_name r.ftype) ++ rgb ++
  f32le_bytes r.diameter ++ le16_bytes r.nozzleTemp ++ le16_bytes r.bedTemp ++
  f32le_bytes r.density ++ f32le_bytes r.remainingLength ++ f32le_bytes r.remainingWeight ++
  str32 r.manufacturer ++ str32 r.name ++ List.replicate 39 0 ++
  str32 r.serial ++ le32_bytes r.date ++ List.replicate 220 0

/-- `encode_tag_data` with working key `key`: write the fields, store
`crc32(buffer[:512])` at offset 512, XOR-encrypt everything after the
4-byte header. -/
def encode_tag_data (key : List Nat) (r : SpoolRecord) : Except PyErr (List Nat) :=
  if encodable r then
    match encode_color_bytes r.color with
    | .error e => .error e
    | .ok rgb =>
      .ok (xor_cipher key (record_plain r rgb ++ le32_bytes (crc32 (record_plain r rgb)) ++
        List.replicate 508 0))
  else .error .valueError

/-- The `SAMPLE_TAG_DATA` record of `bambu_algorithm.py`
(strings as UTF-8 bytes: `"Bambu Lab"`, `"Bambu PLA Matte"`,
`"BL12345678"`). -/
def sample_tag_data : SpoolRecord :=
  { version := 1
    flags := [0, 0, 0]
    ftype := "PLA"
    color := "#1E88E5"
    diameter := 175/100
    nozzleTemp := 220
    bedTemp := 60
    density := 124/100
    remainingLength := 240
    remainingWeight := 1000
    manufacturer := [0x42, 0x61, 0x6d, 0x62, 0x75, 0x20, 0x4c, 0x61, 0x62]
    name := [0x42, 0x61, 0x6d, 0x62, 0x75, 0x20, 0x50, 0x4c, 0x41, 0x20, 0x4d, 0x61, 0x74,
             0x74, 0x65]
    serial := [0x42, 0x4c, 0x31, 0x32, 0x33, 0x34, 0x35, 0x36, 0x37, 0x38]
    date := 1626912000 }

/-- Canonical `#RRGGBB` colour shape with upper-case hex digits (the form
the decoder itself produces). -/
def canonical_color (s : String) : Bool :=
  match s.toList with
  | ['#', c1, c2, c3, c4, c5, c6] =>
    [c1, c2, c3, c4, c5, c6].all fun c => "0123456789ABCDEF".toList.contains c
  | _ => false

/-- The structural side of record validity: a known material type, a
canonical `#RRGGBB` colour, binary32-representable numeric fields,
NUL-free strings within the 31 content bytes of their 32-byte wire
budget, and byte-valued version/flags/date words.  This is everything
the codec itself relies on; the documented numeric ranges come on top in
`valid_record`. -/
def codec_record (r : SpoolRecord) : Prop :=
  encodable r ∧
  r.ftype ∈ filament_types.map Prod.snd ∧
  canonical_color r.color = true ∧
  repr32 r.diameter ∧ repr32 r.density ∧
  repr32 r.remainingLength ∧ repr32 r.remainingWeight ∧
  r.manufacturer.length ≤ 31 ∧ (∀ b ∈ r.manufacturer, b ≠ 0) ∧
  r.name.length ≤ 31 ∧ (∀ b ∈ r.name, b ≠ 0) ∧
  r.serial.length ≤ 31 ∧ (∀ b ∈ r.serial, b ≠ 0)

instance (r : SpoolRecord) : Decidable (codec_record r) := by
  unfold codec_record; infer_instance

/-- A valid `SpoolRecord` in the sense of the specification's data model:
structurally well-formed with every numeric field inside its documented
range. -/
def valid_record (r : SpoolRecord) : Prop :=
  codec_record r ∧
  1 ≤ r.diameter ∧ r.diameter ≤ 3 ∧
  1/2 ≤ r.density ∧ r.density ≤ 5 ∧
  0 ≤ r.remainingLength ∧ r.remainingLength ≤ 10000 ∧
  0 ≤ r.remainingWeight ∧ r.remainingWeight ≤ 5000 ∧
  150 ≤ r.nozzleTemp ∧ r.nozzleTemp ≤ 350 ∧ r.bedTemp ≤ 150

instance (r : SpoolRecord) : Decidable (valid_record r) := by
  unfold valid_record; infer_instance

/-! ## Properties of the XOR stream cipher -/

theorem xor_cipher_from_length (key : List Nat) (kl : Nat) :
    ∀ (i : Nat) (l : List Nat), (xor_cipher_from key kl i l).length = l.length := by
  intro i l
  induction l generalizing i with
  | nil => rfl
  | cons b rest ih => simp only [xor_cipher_from, List.length_cons, ih]

theorem xor_cipher_length (key data : List Nat) :
    (xor_cipher key data).length = data.length := xor_cipher_from_length key key.length 0 data

theorem xor_cipher_from_invol (key : List Nat) (kl : Nat) :
    ∀ (i : Nat) (l : List Nat), xor_cipher_from key kl i (xor_cipher_from key kl i l) = l := by
  intro i l
  induction l generalizing i with
  | nil => rfl
  | cons b rest ih =>
    simp only [xor_cipher_from]
    by_cases h : i < 4
    · simp only [if_pos h, ih]
    · simp only [if_neg h, Nat.xor_cancel_right, ih]

theorem xor_cipher_invol (key data : List Nat) :
    xor_cipher key (xor_cipher key data) = data := xor_cipher_from_invol key key.length 0 data

theorem xor_cipher_from_take (key : List Nat) (kl : Nat) :
    ∀ (n i : Nat) (l : List Nat), i + n ≤ 4 →
      (xor_cipher_from key kl i l).take n = l.take n := by
  intro n
  induction n with
  | zero => intro i l _; simp
  | succ m ih =>
    intro i l h
    match l with
    | [] => rfl
    | b :: rest =>
      simp only [xor_cipher_from, List.take_succ_cons]
      rw [if_pos (by omega), ih (i + 1) rest (by omega)]

theorem xor_cipher_take4 (key data : List Nat) :
    (xor_cipher key data).take 4 = data.take 4 :=
  xor_cipher_from_take key key.length 4 0 data (by omega)

theorem xor_cipher_from_set (key : List Nat) (kl : Nat) :
    ∀ (j i : Nat) (l : List Nat) (v : Nat), 4 ≤ i + j →
      xor_cipher_from key kl i (l.set j v) =
        (xor_cipher_from key kl i l).set j (v ^^^ key.getD ((i + j - 4) % kl) 0) := by
  intro j
  induction j with
  | zero =>
    intro i l v h
    match l with
    | [] => rfl
    | b :: rest =>
      simp only [List.set_cons_zero, xor_cipher_from, if_neg (by omega : ¬ i < 4)]
      simp only [Nat.add_zero]
  | succ m ih =>
    intro i l v h
    match l with
    | [] => rfl
    | b :: rest =>
      simp only [List.set_cons_succ, xor_cipher_from]
      rw [ih (i + 1) rest v (by omega)]
      have he : i + 1 + m - 4 = i + (m + 1) - 4 := by omega
      rw [he]

/-- Byte `i ≥ 4` of the cipher output is the plain byte XORed with the
cyclic key byte. -/
theorem xor_cipher_set (key data : List Nat) (j v : Nat) (h : 4 ≤ j) :
    xor_cipher key (data.set j v) =
      (xor_cipher key data).set j (v ^^^ key.getD ((j - 4) % key.length) 0) := by
  unfold xor_cipher
  rw [xor_cipher_from_set key key.length j 0 data v (by omega)]
  have he : 0 + j - 4 = j - 4 := by omega
  rw [he]

/-! ## Buffer layout lemmas -/

theorem drop_append_ge (c rest : List Nat) (k : Nat) (h : c.length ≤ k) :
    (c ++ rest).drop k = rest.drop (k - c.length) := by
  have he : k = c.length + (k - c.length) := by omega
  rw [he, List.drop_append]
  congr 1
  omega

theorem read_at_skip (c rest : List Nat) (o n : Nat) (h : c.length ≤ o) :
    read_at (c ++ rest) o n = read_at rest (o - c.length) n := by
  unfold read_at
  rw [drop_append_ge c rest o h]

theorem read_at_left (c rest : List Nat) (o n : Nat) (h : o + n ≤ c.length) :
    read_at (c ++ rest) o n = read_at c o n := by
  unfold read_at
  rw [List.drop_append_of_le_length (by omega), List.take_append_of_le_length]
  simp only [List.length_drop]
  omega

theorem read_at_chunk (c rest : List Nat) (n : Nat) (hc : c.length = n) :
    read_at (c ++ rest) 0 n = c := by
  unfold read_at
  rw [List.drop_zero, List.take_append_of_le_length (by omega), ← hc, List.take_length]

theorem byte_at_skip (c rest : List Nat) (i : Nat) (h : c.length ≤ i) :
    byte_at (c ++ rest) i = byte_at rest (i - c.length) := by
  unfold byte_at
  rw [drop_append_ge c rest i h]

theorem byte_at_cons (b : Nat) (rest : List Nat) : byte_at (b :: rest) 0 = b := rfl

theorem str32_length (s : List Nat) : (str32 s).length = 32 := by
  unfold str32
  simp only [List.length_append, List.length_take, List.length_replicate, List.length_cons,
    List.length_nil]
  omega

theorem str32_lt (s : List Nat) (hs : ∀ b ∈ s, b < 256) : ∀ b ∈ str32 s, b < 256 := by
  intro b hb
  unfold str32 at hb
  simp only [List.mem_append, List.mem_cons, List.not_mem_nil, or_false,
    List.mem_replicate] at hb
  rcases hb with (h | h) | h
  · exact hs b (List.mem_of_mem_take h)
  · omega
  · omega

theorem record_plain_length (r : SpoolRecord) (rgb : List Nat)
    (hfl : r.flags.length = 3) (hrgb : rgb.length = 3) :
    (record_plain r rgb).length = 512 := by
  unfold record_plain
  simp only [List.length_append, List.length_cons, List.length_nil, List.length_replicate,
    hfl, hrgb, str32_length, le16_bytes_length, le32_bytes_length, f32le_bytes,
    tag_header]

theorem record_plain_lt (r : SpoolRecord) (rgb : List Nat)
    (henc : encodable r) (hrgb : ∀ b ∈ rgb, b < 256) :
    ∀ b ∈ record_plain r rgb, b < 256 := by
  obtain ⟨hv, _, hflb, _, _, _, hma, hna, hse⟩ := henc
  intro b hb
  unfold record_plain at hb
  simp only [List.append_assoc, List.mem_append, List.mem_cons, List.not_mem_nil,
    or_false] at hb
  rcases hb with h | h | h | h | h | h | h | h | h | h | h | h | h | h | h | h | h | h
  · simp only [tag_header, List.mem_cons, List.not_mem_nil, or_false] at h
    rcases h with rfl | rfl | rfl | rfl <;> norm_num
  · subst h; omega
  · exact hflb b h
  · rw [List.mem_replicate] at h; omega
  · exact le16_bytes_lt _ b h
  · exact hrgb b h
  · exact le32_bytes_lt _ b h
  · exact le16_bytes_lt _ b h
  · exact le16_bytes_lt _ b h
  · exact le32_bytes_lt _ b h
  · exact le32_bytes_lt _ b h
  · exact le32_bytes_lt _ b h
  · exact str32_lt _ hma b h
  · exact str32_lt _ hna b h
  · rw [List.mem_replicate] at h; omega
  · exact str32_lt _ hse b h
  · exact le32_bytes_lt _ b h
  · rw [List.mem_replicate] at h; omega

/-! ## Colour and type-table round-trips -/

theorem upper_hex_spec :
    ∀ c ∈ "0123456789ABCDEF".toList, ∃ d, hex_digit_val c = some d ∧ d < 16 ∧ up_hex d = c := by
  decide

theorem up_hex_mem : ∀ d < 16, up_hex d ∈ "0123456789ABCDEF".toList := by decide

theorem up_hex2_pair {d1 d2 : Nat} (h1 : d1 < 16) (h2 : d2 < 16) :
    up_hex2 (16 * d1 + d2) = [up_hex d1, up_hex d2] := by
  unfold up_hex2
  have e1 : (16 * d1 + d2) / 16 % 16 = d1 := by omega
  have e2 : (16 * d1 + d2) % 16 = d2 := by omega
  rw [e1, e2]

theorem canonical_color_encode (s : String) (h : canonical_color s = true) :
    ∃ rr gg bb, encode_color_bytes s = .ok [rr, gg, bb] ∧ rr < 256 ∧ gg < 256 ∧ bb < 256 ∧
      color_str rr gg bb = s := by
  obtain ⟨data⟩ := s
  unfold canonical_color at h
  split at h
  case h_2 => exact absurd h (by simp)
  case h_1 c1 c2 c3 c4 c5 c6 heq =>
    have hdata : data = ['#', c1, c2, c3, c4, c5, c6] := heq
    rw [List.all_eq_true] at h
    have hmem : ∀ c ∈ [c1, c2, c3, c4, c5, c6], c ∈ "0123456789ABCDEF".toList := by
      intro c hc
      exact List.mem_of_elem_eq_true (h c hc)
    obtain ⟨d1, hd1, hlt1, hu1⟩ := upper_hex_spec c1 (hmem c1 (by simp))
    obtain ⟨d2, hd2, hlt2, hu2⟩ := upper_hex_spec c2 (hmem c2 (by simp))
    obtain ⟨d3, hd3, hlt3, hu3⟩ := upper_hex_spec c3 (hmem c3 (by simp))
    obtain ⟨d4, hd4, hlt4, hu4⟩ := upper_hex_spec c4 (hmem c4 (by simp))
    obtain ⟨d5, hd5, hlt5, hu5⟩ := upper_hex_spec c5 (hmem c5 (by simp))
    obtain ⟨d6, hd6, hlt6, hu6⟩ := upper_hex_spec c6 (hmem c6 (by simp))
    refine ⟨16 * d1 + d2, 16 * d3 + d4, 16 * d5 + d6, ?_, by omega, by omega, by omega, ?_⟩
    · unfold encode_color_bytes
      have htl : (String.mk data).toList = ['#', c1, c2, c3, c4, c5, c6] := hdata
      rw [htl]
      simp only [hex_pair_val, hd1, hd2, hd3, hd4, hd5, hd6, Option.bind_eq_bind,
        Option.bind_some, Option.pure_def]
      rfl
    · unfold color_str
      rw [up_hex2_pair hlt1 hlt2, up_hex2_pair hlt3 hlt4, up_hex2_pair hlt5 hlt6,
        hu1, hu2, hu3, hu4, hu5, hu6, hdata]
      rfl

theorem string_mk_toList (l : List Char) : (String.mk l).toList = l := rfl

theorem canonical_color_str {r g b : Nat} (hr : r < 256) (hg : g < 256) (hb : b < 256) :
    canonical_color (color_str r g b) = true := by
  unfold color_str canonical_color up_hex2
  simp only [List.cons_append, List.nil_append, string_mk_toList]
  rw [List.all_eq_true]
  intro c hc
  simp only [List.mem_cons, List.not_mem_nil, or_false] at hc
  rcases hc with rfl | rfl | rfl | rfl | rfl | rfl <;>
    exact List.elem_eq_true_of_mem (up_hex_mem _ (by omega))

theorem type_id_lt (s : String) : type_id_of_name s < 65536 := by
  unfold type_id_of_name
  match hf : filament_types.find? (fun p => p.2 == s) with
  | none => simp [hf]
  | some p =>
    have hp := List.mem_of_find?_eq_some hf
    have : p.1 < 65536 := by
      revert hp
      unfold filament_types
      intro hp
      fin_cases hp <;> norm_num
    simpa [hf] using this

theorem name_of_type_id_of_name (s : String) (hs : s ∈ filament_types.map Prod.snd) :
    name_of_type_id (type_id_of_name s) = s := by
  simp only [filament_types, List.map_cons, List.map_nil, List.mem_cons,
    List.not_mem_nil, or_false] at hs
  rcases hs with rfl | rfl | rfl | rfl | rfl | rfl | rfl | rfl | rfl | rfl | rfl | rfl |
    rfl | rfl | rfl <;> rfl

/-! ## Extracting the strings the encoder wrote -/

theorem findIdx?_first_zero (s rest : List Nat) (hnz : ∀ b ∈ s, b ≠ 0) :
    ∀ i, List.findIdx? (fun b => b == 0) (s ++ 0 :: rest) i = some (s.length + i) := by
  induction s with
  | nil =>
    intro i
    simp [List.findIdx?_cons]
  | cons a t ih =>
    intro i
    have ha : (a == 0) = false := by
      have := hnz a (List.mem_cons_self a t)
      simp [this]
    simp only [List.cons_append, List.findIdx?_cons, ha, if_false, Bool.false_eq_true]
    rw [ih (fun b hb => hnz b (List.mem_cons_of_mem a hb)) (i + 1)]
    simp only [List.length_cons]
    congr 1
    omega

theorem str32_eq (s : List Nat) (hlen : s.length ≤ 31) :
    str32 s = s ++ 0 :: List.replicate (31 - s.length) 0 := by
  unfold str32
  rw [List.take_of_length_le hlen]
  simp

theorem extract_string_str32 (data tail s : List Nat) (off : Nat)
    (hd : data.drop off = str32 s ++ tail)
    (hlen : s.length ≤ 31) (hnz : ∀ b ∈ s, b ≠ 0) :
    extract_string data off 32 = s := by
  unfold extract_string
  simp only [hd]
  rw [List.take_append_of_le_length (by rw [str32_length])]
  rw [List.take_of_length_le (by rw [str32_length])]
  rw [str32_eq s hlen]
  rw [findIdx?_first_zero s _ hnz 0]
  simp only [Nat.add_zero]
  rw [List.take_append_of_le_length (le_refl _), List.take_length]

theorem drop_chunk (l c tail : List Nat) (o o2 n : Nat)
    (h : l.drop o = c ++ tail) (hn : c.length = n) (ho : o2 = o + n) :
    l.drop o2 = tail := by
  have h2 : l.drop o2 = (l.drop o).drop n := by rw [List.drop_drop, ho, Nat.add_comm]
  rw [h2, h, drop_append_ge c tail n (by omega), hn]
  simp

theorem read_chunk (l c tail : List Nat) (o n : Nat)
    (h : l.drop o = c ++ tail) (hn : c.length = n) :
    read_at l o n = c := by
  unfold read_at
  rw [h, List.take_append_of_le_length (by omega), ← hn, List.take_length]

theorem head_chunk (l tail : List Nat) (b o : Nat)
    (h : l.drop o = b :: tail) : byte_at l o = b := by
  unfold byte_at
  rw [h]
  rfl

theorem f32le_bytes_length (q : ℚ) : (f32le_bytes q).length = 4 := rfl

theorem drop_cons_chunk (l tail : List Nat) (b o o2 : Nat)
    (h : l.drop o = b :: tail) (ho : o2 = o + 1) : l.drop o2 = tail := by
  have h2 : l.drop o2 = (l.drop o).drop 1 := by rw [List.drop_drop, ho, Nat.add_comm]
  rw [h2, h, List.drop_one, List.tail_cons]

set_option maxRecDepth 4000 in
set_option maxHeartbeats 2000000 in
/-- Decode-of-encode, field by field: encoding any valid record with a key
and decrypt-decoding with the same key succeeds, and reproduces the exact
fields and the `round`-ed numeric fields. -/
theorem decode_encode (key : List Nat) (r : SpoolRecord) (hval : codec_record r) :
    ∃ enc td, encode_tag_data key r = .ok enc ∧ decode_tag_data key enc = .ok (some td) ∧
      td.ftype = r.ftype ∧ td.color = r.color ∧ td.nozzleTemp = r.nozzleTemp ∧
      td.bedTemp = r.bedTemp ∧ td.manufacturer = r.manufacturer ∧ td.name = r.name ∧
      td.diameter = .finite (py_round_q 2 r.diameter) ∧
      td.density = .finite (py_round_q 3 r.density) ∧
      td.remainingLength = .finite (py_round_q 1 r.remainingLength) ∧
      td.remainingWeight = round_half_even r.remainingWeight ∧
      td.serial = r.serial ∧ td.date = r.date := by
  obtain ⟨henc, hft, hcol, hd32, hde32, hrl32, hrw32,
    hmal, hmanz, hnal, hnanz, hsel, hsenz⟩ := hval
  obtain ⟨hv256, hfl, hflb, hntw, hbtw, hdt, hmab, hnab, hseb⟩ := henc
  obtain ⟨rr, gg, bb, hrgbeq, hrr, hgg, hbb, hcolstr⟩ := canonical_color_encode r.color hcol
  set p := record_plain r [rr, gg, bb] with hp
  have hp512 : p.length = 512 := record_plain_length r _ hfl rfl
  have hpbytes : ∀ b ∈ p, b < 256 := by
    apply record_plain_lt r _ ⟨hv256, hfl, hflb, hntw, hbtw, hdt, hmab, hnab, hseb⟩
    intro b hb
    simp only [List.mem_cons, List.not_mem_nil, or_false] at hb
    rcases hb with rfl | rfl | rfl
    exacts [hrr, hgg, hbb]
  set full := p ++ le32_bytes (crc32 p) ++ List.replicate 508 0 with hfulldef
  have hflen : full.length = 1024 := by
    rw [hfulldef]
    simp only [List.length_append, hp512, le32_bytes_length, List.length_replicate]
  have hencode : encode_tag_data key r = .ok (xor_cipher key full) := by
    unfold encode_tag_data
    rw [if_pos (show encodable r from ⟨hv256, hfl, hflb, hntw, hbtw, hdt, hmab, hnab, hseb⟩)]
    rw [hrgbeq, hfulldef, hp]
  have d0 : full.drop 0 = tag_header ++ ([r.version] ++ (r.flags ++ (List.replicate 120 0 ++ (le16_bytes (type_id_of_name r.ftype) ++ ([rr, gg, bb] ++ (f32le_bytes r.diameter ++ (le16_bytes r.nozzleTemp ++ (le16_bytes r.bedTemp ++ (f32le_bytes r.density ++ (f32le_bytes r.remainingLength ++ (f32le_bytes r.remainingWeight ++ (str32 r.manufacturer ++ (str32 r.name ++ (List.replicate 39 0 ++ (str32 r.serial ++ (le32_bytes r.date ++ (List.replicate 220 0 ++ (le32_bytes (crc32 p) ++ (List.replicate 508 0))))))))))))))))))) := by
    rw [List.drop_zero, hfulldef, hp]
    unfold record_plain
    simp only [List.append_assoc]
  have d4 : full.drop 4 = [r.version] ++ (r.flags ++ (List.replicate 120 0 ++ (le16_bytes (type_id_of_name r.ftype) ++ ([rr, gg, bb] ++ (f32le_bytes r.diameter ++ (le16_bytes r.nozzleTemp ++ (le16_bytes r.bedTemp ++ (f32le_bytes r.density ++ (f32le_bytes r.remainingLength ++ (f32le_bytes r.remainingWeight ++ (str32 r.manufacturer ++ (str32 r.name ++ (List.replicate 39 0 ++ (str32 r.serial ++ (le32_bytes r.date ++ (List.replicate 220 0 ++ (le32_bytes (crc32 p) ++ (List.replicate 508 0)))))))))))))))))) :=
    drop_chunk full (tag_header) _ 0 4 4 d0 rfl rfl
  have d5 : full.drop 5 = r.flags ++ (List.replicate 120 0 ++ (le16_bytes (type_id_of_name r.ftype) ++ ([rr, gg, bb] ++ (f32le_bytes r.diameter ++ (le16_bytes r.nozzleTemp ++ (le16_bytes r.bedTemp ++ (f32le_bytes r.density ++ (f32le_bytes r.remainingLength ++ (f32le_bytes r.remainingWeight ++ (str32 r.manufacturer ++ (str32 r.name ++ (List.replicate 39 0 ++ (str32 r.serial ++ (le32_bytes r.date ++ (List.replicate 220 0 ++ (le32_bytes (crc32 p) ++ (List.replicate 508 0))))))))))))))))) :=
    drop_chunk full ([r.version]) _ 4 5 1 d4 rfl rfl
  have d8 : full.drop 8 = List.replicate 120 0 ++ (le16_bytes (type_id_of_name r.ftype) ++ ([rr, gg, bb] ++ (f32le_bytes r.diameter ++ (le16_bytes r.nozzleTemp ++ (le16_bytes r.bedTemp ++ (f32le_bytes r.density ++ (f32le_bytes r.remainingLength ++ (f32le_bytes r.remainingWeight ++ (str32 r.manufacturer ++ (str32 r.name ++ (List.replicate 39 0 ++ (str32 r.serial ++ (le32_bytes r.date ++ (List.replicate 220 0 ++ (le32_bytes (crc32 p) ++ (List.replicate 508 0)))))))))))))))) :=
    drop_chunk full (r.flags) _ 5 8 3 d5 hfl rfl
  have d128 : full.drop 128 = le16_bytes (type_id_of_name r.ftype) ++ ([rr, gg, bb] ++ (f32le_bytes r.diameter ++ (le16_bytes r.nozzleTemp ++ (le16_bytes r.bedTemp ++ (f32le_bytes r.density ++ (f32le_bytes r.remainingLength ++ (f32le_bytes r.remainingWeight ++ (str32 r.manufacturer ++ (str32 r.name ++ (List.replicate 39 0 ++ (str32 r.serial ++ (le32_bytes r.date ++ (List.replicate 220 0 ++ (le32_bytes (crc32 p) ++ (List.replicate 508 0))))))))))))))) :=
    drop_chunk full (List.replicate 120 0) _ 8 128 120 d8 (by simp) rfl
  have d130 : full.drop 130 = [rr, gg, bb] ++ (f32le_bytes r.diameter ++ (le16_bytes r.nozzleTemp ++ (le16_bytes r.bedTemp ++ (f32le_bytes r.density ++ (f32le_bytes r.remainingLength ++ (f32le_bytes r.remainingWeight ++ (str32 r.manufacturer ++ (str32 r.name ++ (List.replicate 39 0 ++ (str32 r.serial ++ (le32_bytes r.date ++ (List.replicate 220 0 ++ (le32_bytes (crc32 p) ++ (List.replicate 508 0)))))))))))))) :=
    drop_chunk full (le16_bytes (type_id_of_name r.ftype)) _ 128 130 2 d128 (le16_bytes_length _) rfl
  have d133 : full.drop 133 = f32le_bytes r.diameter ++ (le16_bytes r.nozzleTemp ++ (le16_bytes r.bedTemp ++ (f32le_bytes r.density ++ (f32le_bytes r.remainingLength ++ (f32le_bytes r.remainingWeight ++ (str32 r.manufacturer ++ (str32 r.name ++ (List.replicate 39 0 ++ (str32 r.serial ++ (le32_bytes r.date ++ (List.replicate 220 0 ++ (le32_bytes (crc32 p) ++ (List.replicate 508 0))))))))))))) :=
    drop_chunk full ([rr, gg, bb]) _ 130 133 3 d130 rfl rfl
  have d137 : full.drop 137 = le16_bytes r.nozzleTemp ++ (le16_bytes r.bedTemp ++ (f32le_bytes r.density ++ (f32le_bytes r.remainingLength ++ (f32le_bytes r.remainingWeight ++ (str32 r.manufacturer ++ (str32 r.name ++ (List.replicate 39 0 ++ (str32 r.serial ++ (le32_bytes r.date ++ (List.replicate 220 0 ++ (le32_bytes (crc32 p) ++ (List.replicate 508 0)))))))))))) :=
    drop_chunk full (f32le_bytes r.diameter) _ 133 137 4 d133 (f32le_bytes_length _) rfl
  have d139 : full.drop 139 = le16_bytes r.bedTemp ++ (f32le_bytes r.density ++ (f32le_bytes r.remainingLength ++ (f32le_bytes r.remainingWeight ++ (str32 r.manufacturer ++ (str32 r.name ++ (List.replicate 39 0 ++ (str32 r.serial ++ (le32_bytes r.date ++ (List.replicate 220 0 ++ (le32_bytes (crc32 p) ++ (List.replicate 508 0))))))))))) :=
    drop_chunk full (le16_bytes r.nozzleTemp) _ 137 139 2 d137 (le16_bytes_length _) rfl
  have d141 : full.drop 141 = f32le_bytes r.density ++ (f32le_bytes r.remainingLength ++ (f32le_bytes r.remainingWeight ++ (str32 r.manufacturer ++ (str32 r.name ++ (List.replicate 39 0 ++ (str32 r.serial ++ (le32_bytes r.date ++ (List.replicate 220 0 ++ (le32_bytes (crc32 p) ++ (List.replicate 508 0)))))))))) :=
    drop_chunk full (le16_bytes r.bedTemp) _ 139 141 2 d139 (le16_bytes_length _) rfl
  have d145 : full.drop 145 = f32le_bytes r.remainingLength ++ (f32le_bytes r.remainingWeight ++ (str32 r.manufacturer ++ (str32 r.name ++ (List.replicate 39 0 ++ (str32 r.serial ++ (le32_bytes r.date ++ (List.replicate 220 0 ++ (le32_bytes (crc32 p) ++ (List.replicate 508 0))))))))) :=
    drop_chunk full (f32le_bytes r.density) _ 141 145 4 d141 (f32le_bytes_length _) rfl
  have d149 : full.drop 149 = f32le_bytes r.remainingWeight ++ (str32 r.manufacturer ++ (str32 r.name ++ (List.replicate 39 0 ++ (str32 r.serial ++ (le32_bytes r.date ++ (List.replicate 220 0 ++ (le32_bytes (crc32 p) ++ (List.replicate 508 0)))))))) :=
    drop_chunk full (f32le_bytes r.remainingLength) _ 145 149 4 d145 (f32le_bytes_length _) rfl
  have d153 : full.drop 153 = str32 r.manufacturer ++ (str32 r.name ++ (List.replicate 39 0 ++ (str32 r.serial ++ (le32_bytes r.date ++ (List.replicate 220 0 ++ (le32_bytes (crc32 p) ++ (List.replicate 508 0))))))) :=
    drop_chunk full (f32le_bytes r.remainingWeight) _ 149 153 4 d149 (f32le_bytes_length _) rfl
  have d185 : full.drop 185 = str32 r.name ++ (List.replicate 39 0 ++ (str32 r.serial ++ (le32_bytes r.date ++ (List.replicate 220 0 ++ (le32_bytes (crc32 p) ++ (List.replicate 508 0)))))) :=
    drop_chunk full (str32 r.manufacturer) _ 153 185 32 d153 (str32_length _) rfl
  have d217 : full.drop 217 = List.replicate 39 0 ++ (str32 r.serial ++ (le32_bytes r.date ++ (List.replicate 220 0 ++ (le32_bytes (crc32 p) ++ (List.replicate 508 0))))) :=
    drop_chunk full (str32 r.name) _ 185 217 32 d185 (str32_length _) rfl
  have d256 : full.drop 256 = str32 r.serial ++ (le32_bytes r.date ++ (List.replicate 220 0 ++ (le32_bytes (crc32 p) ++ (List.replicate 508 0)))) :=
    drop_chunk full (List.replicate 39 0) _ 217 256 39 d217 (by simp) rfl
  have d288 : full.drop 288 = le32_bytes r.date ++ (List.replicate 220 0 ++ (le32_bytes (crc32 p) ++ (List.replicate 508 0))) :=
    drop_chunk full (str32 r.serial) _ 256 288 32 d256 (str32_length _) rfl
  have d292 : full.drop 292 = List.replicate 220 0 ++ (le32_bytes (crc32 p) ++ (List.replicate 508 0)) :=
    drop_chunk full (le32_bytes r.date) _ 288 292 4 d288 (le32_bytes_length _) rfl
  have d512 : full.drop 512 = le32_bytes (crc32 p) ++ (List.replicate 508 0) :=
    drop_chunk full (List.replicate 220 0) _ 292 512 220 d292 (by simp) rfl
  have d516 : full.drop 516 = List.replicate 508 0 :=
    drop_chunk full (le32_bytes (crc32 p)) _ 512 516 4 d512 (le32_bytes_length _) rfl
  have h_type : read_at full 128 2 = le16_bytes (type_id_of_name r.ftype) :=
    read_chunk full _ _ 128 2 d128 (le16_bytes_length _)
  have d130c : full.drop 130 = rr :: (gg :: (bb :: (f32le_bytes r.diameter ++ (le16_bytes r.nozzleTemp ++ (le16_bytes r.bedTemp ++ (f32le_bytes r.density ++ (f32le_bytes r.remainingLength ++ (f32le_bytes r.remainingWeight ++ (str32 r.manufacturer ++ (str32 r.name ++ (List.replicate 39 0 ++ (str32 r.serial ++ (le32_bytes r.date ++ (List.replicate 220 0 ++ (le32_bytes (crc32 p) ++ (List.replicate 508 0)))))))))))))))) := by
    rw [d130]
    simp only [List.cons_append, List.nil_append]
  have e130 : byte_at full 130 = rr := head_chunk full _ rr 130 d130c
  have d131 : full.drop 131 = gg :: (bb :: (f32le_bytes r.diameter ++ (le16_bytes r.nozzleTemp ++ (le16_bytes r.bedTemp ++ (f32le_bytes r.density ++ (f32le_bytes r.remainingLength ++ (f32le_bytes r.remainingWeight ++ (str32 r.manufacturer ++ (str32 r.name ++ (List.replicate 39 0 ++ (str32 r.serial ++ (le32_bytes r.date ++ (List.replicate 220 0 ++ (le32_bytes (crc32 p) ++ (List.replicate 508 0))))))))))))))) :=
    drop_cons_chunk full _ rr 130 131 d130c rfl
  have e131 : byte_at full 131 = gg := head_chunk full _ gg 131 d131
  have d132 : full.drop 132 = bb :: (f32le_bytes r.diameter ++ (le16_bytes r.nozzleTemp ++ (le16_bytes r.bedTemp ++ (f32le_bytes r.density ++ (f32le_bytes r.remainingLength ++ (f32le_bytes r.remainingWeight ++ (str32 r.manufacturer ++ (str32 r.name ++ (List.replicate 39 0 ++ (str32 r.serial ++ (le32_bytes r.date ++ (List.replicate 220 0 ++ (le32_bytes (crc32 p) ++ (List.replicate 508 0)))))))))))))) :=
    drop_cons_chunk full _ gg 131 132 d131 rfl
  have e132 : byte_at full 132 = bb := head_chunk full _ bb 132 d132
  have h_dia : read_at full 133 4 = f32le_bytes r.diameter :=
    read_chunk full _ _ 133 4 d133 (f32le_bytes_length _)
  have h_nt : read_at full 137 2 = le16_bytes r.nozzleTemp :=
    read_chunk full _ _ 137 2 d137 (le16_bytes_length _)
  have h_bt : read_at full 139 2 = le16_bytes r.bedTemp :=
    read_chunk full _ _ 139 2 d139 (le16_bytes_length _)
  have h_de : read_at full 141 4 = f32le_bytes r.density :=
    read_chunk full _ _ 141 4 d141 (f32le_bytes_length _)
  have h_rl : read_at full 145 4 = f32le_bytes r.remainingLength :=
    read_chunk full _ _ 145 4 d145 (f32le_bytes_length _)
  have h_rw : read_at full 149 4 = f32le_bytes r.remainingWeight :=
    read_chunk full _ _ 149 4 d149 (f32le_bytes_length _)
  have h_ma : extract_string full 153 32 = r.manufacturer :=
    extract_string_str32 full _ _ 153 d153 hmal hmanz
  have h_na : extract_string full 185 32 = r.name :=
    extract_string_str32 full _ _ 185 d185 hnal hnanz
  have h_se : extract_string full 256 32 = r.serial :=
    extract_string_str32 full _ _ 256 d256 hsel hsenz
  have h_date : read_at full 288 4 = le32_bytes r.date :=
    read_chunk full _ _ 288 4 d288 (le32_bytes_length _)
  have h_crc : read_at full 512 4 = le32_bytes (crc32 p) :=
    read_chunk full _ _ 512 4 d512 (le32_bytes_length _)
  have hcrclt : crc32 p < 4294967296 := crc32_lt p hpbytes
  have htake512 : full.take 512 = p := by
    rw [hfulldef, List.append_assoc, List.take_append_of_le_length (by omega),
      List.take_of_length_le (by omega)]
  have hchk : verify_checksum full = .ok true := by
    unfold verify_checksum
    rw [if_neg (by omega), h_crc, htake512, le32_le32_bytes _ hcrclt]
    simp
  have htid : type_id_of_name r.ftype < 65536 := type_id_lt r.ftype
  have hparse : parse_tag_data full = .ok
      { rawHeader := full.take 16
        version := r.version
        flags := r.flags
        typeId := type_id_of_name r.ftype
        ftype := r.ftype
        color := r.color
        diameter := .finite (py_round_q 2 r.diameter)
        nozzleTemp := r.nozzleTemp
        bedTemp := r.bedTemp
        density := .finite (py_round_q 3 r.density)
        remainingLength := .finite (py_round_q 1 r.remainingLength)
        remainingWeight := round_half_even r.remainingWeight
        manufacturer := r.manufacturer
        name := r.name
        serial := r.serial
        date := r.date } := by
    unfold parse_tag_data
    rw [h_type, le16_le16_bytes _ htid]
    rw [h_rw, f32le_f32le_bytes hrw32]
    simp only [py_round_int]
    rw [h_dia, f32le_f32le_bytes hd32, h_de, f32le_f32le_bytes hde32,
      h_rl, f32le_f32le_bytes hrl32]
    rw [h_nt, le16_le16_bytes _ hntw, h_bt, le16_le16_bytes _ hbtw]
    rw [e130, e131, e132, hcolstr]
    rw [h_ma, h_na, h_se, h_date, le32_le32_bytes _ hdt]
    rw [head_chunk full _ r.version 4 (by rw [d4, List.singleton_append])]
    rw [read_chunk full _ _ 5 3 d5 hfl]
    rw [name_of_type_id_of_name r.ftype hft]
    simp only [py_round_f]
  refine ⟨xor_cipher key full,
    { rawHeader := full.take 16, version := r.version, flags := r.flags, typeId := type_id_of_name r.ftype, ftype := r.ftype, color := r.color, diameter := .finite (py_round_q 2 r.diameter), nozzleTemp := r.nozzleTemp, bedTemp := r.bedTemp, density := .finite (py_round_q 3 r.density), remainingLength := .finite (py_round_q 1 r.remainingLength), remainingWeight := round_half_even r.remainingWeight, manufacturer := r.manufacturer, name := r.name, serial := r.serial, date := r.date },
    hencode, ?_, rfl, rfl, rfl, rfl, rfl, rfl, rfl, rfl, rfl, rfl, rfl, rfl⟩
  unfold decode_tag_data
  rw [if_neg (by rw [xor_cipher_length, hflen]; omega)]
  have hhdr : verify_header (xor_cipher key full) = true := by
    unfold verify_header
    rw [xor_cipher_take4]
    have h4 : full.take 4 = tag_header := by
      have := d0
      rw [List.drop_zero] at this
      rw [this, List.take_append_of_le_length (by simp [tag_header])]
      rfl
    rw [h4]
    rfl
  rw [if_pos hhdr]
  simp only [xor_cipher_invol, hchk, hparse]

/-! ## Claim C1 -/

/-- C1: for every valid `SpoolRecord` and every UID, encoding the record
with the key derived from that UID (under either key-derivation
implementation) and then decoding the resulting 1024-byte image with the
same UID succeeds and reproduces every field: type, color, nozzle_temp,
bed_temp, manufacturer and name exactly, and diameter/density within
0.01, remaining_length within 0.1, remaining_weight within 1. -/
theorem C1_roundtrip (r : SpoolRecord) (uid key : List Nat) (hval : valid_record r)
    (hkey : key = derive_bambu_key_fallback uid ∨ key = derive_bambu_key_hkdf uid) :
    ∃ enc td, encode_tag_data key r = .ok enc ∧ enc.length = 1024 ∧
      decode_tag_data key enc = .ok (some td) ∧
      td.ftype = r.ftype ∧ td.color = r.color ∧ td.nozzleTemp = r.nozzleTemp ∧
      td.bedTemp = r.bedTemp ∧ td.manufacturer = r.manufacturer ∧ td.name = r.name ∧
      (∃ d, td.diameter = .finite d ∧ |d - r.diameter| ≤ 1/100) ∧
      (∃ d, td.density = .finite d ∧ |d - r.density| ≤ 1/100) ∧
      (∃ d, td.remainingLength = .finite d ∧ |d - r.remainingLength| ≤ 1/10) ∧
      |(td.remainingWeight : ℚ) - r.remainingWeight| ≤ 1 := by
  obtain ⟨enc, td, h1, h2, h3, h4, h5, h6, h7, h8, hdia, hden, hrl, hwt, _, _⟩ :=
    decode_encode key r hval.1
  have hlen : enc.length = 1024 := by
    obtain ⟨rr, gg, bb, hrgbeq, -, -, -, -⟩ := canonical_color_encode r.color hval.1.2.2.1
    unfold encode_tag_data at h1
    rw [if_pos hval.1.1, hrgbeq] at h1
    simp only [Except.ok.injEq] at h1
    rw [← h1, xor_cipher_length]
    simp only [List.length_append, le32_bytes_length, List.length_replicate,
      record_plain_length r [rr, gg, bb] hval.1.1.2.1 rfl]
  refine ⟨enc, td, h1, hlen, h2, h3, h4, h5, h6, h7, h8, ⟨_, hdia, ?_⟩, ⟨_, hden, ?_⟩,
    ⟨_, hrl, ?_⟩, ?_⟩
  · have h := py_round_q_close 2 r.diameter
    have : (1:ℚ) / (2 * 10 ^ 2) ≤ 1/100 := by norm_num
    linarith
  · have h := py_round_q_close 3 r.density
    have : (1:ℚ) / (2 * 10 ^ 3) ≤ 1/100 := by norm_num
    linarith
  · have h := py_round_q_close 1 r.remainingLength
    have : (1:ℚ) / (2 * 10 ^ 1) ≤ 1/10 := by norm_num
    linarith
  · rw [hwt]
    have h := round_half_even_close r.remainingWeight
    linarith

/-- A concrete valid record used by the claim witnesses (all float fields
exactly binary32-representable). -/
def c1_record : SpoolRecord :=
  { version := 1
    flags := [0, 0, 0]
    ftype := "PLA"
    color := "#1E88E5"
    diameter := 7/4
    nozzleTemp := 220
    bedTemp := 60
    density := 5/4
    remainingLength := 240
    remainingWeight := 1000
    manufacturer := [0x42, 0x61, 0x6d, 0x62, 0x75, 0x20, 0x4c, 0x61, 0x62]
    name := [0x42, 0x61, 0x6d, 0x62, 0x75, 0x20, 0x50, 0x4c, 0x41]
    serial := [0x42, 0x4c, 0x31, 0x32]
    date := 1626912000 }

unseal Rat.add Rat.mul Rat.sub Rat.inv Rat.ofScientific in
/-- Witness for C1: the hypotheses hold at a concrete record and UID. -/
theorem C1_roundtrip_witness :
    valid_record c1_record ∧
    (∃ enc td,
      encode_tag_data (derive_bambu_key_fallback [0x11, 0x22, 0x33, 0x44]) c1_record =
        .ok enc ∧ enc.length = 1024 ∧
      decode_tag_data (derive_bambu_key_fallback [0x11, 0x22, 0x33, 0x44]) enc =
        .ok (some td) ∧
      td.ftype = c1_record.ftype ∧ td.color = c1_record.color ∧
      td.nozzleTemp = c1_record.nozzleTemp ∧
      td.bedTemp = c1_record.bedTemp ∧ td.manufacturer = c1_record.manufacturer ∧
      td.name = c1_record.name ∧
      (∃ d, td.diameter = .finite d ∧ |d - c1_record.diameter| ≤ 1/100) ∧
      (∃ d, td.density = .finite d ∧ |d - c1_record.density| ≤ 1/100) ∧
      (∃ d, td.remainingLength = .finite d ∧ |d - c1_record.remainingLength| ≤ 1/10) ∧
      |(td.remainingWeight : ℚ) - c1_record.remainingWeight| ≤ 1) :=
  ⟨by decide, C1_roundtrip c1_record [0x11, 0x22, 0x33, 0x44] _ (by decide) (Or.inl rfl)⟩

/-! ## Claim C4: single-bit tamper detection -/

theorem byte_at_getElem (l : List Nat) (i : Nat) (h : i < l.length) :
    byte_at l i = l[i] := by
  unfold byte_at
  rw [List.drop_eq_getElem_cons h]
  rfl

theorem byte_at_left (c rest : List Nat) (i : Nat) (h : i < c.length) :
    byte_at (c ++ rest) i = byte_at c i := by
  rw [byte_at_getElem _ _ (by simp; omega), byte_at_getElem _ _ h,
    List.getElem_append_left h]

theorem list_decomp (l : List Nat) (i : Nat) (h : i < l.length) :
    l = l.take i ++ byte_at l i :: l.drop (i + 1) := by
  rw [byte_at_getElem _ _ h, ← List.drop_eq_getElem_cons h, List.take_append_drop]

theorem byte_at_mem (l : List Nat) (i : Nat) (h : i < l.length) : byte_at l i ∈ l := by
  rw [byte_at_getElem _ _ h]
  exact List.getElem_mem h

theorem byte_at_xor_cipher_from (key : List Nat) (kl : Nat) :
    ∀ (l : List Nat) (i0 n : Nat), n < l.length → 4 ≤ i0 + n →
      byte_at (xor_cipher_from key kl i0 l) n =
        byte_at l n ^^^ key.getD ((i0 + n - 4) % kl) 0 := by
  intro l
  induction l with
  | nil => intro i0 n h _; simp at h
  | cons b rest ih =>
    intro i0 n hn h4
    match n with
    | 0 =>
      simp only [xor_cipher_from, byte_at_cons]
      rw [if_neg (by omega)]
      norm_num
    | m + 1 =>
      have hm : byte_at (xor_cipher_from key kl i0 (b :: rest)) (m + 1) =
          byte_at (xor_cipher_from key kl (i0 + 1) rest) m := rfl
      have hm2 : byte_at (b :: rest) (m + 1) = byte_at rest m := rfl
      rw [hm, hm2, ih (i0 + 1) m (by simp at hn; omega) (by omega)]
      have he : i0 + 1 + m - 4 = i0 + (m + 1) - 4 := by omega
      rw [he]

theorem byte_at_xor_cipher (key data : List Nat) (i : Nat)
    (h4 : 4 ≤ i) (hlen : i < data.length) :
    byte_at (xor_cipher key data) i =
      byte_at data i ^^^ key.getD ((i - 4) % key.length) 0 := by
  unfold xor_cipher
  rw [byte_at_xor_cipher_from key key.length data 0 i hlen (by omega)]
  have he : 0 + i - 4 = i - 4 := by omega
  rw [he]

theorem xor_ne_self {n m : Nat} (hm : m ≠ 0) : n ^^^ m ≠ n := by
  intro h
  apply hm
  have := congrArg (· ^^^ n) h
  simpa only [Nat.xor_comm n m, Nat.xor_cancel_right, Nat.xor_self] using this

set_option maxRecDepth 4000 in
/-- C4: for every valid encoded image and every single bit position within
bytes 4 through 511, flipping that one bit and decoding with the same key
fails at checksum verification: the length and header gates still pass,
and the recomputed CRC32 over the decrypted `bytes[0:512]` differs from
the stored checksum at offset 512. -/
theorem C4_tamper_detection (r : SpoolRecord) (uid key : List Nat) (i j : Nat)
    (hval : valid_record r)
    (hkey : key = derive_bambu_key_fallback uid ∨ key = derive_bambu_key_hkdf uid)
    (hi1 : 4 ≤ i) (hi2 : i < 512) (hj : j < 8) :
    ∃ enc, encode_tag_data key r = .ok enc ∧
      ((enc.set i (byte_at enc i ^^^ 2 ^ j)).length = 1024 ∧
       verify_header (enc.set i (byte_at enc i ^^^ 2 ^ j)) = true ∧
       verify_checksum (xor_cipher key (enc.set i (byte_at enc i ^^^ 2 ^ j))) = .ok false ∧
       decode_tag_data key (enc.set i (byte_at enc i ^^^ 2 ^ j)) = .ok none) := by
  obtain ⟨rr, gg, bb, hrgbeq, hrr, hgg, hbb, hcolstr⟩ :=
    canonical_color_encode r.color hval.1.2.2.1
  obtain ⟨hv256, hfl, hflb, hntw, hbtw, hdt, hmab, hnab, hseb⟩ := hval.1.1
  obtain ⟨p, hp⟩ : ∃ p, record_plain r [rr, gg, bb] = p := ⟨_, rfl⟩
  have hp512 : p.length = 512 := hp ▸ record_plain_length r [rr, gg, bb] hfl rfl
  have hpbytes : ∀ b ∈ p, b < 256 := by
    rw [← hp]
    apply record_plain_lt r _ ⟨hv256, hfl, hflb, hntw, hbtw, hdt, hmab, hnab, hseb⟩
    intro b hb
    simp only [List.mem_cons, List.not_mem_nil, or_false] at hb
    rcases hb with rfl | rfl | rfl
    exacts [hrr, hgg, hbb]
  obtain ⟨full, hfeq⟩ : ∃ f, p ++ le32_bytes (crc32 p) ++ List.replicate 508 0 = f := ⟨_, rfl⟩
  have hflen : full.length = 1024 := by
    rw [← hfeq]
    simp only [List.length_append, hp512, le32_bytes_length, List.length_replicate]
  obtain ⟨enc, heeq⟩ : ∃ e, xor_cipher key full = e := ⟨_, rfl⟩
  have hencode : encode_tag_data key r = .ok enc := by
    unfold encode_tag_data
    rw [if_pos (show encodable r from ⟨hv256, hfl, hflb, hntw, hbtw, hdt, hmab, hnab, hseb⟩)]
    rw [hrgbeq]
    show Except.ok (xor_cipher key (record_plain r [rr, gg, bb] ++
      le32_bytes (crc32 (record_plain r [rr, gg, bb])) ++ List.replicate 508 0)) = _
    rw [hp, hfeq, heeq]
  have henclen : enc.length = 1024 := by rw [← heeq, xor_cipher_length, hflen]
  have hkb : byte_at enc i = byte_at full i ^^^ key.getD ((i - 4) % key.length) 0 := by
    rw [← heeq, byte_at_xor_cipher key full i hi1 (by omega)]
  have hdec : xor_cipher key (enc.set i (byte_at enc i ^^^ 2 ^ j)) =
      full.set i (byte_at full i ^^^ 2 ^ j) := by
    rw [xor_cipher_set key enc i _ hi1, ← heeq, xor_cipher_invol]
    congr 1
    rw [heeq, hkb]
    rw [Nat.xor_assoc, Nat.xor_comm (2 ^ j), ← Nat.xor_assoc, Nat.xor_cancel_right]
  have hbfull : byte_at full i = byte_at p i := by
    rw [← hfeq, List.append_assoc]
    exact byte_at_left p _ i (by omega)
  have hbi_lt : byte_at p i < 256 := hpbytes _ (byte_at_mem p i (by omega))
  have hflip_lt : byte_at p i ^^^ 2 ^ j < 256 := by
    have h2j : 2 ^ j < 256 := by
      have : (2:Nat) ^ j ≤ 2 ^ 7 := Nat.pow_le_pow_right (by norm_num) (by omega)
      omega
    have := Nat.xor_lt_two_pow (n := 8) (by simpa using hbi_lt) (by simpa using h2j)
    simpa using this
  have hd512 : full.drop 512 = le32_bytes (crc32 p) ++ List.replicate 508 0 := by
    rw [← hfeq, List.append_assoc, drop_append_ge p _ 512 (by omega), hp512]
    simp
  have hcrcp_lt : crc32 p < 4294967296 := crc32_lt p hpbytes
  have htake512 : full.take 512 = p := by
    rw [← hfeq, List.append_assoc, List.take_append_of_le_length (by omega),
      List.take_of_length_le (by omega)]
  have hcrcne : crc32 (p.set i (byte_at p i ^^^ 2 ^ j)) ≠ crc32 p := by
    have hdecomp := list_decomp p i (by omega)
    have hset : p.set i (byte_at p i ^^^ 2 ^ j) =
        p.take i ++ (byte_at p i ^^^ 2 ^ j) :: p.drop (i + 1) :=
      List.set_eq_take_cons_drop _ (by omega)
    rw [hset]
    conv_rhs => rw [hdecomp]
    apply crc32_byte_flip_ne
    · intro x hx; exact hpbytes x (List.mem_of_mem_take hx)
    · intro x hx; exact hpbytes x (List.mem_of_mem_drop hx)
    · exact hflip_lt
    · exact hbi_lt
    · exact xor_ne_self (by positivity)
  have hchkf : verify_checksum (xor_cipher key (enc.set i (byte_at enc i ^^^ 2 ^ j))) =
      .ok false := by
    rw [hdec]
    unfold verify_checksum
    rw [if_neg (by rw [List.length_set]; omega)]
    have hrd : read_at (full.set i (byte_at full i ^^^ 2 ^ j)) 512 4 =
        read_at full 512 4 := by
      unfold read_at
      rw [List.drop_set_of_lt _ _ (by omega)]
    have hstored : read_at full 512 4 = le32_bytes (crc32 p) := by
      unfold read_at
      rw [hd512, List.take_append_of_le_length (by norm_num [le32_bytes_length]),
        List.take_of_length_le (by norm_num [le32_bytes_length])]
    have htk : (full.set i (byte_at full i ^^^ 2 ^ j)).take 512 =
        p.set i (byte_at p i ^^^ 2 ^ j) := by
      rw [List.set_take, htake512, hbfull]
    rw [hrd, hstored, le32_le32_bytes _ hcrcp_lt, htk]
    simp only [Except.ok.injEq]
    exact beq_eq_false_iff_ne.mpr (Ne.symm hcrcne)
  have hhdr : verify_header (enc.set i (byte_at enc i ^^^ 2 ^ j)) = true := by
    unfold verify_header
    have h1 : (enc.set i (byte_at enc i ^^^ 2 ^ j)).take 4 = enc.take 4 := by
      rw [List.set_take, List.set_eq_of_length_le (by rw [List.length_take]; omega)]
    rw [h1, ← heeq, xor_cipher_take4]
    have h4 : full.take 4 = tag_header := by
      rw [← hfeq, ← hp]
      unfold record_plain
      simp only [List.append_assoc]
      rw [List.take_append_of_le_length (by simp [tag_header])]
      rfl
    rw [h4]
    rfl
  refine ⟨enc, hencode, ⟨by rw [List.length_set]; omega, hhdr, hchkf, ?_⟩⟩
  unfold decode_tag_data
  rw [if_neg (by rw [List.length_set]; omega), if_pos hhdr]
  simp only [hchkf]

unseal Rat.add Rat.mul Rat.sub Rat.inv Rat.ofScientific in
/-- Witness for C4: the hypotheses hold at a concrete record, UID, byte
index 100 and bit index 0. -/
theorem C4_tamper_detection_witness :
    valid_record c1_record ∧ 4 ≤ 100 ∧ 100 < 512 ∧ 0 < 8 ∧
    (∃ enc,
      encode_tag_data (derive_bambu_key_fallback [0x11, 0x22, 0x33, 0x44]) c1_record =
        .ok enc ∧
      ((enc.set 100 (byte_at enc 100 ^^^ 2 ^ 0)).length = 1024 ∧
       verify_header (enc.set 100 (byte_at enc 100 ^^^ 2 ^ 0)) = true ∧
       verify_checksum (xor_cipher (derive_bambu_key_fallback [0x11, 0x22, 0x33, 0x44])
         (enc.set 100 (byte_at enc 100 ^^^ 2 ^ 0))) = .ok false ∧
       decode_tag_data (derive_bambu_key_fallback [0x11, 0x22, 0x33, 0x44])
         (enc.set 100 (byte_at enc 100 ^^^ 2 ^ 0)) = .ok none)) :=
  ⟨by decide, by decide, by decide, by decide,
    C4_tamper_detection c1_record [0x11, 0x22, 0x33, 0x44] _ 100 0 (by decide)
      (Or.inl rfl) (by decide) (by decide) (by decide)⟩

/-! ## Claim C2: decoding inputs of length 512..515 raises -/

/-- C2 (the code contradicts the claim): a 512-byte input with a valid
header passes the length and header gates, but `_verify_checksum` then
calls `struct.unpack("<I", data[512:516])` on an empty slice and raises
`struct.error` — decode does not return its documented `None`, it
throws.  This holds for every working key. -/
theorem C2_short_input_raises (key : List Nat) :
    decode_tag_data key (tag_header ++ List.replicate 508 0) = .error .structError := by
  have hlen : (tag_header ++ List.replicate 508 0 : List Nat).length = 512 := by
    simp only [List.length_append, List.length_replicate, tag_header, List.length_cons,
      List.length_nil]
  unfold decode_tag_data
  rw [if_neg (by omega)]
  have hhdr : verify_header (tag_header ++ List.replicate 508 0) = true := by
    unfold verify_header
    rw [List.take_append_of_le_length (by simp [tag_header])]
    rfl
  rw [if_pos hhdr]
  have hchk : verify_checksum (xor_cipher key (tag_header ++ List.replicate 508 0)) =
      .error .structError := by
    unfold verify_checksum
    rw [if_pos (by rw [xor_cipher_length, hlen]; omega)]
  simp only [hchk]

/-- Witness for C2 at a concrete key (the working key is never empty in
the source, any concrete key exhibits the raise). -/
theorem C2_short_input_raises_witness :
    decode_tag_data [1, 2, 3] (tag_header ++ List.replicate 508 0) = .error .structError :=
  C2_short_input_raises [1, 2, 3]

/-! ## Claim C3: key derivation lengths -/

/-- C3 counterexample: the HKDF-based implementation of
`derive_bambu_key` does not return 16 bytes — the pycryptodomex call
`HKDF(uid, 6, master, SHA256, 16, context)` yields sixteen six-byte
keys, and the code returns `result[0]`, which has six bytes. -/
theorem C3_hkdf_len_counterexample :
    ¬ (derive_bambu_key_hkdf [0x11, 0x22, 0x33, 0x44]).length = 16 := by
  rw [derive_bambu_key_hkdf_length]
  omega

/-- C3 (amended): both implementations are pure and deterministic; the
HMAC fallback returns exactly 16 bytes, while the HKDF implementation
returns exactly 6 bytes (the first of the sixteen derived six-byte
keys). -/
theorem C3_key_derivation (uid uid2 : List Nat) (h : uid = uid2) :
    derive_bambu_key_fallback uid = derive_bambu_key_fallback uid2 ∧
    derive_bambu_key_hkdf uid = derive_bambu_key_hkdf uid2 ∧
    (derive_bambu_key_fallback uid).length = 16 ∧
    (derive_bambu_key_hkdf uid).length = 6 := by
  subst h
  exact ⟨rfl, rfl, derive_bambu_key_fallback_length uid, derive_bambu_key_hkdf_length uid⟩

/-- Witness for C3 at a concrete UID. -/
theorem C3_key_derivation_witness :
    [0x11, 0x22, 0x33, 0x44] = [0x11, 0x22, 0x33, 0x44] ∧
    (derive_bambu_key_fallback [0x11, 0x22, 0x33, 0x44] =
      derive_bambu_key_fallback [0x11, 0x22, 0x33, 0x44] ∧
    derive_bambu_key_hkdf [0x11, 0x22, 0x33, 0x44] =
      derive_bambu_key_hkdf [0x11, 0x22, 0x33, 0x44] ∧
    (derive_bambu_key_fallback [0x11, 0x22, 0x33, 0x44]).length = 16 ∧
    (derive_bambu_key_hkdf [0x11, 0x22, 0x33, 0x44]).length = 6) :=
  ⟨rfl, C3_key_derivation [0x11, 0x22, 0x33, 0x44] [0x11, 0x22, 0x33, 0x44] rfl⟩

/-! ## Claim C9: the no-UID default keys of encoder and decoder differ -/

set_option maxRecDepth 10000 in
set_option maxHeartbeats 4000000 in
unseal Rat.add Rat.mul Rat.sub Rat.inv Rat.ofScientific in
/-- C9: with no UID supplied anywhere, the encoder encrypts with the
static placeholder XOR key, while the decoder re-derives its key from
the built-in default UID `aa55cc33` before decrypting; the two keys
differ (under both key-derivation implementations), and decoding the
encoded sample record fails (returns `None`) instead of round-tripping. -/
theorem C9_default_key_mismatch :
    (derive_bambu_key_fallback default_uid ≠ xor_key_placeholder ∧
     derive_bambu_key_hkdf default_uid ≠ xor_key_placeholder) ∧
    (∃ enc, encode_tag_data xor_key_placeholder sample_tag_data = .ok enc ∧
      decode_tag_data_no_uid derive_bambu_key_fallback enc = .ok none ∧
      decode_tag_data_no_uid derive_bambu_key_hkdf enc = .ok none) := by
  have hkfb : derive_bambu_key_fallback default_uid = [201, 53, 73, 193, 73, 69, 65, 188, 51, 100, 81, 89, 6, 136, 5, 40] := by decide
  have hkhk : derive_bambu_key_hkdf default_uid = [73, 93, 98, 151, 125, 107] := by decide
  have hP : record_plain sample_tag_data [30, 136, 229] = [170, 85, 204, 51, 1, 0, 0, 0, 0, 0, 0, 0, 0, 0, 0, 0, 0, 0, 0, 0, 0, 0, 0, 0, 0, 0, 0, 0, 0, 0, 0, 0, 0, 0, 0, 0, 0, 0, 0, 0, 0, 0, 0, 0, 0, 0, 0, 0, 0, 0, 0, 0, 0, 0, 0, 0, 0, 0, 0, 0, 0, 0, 0, 0, 0, 0, 0, 0, 0, 0, 0, 0, 0, 0, 0, 0, 0, 0, 0, 0, 0, 0, 0, 0, 0, 0, 0, 0, 0, 0, 0, 0, 0, 0, 0, 0, 0, 0, 0, 0, 0, 0, 0, 0, 0, 0, 0, 0, 0, 0, 0, 0, 0, 0, 0, 0, 0, 0, 0, 0, 0, 0, 0, 0, 0, 0, 0, 0, 1, 0, 30, 136, 229, 0, 0, 224, 63, 220, 0, 60, 0, 82, 184, 158, 63, 0, 0, 112, 67, 0, 0, 122, 68, 66, 97, 109, 98, 117, 32, 76, 97, 98, 0, 0, 0, 0, 0, 0, 0, 0, 0, 0, 0, 0, 0, 0, 0, 0, 0, 0, 0, 0, 0, 0, 0, 66, 97, 109, 98, 117, 32, 80, 76, 65, 32, 77, 97, 116, 116, 101, 0, 0, 0, 0, 0, 0, 0, 0, 0, 0, 0, 0, 0, 0, 0, 0, 0, 0, 0, 0, 0, 0, 0, 0, 0, 0, 0, 0, 0, 0, 0, 0, 0, 0, 0, 0, 0, 0, 0, 0, 0, 0, 0, 0, 0, 0, 0, 0, 0, 0, 0, 0, 0, 0, 0, 0, 66, 76, 49, 50, 51, 52, 53, 54, 55, 56, 0, 0, 0, 0, 0, 0, 0, 0, 0, 0, 0, 0, 0, 0, 0, 0, 0, 0, 0, 0, 0, 0, 0, 181, 248, 96, 0, 0, 0, 0, 0, 0, 0, 0, 0, 0, 0, 0, 0, 0, 0, 0, 0, 0, 0, 0, 0, 0, 0, 0, 0, 0, 0, 0, 0, 0, 0, 0, 0, 0, 0, 0, 0, 0, 0, 0, 0, 0, 0, 0, 0, 0, 0, 0, 0, 0, 0, 0, 0, 0, 0, 0, 0, 0, 0, 0, 0, 0, 0, 0, 0, 0, 0, 0, 0, 0, 0, 0, 0, 0, 0, 0, 0, 0, 0, 0, 0, 0, 0, 0, 0, 0, 0, 0, 0, 0, 0, 0, 0, 0, 0, 0, 0, 0, 0, 0, 0, 0, 0, 0, 0, 0, 0, 0, 0, 0, 0, 0, 0, 0, 0, 0, 0, 0, 0, 0, 0, 0, 0, 0, 0, 0, 0, 0, 0, 0, 0, 0, 0, 0, 0, 0, 0, 0, 0, 0, 0, 0, 0, 0, 0, 0, 0, 0, 0, 0, 0, 0, 0, 0, 0, 0, 0, 0, 0, 0, 0, 0, 0, 0, 0, 0, 0, 0, 0, 0, 0, 0, 0, 0, 0, 0, 0, 0, 0, 0, 0, 0, 0, 0, 0, 0, 0, 0, 0, 0, 0, 0, 0, 0, 0, 0, 0, 0, 0, 0, 0, 0, 0, 0, 0, 0, 0, 0, 0, 0, 0, 0, 0, 0, 0, 0, 0, 0, 0, 0] := by decide
  have hp1 : List.foldl crc_byte 4294967295 [170, 85, 204, 51, 1, 0, 0, 0, 0, 0, 0, 0, 0, 0, 0, 0, 0, 0, 0, 0, 0, 0, 0, 0, 0, 0, 0, 0, 0, 0, 0, 0] = 761350155 := by decide
  have hp2 : List.foldl crc_byte 761350155 [0, 0, 0, 0, 0, 0, 0, 0, 0, 0, 0, 0, 0, 0, 0, 0, 0, 0, 0, 0, 0, 0, 0, 0, 0, 0, 0, 0, 0, 0, 0, 0] = 3674230264 := by decide
  have hp3 : List.foldl crc_byte 3674230264 [0, 0, 0, 0, 0, 0, 0, 0, 0, 0, 0, 0, 0, 0, 0, 0, 0, 0, 0, 0, 0, 0, 0, 0, 0, 0, 0, 0, 0, 0, 0, 0] = 12656366 := by decide
  have hp4 : List.foldl crc_byte 12656366 [0, 0, 0, 0, 0, 0, 0, 0, 0, 0, 0, 0, 0, 0, 0, 0, 0, 0, 0, 0, 0, 0, 0, 0, 0, 0, 0, 0, 0, 0, 0, 0] = 2775872248 := by decide
  have hp5 : List.foldl crc_byte 2775872248 [1, 0, 30, 136, 229, 0, 0, 224, 63, 220, 0, 60, 0, 82, 184, 158, 63, 0, 0, 112, 67, 0, 0, 122, 68, 66, 97, 109, 98, 117, 32, 76] = 477799476 := by decide
  have hp6 : List.foldl crc_byte 477799476 [97, 98, 0, 0, 0, 0, 0, 0, 0, 0, 0, 0, 0, 0, 0, 0, 0, 0, 0, 0, 0, 0, 0, 0, 0, 66, 97, 109, 98, 117, 32, 80] = 625498739 := by decide
  have hp7 : List.foldl crc_byte 625498739 [76, 65, 32, 77, 97, 116, 116, 101, 0, 0, 0, 0, 0, 0, 0, 0, 0, 0, 0, 0, 0, 0, 0, 0, 0, 0, 0, 0, 0, 0, 0, 0] = 3692503509 := by decide
  have hp8 : List.foldl crc_byte 3692503509 [0, 0, 0, 0, 0, 0, 0, 0, 0, 0, 0, 0, 0, 0, 0, 0, 0, 0, 0, 0, 0, 0, 0, 0, 0, 0, 0, 0, 0, 0, 0, 0] = 715896064 := by decide
  have hp9 : List.foldl crc_byte 715896064 [66, 76, 49, 50, 51, 52, 53, 54, 55, 56, 0, 0, 0, 0, 0, 0, 0, 0, 0, 0, 0, 0, 0, 0, 0, 0, 0, 0, 0, 0, 0, 0] = 2448147010 := by decide
  have hp10 : List.foldl crc_byte 2448147010 [0, 181, 248, 96, 0, 0, 0, 0, 0, 0, 0, 0, 0, 0, 0, 0, 0, 0, 0, 0, 0, 0, 0, 0, 0, 0, 0, 0, 0, 0, 0, 0] = 525113148 := by decide
  have hp11 : List.foldl crc_byte 525113148 [0, 0, 0, 0, 0, 0, 0, 0, 0, 0, 0, 0, 0, 0, 0, 0, 0, 0, 0, 0, 0, 0, 0, 0, 0, 0, 0, 0, 0, 0, 0, 0] = 1724571284 := by decide
  have hp12 : List.foldl crc_byte 1724571284 [0, 0, 0, 0, 0, 0, 0, 0, 0, 0, 0, 0, 0, 0, 0, 0, 0, 0, 0, 0, 0, 0, 0, 0, 0, 0, 0, 0, 0, 0, 0, 0] = 1894040444 := by decide
  have hp13 : List.foldl crc_byte 1894040444 [0, 0, 0, 0, 0, 0, 0, 0, 0, 0, 0, 0, 0, 0, 0, 0, 0, 0, 0, 0, 0, 0, 0, 0, 0, 0, 0, 0, 0, 0, 0, 0] = 3717207986 := by decide
  have hp14 : List.foldl crc_byte 3717207986 [0, 0, 0, 0, 0, 0, 0, 0, 0, 0, 0, 0, 0, 0, 0, 0, 0, 0, 0, 0, 0, 0, 0, 0, 0, 0, 0, 0, 0, 0, 0, 0] = 4125998842 := by decide
  have hp15 : List.foldl crc_byte 4125998842 [0, 0, 0, 0, 0, 0, 0, 0, 0, 0, 0, 0, 0, 0, 0, 0, 0, 0, 0, 0, 0, 0, 0, 0, 0, 0, 0, 0, 0, 0, 0, 0] = 128247865 := by decide
  have hp16 : List.foldl crc_byte 128247865 [0, 0, 0, 0, 0, 0, 0, 0, 0, 0, 0, 0, 0, 0, 0, 0, 0, 0, 0, 0, 0, 0, 0, 0, 0, 0, 0, 0, 0, 0, 0, 0] = 2264957025 := by decide
  have hcrcP : crc32 [170, 85, 204, 51, 1, 0, 0, 0, 0, 0, 0, 0, 0, 0, 0, 0, 0, 0, 0, 0, 0, 0, 0, 0, 0, 0, 0, 0, 0, 0, 0, 0, 0, 0, 0, 0, 0, 0, 0, 0, 0, 0, 0, 0, 0, 0, 0, 0, 0, 0, 0, 0, 0, 0, 0, 0, 0, 0, 0, 0, 0, 0, 0, 0, 0, 0, 0, 0, 0, 0, 0, 0, 0, 0, 0, 0, 0, 0, 0, 0, 0, 0, 0, 0, 0, 0, 0, 0, 0, 0, 0, 0, 0, 0, 0, 0, 0, 0, 0, 0, 0, 0, 0, 0, 0, 0, 0, 0, 0, 0, 0, 0, 0, 0, 0, 0, 0, 0, 0, 0, 0, 0, 0, 0, 0, 0, 0, 0, 1, 0, 30, 136, 229, 0, 0, 224, 63, 220, 0, 60, 0, 82, 184, 158, 63, 0, 0, 112, 67, 0, 0, 122, 68, 66, 97, 109, 98, 117, 32, 76, 97, 98, 0, 0, 0, 0, 0, 0, 0, 0, 0, 0, 0, 0, 0, 0, 0, 0, 0, 0, 0, 0, 0, 0, 0, 66, 97, 109, 98, 117, 32, 80, 76, 65, 32, 77, 97, 116, 116, 101, 0, 0, 0, 0, 0, 0, 0, 0, 0, 0, 0, 0, 0, 0, 0, 0, 0, 0, 0, 0, 0, 0, 0, 0, 0, 0, 0, 0, 0, 0, 0, 0, 0, 0, 0, 0, 0, 0, 0, 0, 0, 0, 0, 0, 0, 0, 0, 0, 0, 0, 0, 0, 0, 0, 0, 0, 66, 76, 49, 50, 51, 52, 53, 54, 55, 56, 0, 0, 0, 0, 0, 0, 0, 0, 0, 0, 0, 0, 0, 0, 0, 0, 0, 0, 0, 0, 0, 0, 0, 181, 248, 96, 0, 0, 0, 0, 0, 0, 0, 0, 0, 0, 0, 0, 0, 0, 0, 0, 0, 0, 0, 0, 0, 0, 0, 0, 0, 0, 0, 0, 0, 0, 0, 0, 0, 0, 0, 0, 0, 0, 0, 0, 0, 0, 0, 0, 0, 0, 0, 0, 0, 0, 0, 0, 0, 0, 0, 0, 0, 0, 0, 0, 0, 0, 0, 0, 0, 0, 0, 0, 0, 0, 0, 0, 0, 0, 0, 0, 0, 0, 0, 0, 0, 0, 0, 0, 0, 0, 0, 0, 0, 0, 0, 0, 0, 0, 0, 0, 0, 0, 0, 0, 0, 0, 0, 0, 0, 0, 0, 0, 0, 0, 0, 0, 0, 0, 0, 0, 0, 0, 0, 0, 0, 0, 0, 0, 0, 0, 0, 0, 0, 0, 0, 0, 0, 0, 0, 0, 0, 0, 0, 0, 0, 0, 0, 0, 0, 0, 0, 0, 0, 0, 0, 0, 0, 0, 0, 0, 0, 0, 0, 0, 0, 0, 0, 0, 0, 0, 0, 0, 0, 0, 0, 0, 0, 0, 0, 0, 0, 0, 0, 0, 0, 0, 0, 0, 0, 0, 0, 0, 0, 0, 0, 0, 0, 0, 0, 0, 0, 0, 0, 0, 0, 0, 0, 0, 0, 0, 0, 0, 0, 0, 0, 0, 0, 0, 0, 0, 0, 0, 0, 0] = 2030010270 := by
    show List.foldl crc_byte 4294967295 [170, 85, 204, 51, 1, 0, 0, 0, 0, 0, 0, 0, 0, 0, 0, 0, 0, 0, 0, 0, 0, 0, 0, 0, 0, 0, 0, 0, 0, 0, 0, 0, 0, 0, 0, 0, 0, 0, 0, 0, 0, 0, 0, 0, 0, 0, 0, 0, 0, 0, 0, 0, 0, 0, 0, 0, 0, 0, 0, 0, 0, 0, 0, 0, 0, 0, 0, 0, 0, 0, 0, 0, 0, 0, 0, 0, 0, 0, 0, 0, 0, 0, 0, 0, 0, 0, 0, 0, 0, 0, 0, 0, 0, 0, 0, 0, 0, 0, 0, 0, 0, 0, 0, 0, 0, 0, 0, 0, 0, 0, 0, 0, 0, 0, 0, 0, 0, 0, 0, 0, 0, 0, 0, 0, 0, 0, 0, 0, 1, 0, 30, 136, 229, 0, 0, 224, 63, 220, 0, 60, 0, 82, 184, 158, 63, 0, 0, 112, 67, 0, 0, 122, 68, 66, 97, 109, 98, 117, 32, 76, 97, 98, 0, 0, 0, 0, 0, 0, 0, 0, 0, 0, 0, 0, 0, 0, 0, 0, 0, 0, 0, 0, 0, 0, 0, 66, 97, 109, 98, 117, 32, 80, 76, 65, 32, 77, 97, 116, 116, 101, 0, 0, 0, 0, 0, 0, 0, 0, 0, 0, 0, 0, 0, 0, 0, 0, 0, 0, 0, 0, 0, 0, 0, 0, 0, 0, 0, 0, 0, 0, 0, 0, 0, 0, 0, 0, 0, 0, 0, 0, 0, 0, 0, 0, 0, 0, 0, 0, 0, 0, 0, 0, 0, 0, 0, 0, 66, 76, 49, 50, 51, 52, 53, 54, 55, 56, 0, 0, 0, 0, 0, 0, 0, 0, 0, 0, 0, 0, 0, 0, 0, 0, 0, 0, 0, 0, 0, 0, 0, 181, 248, 96, 0, 0, 0, 0, 0, 0, 0, 0, 0, 0, 0, 0, 0, 0, 0, 0, 0, 0, 0, 0, 0, 0, 0, 0, 0, 0, 0, 0, 0, 0, 0, 0, 0, 0, 0, 0, 0, 0, 0, 0, 0, 0, 0, 0, 0, 0, 0, 0, 0, 0, 0, 0, 0, 0, 0, 0, 0, 0, 0, 0, 0, 0, 0, 0, 0, 0, 0, 0, 0, 0, 0, 0, 0, 0, 0, 0, 0, 0, 0, 0, 0, 0, 0, 0, 0, 0, 0, 0, 0, 0, 0, 0, 0, 0, 0, 0, 0, 0, 0, 0, 0, 0, 0, 0, 0, 0, 0, 0, 0, 0, 0, 0, 0, 0, 0, 0, 0, 0, 0, 0, 0, 0, 0, 0, 0, 0, 0, 0, 0, 0, 0, 0, 0, 0, 0, 0, 0, 0, 0, 0, 0, 0, 0, 0, 0, 0, 0, 0, 0, 0, 0, 0, 0, 0, 0, 0, 0, 0, 0, 0, 0, 0, 0, 0, 0, 0, 0, 0, 0, 0, 0, 0, 0, 0, 0, 0, 0, 0, 0, 0, 0, 0, 0, 0, 0, 0, 0, 0, 0, 0, 0, 0, 0, 0, 0, 0, 0, 0, 0, 0, 0, 0, 0, 0, 0, 0, 0, 0, 0, 0, 0, 0, 0, 0, 0, 0, 0, 0, 0, 0] ^^^ 4294967295 = 2030010270
    rw [show ([170, 85, 204, 51, 1, 0, 0, 0, 0, 0, 0, 0, 0, 0, 0, 0, 0, 0, 0, 0, 0, 0, 0, 0, 0, 0, 0, 0, 0, 0, 0, 0, 0, 0, 0, 0, 0, 0, 0, 0, 0, 0, 0, 0, 0, 0, 0, 0, 0, 0, 0, 0, 0, 0, 0, 0, 0, 0, 0, 0, 0, 0, 0, 0, 0, 0, 0, 0, 0, 0, 0, 0, 0, 0, 0, 0, 0, 0, 0, 0, 0, 0, 0, 0, 0, 0, 0, 0, 0, 0, 0, 0, 0, 0, 0, 0, 0, 0, 0, 0, 0, 0, 0, 0, 0, 0, 0, 0, 0, 0, 0, 0, 0, 0, 0, 0, 0, 0, 0, 0, 0, 0, 0, 0, 0, 0, 0, 0, 1, 0, 30, 136, 229, 0, 0, 224, 63, 220, 0, 60, 0, 82, 184, 158, 63, 0, 0, 112, 67, 0, 0, 122, 68, 66, 97, 109, 98, 117, 32, 76, 97, 98, 0, 0, 0, 0, 0, 0, 0, 0, 0, 0, 0, 0, 0, 0, 0, 0, 0, 0, 0, 0, 0, 0, 0, 66, 97, 109, 98, 117, 32, 80, 76, 65, 32, 77, 97, 116, 116, 101, 0, 0, 0, 0, 0, 0, 0, 0, 0, 0, 0, 0, 0, 0, 0, 0, 0, 0, 0, 0, 0, 0, 0, 0, 0, 0, 0, 0, 0, 0, 0, 0, 0, 0, 0, 0, 0, 0, 0, 0, 0, 0, 0, 0, 0, 0, 0, 0, 0, 0, 0, 0, 0, 0, 0, 0, 66, 76, 49, 50, 51, 52, 53, 54, 55, 56, 0, 0, 0, 0, 0, 0, 0, 0, 0, 0, 0, 0, 0, 0, 0, 0, 0, 0, 0, 0, 0, 0, 0, 181, 248, 96, 0, 0, 0, 0, 0, 0, 0, 0, 0, 0, 0, 0, 0, 0, 0, 0, 0, 0, 0, 0, 0, 0, 0, 0, 0, 0, 0, 0, 0, 0, 0, 0, 0, 0, 0, 0, 0, 0, 0, 0, 0, 0, 0, 0, 0, 0, 0, 0, 0, 0, 0, 0, 0, 0, 0, 0, 0, 0, 0, 0, 0, 0, 0, 0, 0, 0, 0, 0, 0, 0, 0, 0, 0, 0, 0, 0, 0, 0, 0, 0, 0, 0, 0, 0, 0, 0, 0, 0, 0, 0, 0, 0, 0, 0, 0, 0, 0, 0, 0, 0, 0, 0, 0, 0, 0, 0, 0, 0, 0, 0, 0, 0, 0, 0, 0, 0, 0, 0, 0, 0, 0, 0, 0, 0, 0, 0, 0, 0, 0, 0, 0, 0, 0, 0, 0, 0, 0, 0, 0, 0, 0, 0, 0, 0, 0, 0, 0, 0, 0, 0, 0, 0, 0, 0, 0, 0, 0, 0, 0, 0, 0, 0, 0, 0, 0, 0, 0, 0, 0, 0, 0, 0, 0, 0, 0, 0, 0, 0, 0, 0, 0, 0, 0, 0, 0, 0, 0, 0, 0, 0, 0, 0, 0, 0, 0, 0, 0, 0, 0, 0, 0, 0, 0, 0, 0, 0, 0, 0, 0, 0, 0, 0, 0, 0, 0, 0, 0, 0, 0, 0] : List Nat) = [170, 85, 204, 51, 1, 0, 0, 0, 0, 0, 0, 0, 0, 0, 0, 0, 0, 0, 0, 0, 0, 0, 0, 0, 0, 0, 0, 0, 0, 0, 0, 0] ++ ([0, 0, 0, 0, 0, 0, 0, 0, 0, 0, 0, 0, 0, 0, 0, 0, 0, 0, 0, 0, 0, 0, 0, 0, 0, 0, 0, 0, 0, 0, 0, 0] ++ ([0, 0, 0, 0, 0, 0, 0, 0, 0, 0, 0, 0, 0, 0, 0, 0, 0, 0, 0, 0, 0, 0, 0, 0, 0, 0, 0, 0, 0, 0, 0, 0] ++ ([0, 0, 0, 0, 0, 0, 0, 0, 0, 0, 0, 0, 0, 0, 0, 0, 0, 0, 0, 0, 0, 0, 0, 0, 0, 0, 0, 0, 0, 0, 0, 0] ++ ([1, 0, 30, 136, 229, 0, 0, 224, 63, 220, 0, 60, 0, 82, 184, 158, 63, 0, 0, 112, 67, 0, 0, 122, 68, 66, 97, 109, 98, 117, 32, 76] ++ ([97, 98, 0, 0, 0, 0, 0, 0, 0, 0, 0, 0, 0, 0, 0, 0, 0, 0, 0, 0, 0, 0, 0, 0, 0, 66, 97, 109, 98, 117, 32, 80] ++ ([76, 65, 32, 77, 97, 116, 116, 101, 0, 0, 0, 0, 0, 0, 0, 0, 0, 0, 0, 0, 0, 0, 0, 0, 0, 0, 0, 0, 0, 0, 0, 0] ++ ([0, 0, 0, 0, 0, 0, 0, 0, 0, 0, 0, 0, 0, 0, 0, 0, 0, 0, 0, 0, 0, 0, 0, 0, 0, 0, 0, 0, 0, 0, 0, 0] ++ ([66, 76, 49, 50, 51, 52, 53, 54, 55, 56, 0, 0, 0, 0, 0, 0, 0, 0, 0, 0, 0, 0, 0, 0, 0, 0, 0, 0, 0, 0, 0, 0] ++ ([0, 181, 248, 96, 0, 0, 0, 0, 0, 0, 0, 0, 0, 0, 0, 0, 0, 0, 0, 0, 0, 0, 0, 0, 0, 0, 0, 0, 0, 0, 0, 0] ++ ([0, 0, 0, 0, 0, 0, 0, 0, 0, 0, 0, 0, 0, 0, 0, 0, 0, 0, 0, 0, 0, 0, 0, 0, 0, 0, 0, 0, 0, 0, 0, 0] ++ ([0, 0, 0, 0, 0, 0, 0, 0, 0, 0, 0, 0, 0, 0, 0, 0, 0, 0, 0, 0, 0, 0, 0, 0, 0, 0, 0, 0, 0, 0, 0, 0] ++ ([0, 0, 0, 0, 0, 0, 0, 0, 0, 0, 0, 0, 0, 0, 0, 0, 0, 0, 0, 0, 0, 0, 0, 0, 0, 0, 0, 0, 0, 0, 0, 0] ++ ([0, 0, 0, 0, 0, 0, 0, 0, 0, 0, 0, 0, 0, 0, 0, 0, 0, 0, 0, 0, 0, 0, 0, 0, 0, 0, 0, 0, 0, 0, 0, 0] ++ ([0, 0, 0, 0, 0, 0, 0, 0, 0, 0, 0, 0, 0, 0, 0, 0, 0, 0, 0, 0, 0, 0, 0, 0, 0, 0, 0, 0, 0, 0, 0, 0] ++ ([0, 0, 0, 0, 0, 0, 0, 0, 0, 0, 0, 0, 0, 0, 0, 0, 0, 0, 0, 0, 0, 0, 0, 0, 0, 0, 0, 0, 0, 0, 0, 0]))))))))))))))) from rfl]
    simp only [List.foldl_append]
    rw [hp1, hp2, hp3, hp4, hp5, hp6, hp7, hp8, hp9, hp10, hp11, hp12, hp13, hp14, hp15, hp16]
    decide
  have hcol : encode_color_bytes sample_tag_data.color = .ok [30, 136, 229] := by decide
  have henc : encode_tag_data xor_key_placeholder sample_tag_data = .ok [170, 85, 204, 51, 0, 35, 69, 103, 137, 171, 205, 239, 1, 35, 69, 103, 137, 171, 205, 239, 1, 35, 69, 103, 137, 171, 205, 239, 1, 35, 69, 103, 137, 171, 205, 239, 1, 35, 69, 103, 137, 171, 205, 239, 1, 35, 69, 103, 137, 171, 205, 239, 1, 35, 69, 103, 137, 171, 205, 239, 1, 35, 69, 103, 137, 171, 205, 239, 1, 35, 69, 103, 137, 171, 205, 239, 1, 35, 69, 103, 137, 171, 205, 239, 1, 35, 69, 103, 137, 171, 205, 239, 1, 35, 69, 103, 137, 171, 205, 239, 1, 35, 69, 103, 137, 171, 205, 239, 1, 35, 69, 103, 137, 171, 205, 239, 1, 35, 69, 103, 137, 171, 205, 239, 1, 35, 69, 103, 136, 171, 211, 103, 228, 35, 69, 135, 182, 119, 205, 211, 1, 113, 253, 249, 182, 171, 205, 159, 66, 35, 69, 29, 205, 233, 172, 130, 99, 86, 101, 43, 232, 201, 205, 239, 1, 35, 69, 103, 137, 171, 205, 239, 1, 35, 69, 103, 137, 171, 205, 239, 1, 35, 69, 103, 137, 233, 172, 130, 99, 86, 101, 55, 197, 234, 237, 162, 96, 87, 49, 2, 137, 171, 205, 239, 1, 35, 69, 103, 137, 171, 205, 239, 1, 35, 69, 103, 137, 171, 205, 239, 1, 35, 69, 103, 137, 171, 205, 239, 1, 35, 69, 103, 137, 171, 205, 239, 1, 35, 69, 103, 137, 171, 205, 239, 1, 35, 69, 103, 137, 171, 205, 239, 1, 35, 69, 103, 203, 231, 252, 221, 50, 23, 112, 81, 190, 147, 205, 239, 1, 35, 69, 103, 137, 171, 205, 239, 1, 35, 69, 103, 137, 171, 205, 239, 1, 35, 69, 103, 137, 30, 53, 143, 1, 35, 69, 103, 137, 171, 205, 239, 1, 35, 69, 103, 137, 171, 205, 239, 1, 35, 69, 103, 137, 171, 205, 239, 1, 35, 69, 103, 137, 171, 205, 239, 1, 35, 69, 103, 137, 171, 205, 239, 1, 35, 69, 103, 137, 171, 205, 239, 1, 35, 69, 103, 137, 171, 205, 239, 1, 35, 69, 103, 137, 171, 205, 239, 1, 35, 69, 103, 137, 171, 205, 239, 1, 35, 69, 103, 137, 171, 205, 239, 1, 35, 69, 103, 137, 171, 205, 239, 1, 35, 69, 103, 137, 171, 205, 239, 1, 35, 69, 103, 137, 171, 205, 239, 1, 35, 69, 103, 137, 171, 205, 239, 1, 35, 69, 103, 137, 171, 205, 239, 1, 35, 69, 103, 137, 171, 205, 239, 1, 35, 69, 103, 137, 171, 205, 239, 1, 35, 69, 103, 137, 171, 205, 239, 1, 35, 69, 103, 137, 171, 205, 239, 1, 35, 69, 103, 137, 171, 205, 239, 1, 35, 69, 103, 137, 171, 205, 239, 1, 35, 69, 103, 137, 171, 205, 239, 1, 35, 69, 103, 137, 171, 205, 239, 1, 35, 69, 103, 137, 171, 205, 239, 1, 35, 69, 103, 137, 171, 205, 239, 1, 35, 69, 103, 137, 171, 205, 239, 1, 35, 69, 103, 137, 171, 205, 239, 1, 35, 69, 103, 23, 212, 50, 151, 1, 35, 69, 103, 137, 171, 205, 239, 1, 35, 69, 103, 137, 171, 205, 239, 1, 35, 69, 103, 137, 171, 205, 239, 1, 35, 69, 103, 137, 171, 205, 239, 1, 35, 69, 103, 137, 171, 205, 239, 1, 35, 69, 103, 137, 171, 205, 239, 1, 35, 69, 103, 137, 171, 205, 239, 1, 35, 69, 103, 137, 171, 205, 239, 1, 35, 69, 103, 137, 171, 205, 239, 1, 35, 69, 103, 137, 171, 205, 239, 1, 35, 69, 103, 137, 171, 205, 239, 1, 35, 69, 103, 137, 171, 205, 239, 1, 35, 69, 103, 137, 171, 205, 239, 1, 35, 69, 103, 137, 171, 205, 239, 1, 35, 69, 103, 137, 171, 205, 239, 1, 35, 69, 103, 137, 171, 205, 239, 1, 35, 69, 103, 137, 171, 205, 239, 1, 35, 69, 103, 137, 171, 205, 239, 1, 35, 69, 103, 137, 171, 205, 239, 1, 35, 69, 103, 137, 171, 205, 239, 1, 35, 69, 103, 137, 171, 205, 239, 1, 35, 69, 103, 137, 171, 205, 239, 1, 35, 69, 103, 137, 171, 205, 239, 1, 35, 69, 103, 137, 171, 205, 239, 1, 35, 69, 103, 137, 171, 205, 239, 1, 35, 69, 103, 137, 171, 205, 239, 1, 35, 69, 103, 137, 171, 205, 239, 1, 35, 69, 103, 137, 171, 205, 239, 1, 35, 69, 103, 137, 171, 205, 239, 1, 35, 69, 103, 137, 171, 205, 239, 1, 35, 69, 103, 137, 171, 205, 239, 1, 35, 69, 103, 137, 171, 205, 239, 1, 35, 69, 103, 137, 171, 205, 239, 1, 35, 69, 103, 137, 171, 205, 239, 1, 35, 69, 103, 137, 171, 205, 239, 1, 35, 69, 103, 137, 171, 205, 239, 1, 35, 69, 103, 137, 171, 205, 239, 1, 35, 69, 103, 137, 171, 205, 239, 1, 35, 69, 103, 137, 171, 205, 239, 1, 35, 69, 103, 137, 171, 205, 239, 1, 35, 69, 103, 137, 171, 205, 239, 1, 35, 69, 103, 137, 171, 205, 239, 1, 35, 69, 103, 137, 171, 205, 239, 1, 35, 69, 103, 137, 171, 205, 239, 1, 35, 69, 103, 137, 171, 205, 239, 1, 35, 69, 103, 137, 171, 205, 239, 1, 35, 69, 103, 137, 171, 205, 239, 1, 35, 69, 103, 137, 171, 205, 239, 1, 35, 69, 103, 137, 171, 205, 239, 1, 35, 69, 103, 137, 171, 205, 239, 1, 35, 69, 103, 137, 171, 205, 239, 1, 35, 69, 103, 137, 171, 205, 239, 1, 35, 69, 103, 137, 171, 205, 239, 1, 35, 69, 103, 137, 171, 205, 239, 1, 35, 69, 103, 137, 171, 205, 239, 1, 35, 69, 103, 137, 171, 205, 239, 1, 35, 69, 103, 137, 171, 205, 239, 1, 35, 69, 103, 137, 171, 205, 239, 1, 35, 69, 103, 137, 171, 205, 239, 1, 35, 69, 103, 137, 171, 205, 239, 1, 35, 69, 103, 137, 171, 205, 239, 1, 35, 69, 103, 137, 171, 205, 239, 1, 35, 69, 103, 137, 171, 205, 239, 1, 35, 69, 103] := by
    unfold encode_tag_data
    rw [if_pos (by decide : encodable sample_tag_data), hcol]
    show Except.ok (xor_cipher xor_key_placeholder (record_plain sample_tag_data
      [30, 136, 229] ++ le32_bytes (crc32 (record_plain sample_tag_data [30, 136, 229])) ++
      List.replicate 508 0)) = _
    rw [hP, hcrcP]
    exact congrArg Except.ok (by decide)
  have hdfb : xor_cipher [201, 53, 73, 193, 73, 69, 65, 188, 51, 100, 81, 89, 6, 136, 5, 40] [170, 85, 204, 51, 0, 35, 69, 103, 137, 171, 205, 239, 1, 35, 69, 103, 137, 171, 205, 239, 1, 35, 69, 103, 137, 171, 205, 239, 1, 35, 69, 103, 137, 171, 205, 239, 1, 35, 69, 103, 137, 171, 205, 239, 1, 35, 69, 103, 137, 171, 205, 239, 1, 35, 69, 103, 137, 171, 205, 239, 1, 35, 69, 103, 137, 171, 205, 239, 1, 35, 69, 103, 137, 171, 205, 239, 1, 35, 69, 103, 137, 171, 205, 239, 1, 35, 69, 103, 137, 171, 205, 239, 1, 35, 69, 103, 137, 171, 205, 239, 1, 35, 69, 103, 137, 171, 205, 239, 1, 35, 69, 103, 137, 171, 205, 239, 1, 35, 69, 103, 137, 171, 205, 239, 1, 35, 69, 103, 136, 171, 211, 103, 228, 35, 69, 135, 182, 119, 205, 211, 1, 113, 253, 249, 182, 171, 205, 159, 66, 35, 69, 29, 205, 233, 172, 130, 99, 86, 101, 43, 232, 201, 205, 239, 1, 35, 69, 103, 137, 171, 205, 239, 1, 35, 69, 103, 137, 171, 205, 239, 1, 35, 69, 103, 137, 233, 172, 130, 99, 86, 101, 55, 197, 234, 237, 162, 96, 87, 49, 2, 137, 171, 205, 239, 1, 35, 69, 103, 137, 171, 205, 239, 1, 35, 69, 103, 137, 171, 205, 239, 1, 35, 69, 103, 137, 171, 205, 239, 1, 35, 69, 103, 137, 171, 205, 239, 1, 35, 69, 103, 137, 171, 205, 239, 1, 35, 69, 103, 137, 171, 205, 239, 1, 35, 69, 103, 203, 231, 252, 221, 50, 23, 112, 81, 190, 147, 205, 239, 1, 35, 69, 103, 137, 171, 205, 239, 1, 35, 69, 103, 137, 171, 205, 239, 1, 35, 69, 103, 137, 30, 53, 143, 1, 35, 69, 103, 137, 171, 205, 239, 1, 35, 69, 103, 137, 171, 205, 239, 1, 35, 69, 103, 137, 171, 205, 239, 1, 35, 69, 103, 137, 171, 205, 239, 1, 35, 69, 103, 137, 171, 205, 239, 1, 35, 69, 103, 137, 171, 205, 239, 1, 35, 69, 103, 137, 171, 205, 239, 1, 35, 69, 103, 137, 171, 205, 239, 1, 35, 69, 103, 137, 171, 205, 239, 1, 35, 69, 103, 137, 171, 205, 239, 1, 35, 69, 103, 137, 171, 205, 239, 1, 35, 69, 103, 137, 171, 205, 239, 1, 35, 69, 103, 137, 171, 205, 239, 1, 35, 69, 103, 137, 171, 205, 239, 1, 35, 69, 103, 137, 171, 205, 239, 1, 35, 69, 103, 137, 171, 205, 239, 1, 35, 69, 103, 137, 171, 205, 239, 1, 35, 69, 103, 137, 171, 205, 239, 1, 35, 69, 103, 137, 171, 205, 239, 1, 35, 69, 103, 137, 171, 205, 239, 1, 35, 69, 103, 137, 171, 205, 239, 1, 35, 69, 103, 137, 171, 205, 239, 1, 35, 69, 103, 137, 171, 205, 239, 1, 35, 69, 103, 137, 171, 205, 239, 1, 35, 69, 103, 137, 171, 205, 239, 1, 35, 69, 103, 137, 171, 205, 239, 1, 35, 69, 103, 137, 171, 205, 239, 1, 35, 69, 103, 23, 212, 50, 151, 1, 35, 69, 103, 137, 171, 205, 239, 1, 35, 69, 103, 137, 171, 205, 239, 1, 35, 69, 103, 137, 171, 205, 239, 1, 35, 69, 103, 137, 171, 205, 239, 1, 35, 69, 103, 137, 171, 205, 239, 1, 35, 69, 103, 137, 171, 205, 239, 1, 35, 69, 103, 137, 171, 205, 239, 1, 35, 69, 103, 137, 171, 205, 239, 1, 35, 69, 103, 137, 171, 205, 239, 1, 35, 69, 103, 137, 171, 205, 239, 1, 35, 69, 103, 137, 171, 205, 239, 1, 35, 69, 103, 137, 171, 205, 239, 1, 35, 69, 103, 137, 171, 205, 239, 1, 35, 69, 103, 137, 171, 205, 239, 1, 35, 69, 103, 137, 171, 205, 239, 1, 35, 69, 103, 137, 171, 205, 239, 1, 35, 69, 103, 137, 171, 205, 239, 1, 35, 69, 103, 137, 171, 205, 239, 1, 35, 69, 103, 137, 171, 205, 239, 1, 35, 69, 103, 137, 171, 205, 239, 1, 35, 69, 103, 137, 171, 205, 239, 1, 35, 69, 103, 137, 171, 205, 239, 1, 35, 69, 103, 137, 171, 205, 239, 1, 35, 69, 103, 137, 171, 205, 239, 1, 35, 69, 103, 137, 171, 205, 239, 1, 35, 69, 103, 137, 171, 205, 239, 1, 35, 69, 103, 137, 171, 205, 239, 1, 35, 69, 103, 137, 171, 205, 239, 1, 35, 69, 103, 137, 171, 205, 239, 1, 35, 69, 103, 137, 171, 205, 239, 1, 35, 69, 103, 137, 171, 205, 239, 1, 35, 69, 103, 137, 171, 205, 239, 1, 35, 69, 103, 137, 171, 205, 239, 1, 35, 69, 103, 137, 171, 205, 239, 1, 35, 69, 103, 137, 171, 205, 239, 1, 35, 69, 103, 137, 171, 205, 239, 1, 35, 69, 103, 137, 171, 205, 239, 1, 35, 69, 103, 137, 171, 205, 239, 1, 35, 69, 103, 137, 171, 205, 239, 1, 35, 69, 103, 137, 171, 205, 239, 1, 35, 69, 103, 137, 171, 205, 239, 1, 35, 69, 103, 137, 171, 205, 239, 1, 35, 69, 103, 137, 171, 205, 239, 1, 35, 69, 103, 137, 171, 205, 239, 1, 35, 69, 103, 137, 171, 205, 239, 1, 35, 69, 103, 137, 171, 205, 239, 1, 35, 69, 103, 137, 171, 205, 239, 1, 35, 69, 103, 137, 171, 205, 239, 1, 35, 69, 103, 137, 171, 205, 239, 1, 35, 69, 103, 137, 171, 205, 239, 1, 35, 69, 103, 137, 171, 205, 239, 1, 35, 69, 103, 137, 171, 205, 239, 1, 35, 69, 103, 137, 171, 205, 239, 1, 35, 69, 103, 137, 171, 205, 239, 1, 35, 69, 103, 137, 171, 205, 239, 1, 35, 69, 103, 137, 171, 205, 239, 1, 35, 69, 103, 137, 171, 205, 239, 1, 35, 69, 103, 137, 171, 205, 239, 1, 35, 69, 103, 137, 171, 205, 239, 1, 35, 69, 103, 137, 171, 205, 239, 1, 35, 69, 103, 137, 171, 205, 239, 1, 35, 69, 103, 137, 171, 205, 239, 1, 35, 69, 103, 137, 171, 205, 239, 1, 35, 69, 103] = [170, 85, 204, 51, 201, 22, 12, 166, 192, 238, 140, 83, 50, 71, 20, 62, 143, 35, 200, 199, 200, 22, 12, 166, 192, 238, 140, 83, 50, 71, 20, 62, 143, 35, 200, 199, 200, 22, 12, 166, 192, 238, 140, 83, 50, 71, 20, 62, 143, 35, 200, 199, 200, 22, 12, 166, 192, 238, 140, 83, 50, 71, 20, 62, 143, 35, 200, 199, 200, 22, 12, 166, 192, 238, 140, 83, 50, 71, 20, 62, 143, 35, 200, 199, 200, 22, 12, 166, 192, 238, 140, 83, 50, 71, 20, 62, 143, 35, 200, 199, 200, 22, 12, 166, 192, 238, 140, 83, 50, 71, 20, 62, 143, 35, 200, 199, 200, 22, 12, 166, 192, 238, 140, 83, 50, 71, 20, 62, 142, 35, 214, 79, 45, 22, 12, 70, 255, 50, 140, 111, 50, 21, 172, 160, 176, 35, 200, 183, 139, 22, 12, 220, 132, 172, 237, 62, 80, 50, 52, 114, 238, 65, 200, 199, 200, 22, 12, 166, 192, 238, 140, 83, 50, 71, 20, 62, 143, 35, 200, 199, 200, 22, 12, 166, 192, 172, 237, 62, 80, 50, 52, 110, 195, 98, 232, 138, 169, 98, 120, 195, 192, 238, 140, 83, 50, 71, 20, 62, 143, 35, 200, 199, 200, 22, 12, 166, 192, 238, 140, 83, 50, 71, 20, 62, 143, 35, 200, 199, 200, 22, 12, 166, 192, 238, 140, 83, 50, 71, 20, 62, 143, 35, 200, 199, 200, 22, 12, 166, 192, 238, 140, 83, 50, 71, 20, 62, 205, 111, 249, 245, 251, 34, 57, 144, 247, 214, 140, 83, 50, 71, 20, 62, 143, 35, 200, 199, 200, 22, 12, 166, 192, 238, 140, 83, 50, 71, 20, 62, 143, 150, 48, 167, 200, 22, 12, 166, 192, 238, 140, 83, 50, 71, 20, 62, 143, 35, 200, 199, 200, 22, 12, 166, 192, 238, 140, 83, 50, 71, 20, 62, 143, 35, 200, 199, 200, 22, 12, 166, 192, 238, 140, 83, 50, 71, 20, 62, 143, 35, 200, 199, 200, 22, 12, 166, 192, 238, 140, 83, 50, 71, 20, 62, 143, 35, 200, 199, 200, 22, 12, 166, 192, 238, 140, 83, 50, 71, 20, 62, 143, 35, 200, 199, 200, 22, 12, 166, 192, 238, 140, 83, 50, 71, 20, 62, 143, 35, 200, 199, 200, 22, 12, 166, 192, 238, 140, 83, 50, 71, 20, 62, 143, 35, 200, 199, 200, 22, 12, 166, 192, 238, 140, 83, 50, 71, 20, 62, 143, 35, 200, 199, 200, 22, 12, 166, 192, 238, 140, 83, 50, 71, 20, 62, 143, 35, 200, 199, 200, 22, 12, 166, 192, 238, 140, 83, 50, 71, 20, 62, 143, 35, 200, 199, 200, 22, 12, 166, 192, 238, 140, 83, 50, 71, 20, 62, 143, 35, 200, 199, 200, 22, 12, 166, 192, 238, 140, 83, 50, 71, 20, 62, 143, 35, 200, 199, 200, 22, 12, 166, 192, 238, 140, 83, 50, 71, 20, 62, 143, 35, 200, 199, 200, 22, 12, 166, 192, 238, 140, 83, 50, 71, 20, 62, 17, 92, 55, 191, 200, 22, 12, 166, 192, 238, 140, 83, 50, 71, 20, 62, 143, 35, 200, 199, 200, 22, 12, 166, 192, 238, 140, 83, 50, 71, 20, 62, 143, 35, 200, 199, 200, 22, 12, 166, 192, 238, 140, 83, 50, 71, 20, 62, 143, 35, 200, 199, 200, 22, 12, 166, 192, 238, 140, 83, 50, 71, 20, 62, 143, 35, 200, 199, 200, 22, 12, 166, 192, 238, 140, 83, 50, 71, 20, 62, 143, 35, 200, 199, 200, 22, 12, 166, 192, 238, 140, 83, 50, 71, 20, 62, 143, 35, 200, 199, 200, 22, 12, 166, 192, 238, 140, 83, 50, 71, 20, 62, 143, 35, 200, 199, 200, 22, 12, 166, 192, 238, 140, 83, 50, 71, 20, 62, 143, 35, 200, 199, 200, 22, 12, 166, 192, 238, 140, 83, 50, 71, 20, 62, 143, 35, 200, 199, 200, 22, 12, 166, 192, 238, 140, 83, 50, 71, 20, 62, 143, 35, 200, 199, 200, 22, 12, 166, 192, 238, 140, 83, 50, 71, 20, 62, 143, 35, 200, 199, 200, 22, 12, 166, 192, 238, 140, 83, 50, 71, 20, 62, 143, 35, 200, 199, 200, 22, 12, 166, 192, 238, 140, 83, 50, 71, 20, 62, 143, 35, 200, 199, 200, 22, 12, 166, 192, 238, 140, 83, 50, 71, 20, 62, 143, 35, 200, 199, 200, 22, 12, 166, 192, 238, 140, 83, 50, 71, 20, 62, 143, 35, 200, 199, 200, 22, 12, 166, 192, 238, 140, 83, 50, 71, 20, 62, 143, 35, 200, 199, 200, 22, 12, 166, 192, 238, 140, 83, 50, 71, 20, 62, 143, 35, 200, 199, 200, 22, 12, 166, 192, 238, 140, 83, 50, 71, 20, 62, 143, 35, 200, 199, 200, 22, 12, 166, 192, 238, 140, 83, 50, 71, 20, 62, 143, 35, 200, 199, 200, 22, 12, 166, 192, 238, 140, 83, 50, 71, 20, 62, 143, 35, 200, 199, 200, 22, 12, 166, 192, 238, 140, 83, 50, 71, 20, 62, 143, 35, 200, 199, 200, 22, 12, 166, 192, 238, 140, 83, 50, 71, 20, 62, 143, 35, 200, 199, 200, 22, 12, 166, 192, 238, 140, 83, 50, 71, 20, 62, 143, 35, 200, 199, 200, 22, 12, 166, 192, 238, 140, 83, 50, 71, 20, 62, 143, 35, 200, 199, 200, 22, 12, 166, 192, 238, 140, 83, 50, 71, 20, 62, 143, 35, 200, 199, 200, 22, 12, 166, 192, 238, 140, 83, 50, 71, 20, 62, 143, 35, 200, 199, 200, 22, 12, 166, 192, 238, 140, 83, 50, 71, 20, 62, 143, 35, 200, 199, 200, 22, 12, 166, 192, 238, 140, 83, 50, 71, 20, 62, 143, 35, 200, 199, 200, 22, 12, 166, 192, 238, 140, 83, 50, 71, 20, 62, 143, 35, 200, 199, 200, 22, 12, 166, 192, 238, 140, 83, 50, 71, 20, 62, 143, 35, 200, 199, 200, 22, 12, 166, 192, 238, 140, 83, 50, 71, 20, 62, 143, 35, 200, 199, 200, 22, 12, 166, 192, 238, 140, 83, 50, 71, 20, 62] := by decide
  have hfb1 : List.foldl crc_byte 4294967295 [170, 85, 204, 51, 201, 22, 12, 166, 192, 238, 140, 83, 50, 71, 20, 62, 143, 35, 200, 199, 200, 22, 12, 166, 192, 238, 140, 83, 50, 71, 20, 62] = 1252490908 := by decide
  have hfb2 : List.foldl crc_byte 1252490908 [143, 35, 200, 199, 200, 22, 12, 166, 192, 238, 140, 83, 50, 71, 20, 62, 143, 35, 200, 199, 200, 22, 12, 166, 192, 238, 140, 83, 50, 71, 20, 62] = 322687619 := by decide
  have hfb3 : List.foldl crc_byte 322687619 [143, 35, 200, 199, 200, 22, 12, 166, 192, 238, 140, 83, 50, 71, 20, 62, 143, 35, 200, 199, 200, 22, 12, 166, 192, 238, 140, 83, 50, 71, 20, 62] = 3049783143 := by decide
  have hfb4 : List.foldl crc_byte 3049783143 [143, 35, 200, 199, 200, 22, 12, 166, 192, 238, 140, 83, 50, 71, 20, 62, 143, 35, 200, 199, 200, 22, 12, 166, 192, 238, 140, 83, 50, 71, 20, 62] = 4294613135 := by decide
  have hfb5 : List.foldl crc_byte 4294613135 [142, 35, 214, 79, 45, 22, 12, 70, 255, 50, 140, 111, 50, 21, 172, 160, 176, 35, 200, 183, 139, 22, 12, 220, 132, 172, 237, 62, 80, 50, 52, 114] = 679546042 := by decide
  have hfb6 : List.foldl crc_byte 679546042 [238, 65, 200, 199, 200, 22, 12, 166, 192, 238, 140, 83, 50, 71, 20, 62, 143, 35, 200, 199, 200, 22, 12, 166, 192, 172, 237, 62, 80, 50, 52, 110] = 1914027892 := by decide
  have hfb7 : List.foldl crc_byte 1914027892 [195, 98, 232, 138, 169, 98, 120, 195, 192, 238, 140, 83, 50, 71, 20, 62, 143, 35, 200, 199, 200, 22, 12, 166, 192, 238, 140, 83, 50, 71, 20, 62] = 1649418477 := by decide
  have hfb8 : List.foldl crc_byte 1649418477 [143, 35, 200, 199, 200, 22, 12, 166, 192, 238, 140, 83, 50, 71, 20, 62, 143, 35, 200, 199, 200, 22, 12, 166, 192, 238, 140, 83, 50, 71, 20, 62] = 1963880454 := by decide
  have hfb9 : List.foldl crc_byte 1963880454 [205, 111, 249, 245, 251, 34, 57, 144, 247, 214, 140, 83, 50, 71, 20, 62, 143, 35, 200, 199, 200, 22, 12, 166, 192, 238, 140, 83, 50, 71, 20, 62] = 4146487247 := by decide
  have hfb10 : List.foldl crc_byte 4146487247 [143, 150, 48, 167, 200, 22, 12, 166, 192, 238, 140, 83, 50, 71, 20, 62, 143, 35, 200, 199, 200, 22, 12, 166, 192, 238, 140, 83, 50, 71, 20, 62] = 1938075596 := by decide
  have hfb11 : List.foldl crc_byte 1938075596 [143, 35, 200, 199, 200, 22, 12, 166, 192, 238, 140, 83, 50, 71, 20, 62, 143, 35, 200, 199, 200, 22, 12, 166, 192, 238, 140, 83, 50, 71, 20, 62] = 2990341021 := by decide
  have hfb12 : List.foldl crc_byte 2990341021 [143, 35, 200, 199, 200, 22, 12, 166, 192, 238, 140, 83, 50, 71, 20, 62, 143, 35, 200, 199, 200, 22, 12, 166, 192, 238, 140, 83, 50, 71, 20, 62] = 2436239652 := by decide
  have hfb13 : List.foldl crc_byte 2436239652 [143, 35, 200, 199, 200, 22, 12, 166, 192, 238, 140, 83, 50, 71, 20, 62, 143, 35, 200, 199, 200, 22, 12, 166, 192, 238, 140, 83, 50, 71, 20, 62] = 30640530 := by decide
  have hfb14 : List.foldl crc_byte 30640530 [143, 35, 200, 199, 200, 22, 12, 166, 192, 238, 140, 83, 50, 71, 20, 62, 143, 35, 200, 199, 200, 22, 12, 166, 192, 238, 140, 83, 50, 71, 20, 62] = 1813912990 := by decide
  have hfb15 : List.foldl crc_byte 1813912990 [143, 35, 200, 199, 200, 22, 12, 166, 192, 238, 140, 83, 50, 71, 20, 62, 143, 35, 200, 199, 200, 22, 12, 166, 192, 238, 140, 83, 50, 71, 20, 62] = 3546438409 := by decide
  have hfb16 : List.foldl crc_byte 3546438409 [143, 35, 200, 199, 200, 22, 12, 166, 192, 238, 140, 83, 50, 71, 20, 62, 143, 35, 200, 199, 200, 22, 12, 166, 192, 238, 140, 83, 50, 71, 20, 62] = 350034568 := by decide
  have hcfb : crc32 (([170, 85, 204, 51, 201, 22, 12, 166, 192, 238, 140, 83, 50, 71, 20, 62, 143, 35, 200, 199, 200, 22, 12, 166, 192, 238, 140, 83, 50, 71, 20, 62, 143, 35, 200, 199, 200, 22, 12, 166, 192, 238, 140, 83, 50, 71, 20, 62, 143, 35, 200, 199, 200, 22, 12, 166, 192, 238, 140, 83, 50, 71, 20, 62, 143, 35, 200, 199, 200, 22, 12, 166, 192, 238, 140, 83, 50, 71, 20, 62, 143, 35, 200, 199, 200, 22, 12, 166, 192, 238, 140, 83, 50, 71, 20, 62, 143, 35, 200, 199, 200, 22, 12, 166, 192, 238, 140, 83, 50, 71, 20, 62, 143, 35, 200, 199, 200, 22, 12, 166, 192, 238, 140, 83, 50, 71, 20, 62, 142, 35, 214, 79, 45, 22, 12, 70, 255, 50, 140, 111, 50, 21, 172, 160, 176, 35, 200, 183, 139, 22, 12, 220, 132, 172, 237, 62, 80, 50, 52, 114, 238, 65, 200, 199, 200, 22, 12, 166, 192, 238, 140, 83, 50, 71, 20, 62, 143, 35, 200, 199, 200, 22, 12, 166, 192, 172, 237, 62, 80, 50, 52, 110, 195, 98, 232, 138, 169, 98, 120, 195, 192, 238, 140, 83, 50, 71, 20, 62, 143, 35, 200, 199, 200, 22, 12, 166, 192, 238, 140, 83, 50, 71, 20, 62, 143, 35, 200, 199, 200, 22, 12, 166, 192, 238, 140, 83, 50, 71, 20, 62, 143, 35, 200, 199, 200, 22, 12, 166, 192, 238, 140, 83, 50, 71, 20, 62, 205, 111, 249, 245, 251, 34, 57, 144, 247, 214, 140, 83, 50, 71, 20, 62, 143, 35, 200, 199, 200, 22, 12, 166, 192, 238, 140, 83, 50, 71, 20, 62, 143, 150, 48, 167, 200, 22, 12, 166, 192, 238, 140, 83, 50, 71, 20, 62, 143, 35, 200, 199, 200, 22, 12, 166, 192, 238, 140, 83, 50, 71, 20, 62, 143, 35, 200, 199, 200, 22, 12, 166, 192, 238, 140, 83, 50, 71, 20, 62, 143, 35, 200, 199, 200, 22, 12, 166, 192, 238, 140, 83, 50, 71, 20, 62, 143, 35, 200, 199, 200, 22, 12, 166, 192, 238, 140, 83, 50, 71, 20, 62, 143, 35, 200, 199, 200, 22, 12, 166, 192, 238, 140, 83, 50, 71, 20, 62, 143, 35, 200, 199, 200, 22, 12, 166, 192, 238, 140, 83, 50, 71, 20, 62, 143, 35, 200, 199, 200, 22, 12, 166, 192, 238, 140, 83, 50, 71, 20, 62, 143, 35, 200, 199, 200, 22, 12, 166, 192, 238, 140, 83, 50, 71, 20, 62, 143, 35, 200, 199, 200, 22, 12, 166, 192, 238, 140, 83, 50, 71, 20, 62, 143, 35, 200, 199, 200, 22, 12, 166, 192, 238, 140, 83, 50, 71, 20, 62, 143, 35, 200, 199, 200, 22, 12, 166, 192, 238, 140, 83, 50, 71, 20, 62, 143, 35, 200, 199, 200, 22, 12, 166, 192, 238, 140, 83, 50, 71, 20, 62, 143, 35, 200, 199, 200, 22, 12, 166, 192, 238, 140, 83, 50, 71, 20, 62, 17, 92, 55, 191, 200, 22, 12, 166, 192, 238, 140, 83, 50, 71, 20, 62, 143, 35, 200, 199, 200, 22, 12, 166, 192, 238, 140, 83, 50, 71, 20, 62, 143, 35, 200, 199, 200, 22, 12, 166, 192, 238, 140, 83, 50, 71, 20, 62, 143, 35, 200, 199, 200, 22, 12, 166, 192, 238, 140, 83, 50, 71, 20, 62, 143, 35, 200, 199, 200, 22, 12, 166, 192, 238, 140, 83, 50, 71, 20, 62, 143, 35, 200, 199, 200, 22, 12, 166, 192, 238, 140, 83, 50, 71, 20, 62, 143, 35, 200, 199, 200, 22, 12, 166, 192, 238, 140, 83, 50, 71, 20, 62, 143, 35, 200, 199, 200, 22, 12, 166, 192, 238, 140, 83, 50, 71, 20, 62, 143, 35, 200, 199, 200, 22, 12, 166, 192, 238, 140, 83, 50, 71, 20, 62, 143, 35, 200, 199, 200, 22, 12, 166, 192, 238, 140, 83, 50, 71, 20, 62, 143, 35, 200, 199, 200, 22, 12, 166, 192, 238, 140, 83, 50, 71, 20, 62, 143, 35, 200, 199, 200, 22, 12, 166, 192, 238, 140, 83, 50, 71, 20, 62, 143, 35, 200, 199, 200, 22, 12, 166, 192, 238, 140, 83, 50, 71, 20, 62, 143, 35, 200, 199, 200, 22, 12, 166, 192, 238, 140, 83, 50, 71, 20, 62, 143, 35, 200, 199, 200, 22, 12, 166, 192, 238, 140, 83, 50, 71, 20, 62, 143, 35, 200, 199, 200, 22, 12, 166, 192, 238, 140, 83, 50, 71, 20, 62, 143, 35, 200, 199, 200, 22, 12, 166, 192, 238, 140, 83, 50, 71, 20, 62, 143, 35, 200, 199, 200, 22, 12, 166, 192, 238, 140, 83, 50, 71, 20, 62, 143, 35, 200, 199, 200, 22, 12, 166, 192, 238, 140, 83, 50, 71, 20, 62, 143, 35, 200, 199, 200, 22, 12, 166, 192, 238, 140, 83, 50, 71, 20, 62, 143, 35, 200, 199, 200, 22, 12, 166, 192, 238, 140, 83, 50, 71, 20, 62, 143, 35, 200, 199, 200, 22, 12, 166, 192, 238, 140, 83, 50, 71, 20, 62, 143, 35, 200, 199, 200, 22, 12, 166, 192, 238, 140, 83, 50, 71, 20, 62, 143, 35, 200, 199, 200, 22, 12, 166, 192, 238, 140, 83, 50, 71, 20, 62, 143, 35, 200, 199, 200, 22, 12, 166, 192, 238, 140, 83, 50, 71, 20, 62, 143, 35, 200, 199, 200, 22, 12, 166, 192, 238, 140, 83, 50, 71, 20, 62, 143, 35, 200, 199, 200, 22, 12, 166, 192, 238, 140, 83, 50, 71, 20, 62, 143, 35, 200, 199, 200, 22, 12, 166, 192, 238, 140, 83, 50, 71, 20, 62, 143, 35, 200, 199, 200, 22, 12, 166, 192, 238, 140, 83, 50, 71, 20, 62, 143, 35, 200, 199, 200, 22, 12, 166, 192, 238, 140, 83, 50, 71, 20, 62, 143, 35, 200, 199, 200, 22, 12, 166, 192, 238, 140, 83, 50, 71, 20, 62, 143, 35, 200, 199, 200, 22, 12, 166, 192, 238, 140, 83, 50, 71, 20, 62] : List Nat).take 512) = 3944932727 := by
    rw [show (([170, 85, 204, 51, 201, 22, 12, 166, 192, 238, 140, 83, 50, 71, 20, 62, 143, 35, 200, 199, 200, 22, 12, 166, 192, 238, 140, 83, 50, 71, 20, 62, 143, 35, 200, 199, 200, 22, 12, 166, 192, 238, 140, 83, 50, 71, 20, 62, 143, 35, 200, 199, 200, 22, 12, 166, 192, 238, 140, 83, 50, 71, 20, 62, 143, 35, 200, 199, 200, 22, 12, 166, 192, 238, 140, 83, 50, 71, 20, 62, 143, 35, 200, 199, 200, 22, 12, 166, 192, 238, 140, 83, 50, 71, 20, 62, 143, 35, 200, 199, 200, 22, 12, 166, 192, 238, 140, 83, 50, 71, 20, 62, 143, 35, 200, 199, 200, 22, 12, 166, 192, 238, 140, 83, 50, 71, 20, 62, 142, 35, 214, 79, 45, 22, 12, 70, 255, 50, 140, 111, 50, 21, 172, 160, 176, 35, 200, 183, 139, 22, 12, 220, 132, 172, 237, 62, 80, 50, 52, 114, 238, 65, 200, 199, 200, 22, 12, 166, 192, 238, 140, 83, 50, 71, 20, 62, 143, 35, 200, 199, 200, 22, 12, 166, 192, 172, 237, 62, 80, 50, 52, 110, 195, 98, 232, 138, 169, 98, 120, 195, 192, 238, 140, 83, 50, 71, 20, 62, 143, 35, 200, 199, 200, 22, 12, 166, 192, 238, 140, 83, 50, 71, 20, 62, 143, 35, 200, 199, 200, 22, 12, 166, 192, 238, 140, 83, 50, 71, 20, 62, 143, 35, 200, 199, 200, 22, 12, 166, 192, 238, 140, 83, 50, 71, 20, 62, 205, 111, 249, 245, 251, 34, 57, 144, 247, 214, 140, 83, 50, 71, 20, 62, 143, 35, 200, 199, 200, 22, 12, 166, 192, 238, 140, 83, 50, 71, 20, 62, 143, 150, 48, 167, 200, 22, 12, 166, 192, 238, 140, 83, 50, 71, 20, 62, 143, 35, 200, 199, 200, 22, 12, 166, 192, 238, 140, 83, 50, 71, 20, 62, 143, 35, 200, 199, 200, 22, 12, 166, 192, 238, 140, 83, 50, 71, 20, 62, 143, 35, 200, 199, 200, 22, 12, 166, 192, 238, 140, 83, 50, 71, 20, 62, 143, 35, 200, 199, 200, 22, 12, 166, 192, 238, 140, 83, 50, 71, 20, 62, 143, 35, 200, 199, 200, 22, 12, 166, 192, 238, 140, 83, 50, 71, 20, 62, 143, 35, 200, 199, 200, 22, 12, 166, 192, 238, 140, 83, 50, 71, 20, 62, 143, 35, 200, 199, 200, 22, 12, 166, 192, 238, 140, 83, 50, 71, 20, 62, 143, 35, 200, 199, 200, 22, 12, 166, 192, 238, 140, 83, 50, 71, 20, 62, 143, 35, 200, 199, 200, 22, 12, 166, 192, 238, 140, 83, 50, 71, 20, 62, 143, 35, 200, 199, 200, 22, 12, 166, 192, 238, 140, 83, 50, 71, 20, 62, 143, 35, 200, 199, 200, 22, 12, 166, 192, 238, 140, 83, 50, 71, 20, 62, 143, 35, 200, 199, 200, 22, 12, 166, 192, 238, 140, 83, 50, 71, 20, 62, 143, 35, 200, 199, 200, 22, 12, 166, 192, 238, 140, 83, 50, 71, 20, 62, 17, 92, 55, 191, 200, 22, 12, 166, 192, 238, 140, 83, 50, 71, 20, 62, 143, 35, 200, 199, 200, 22, 12, 166, 192, 238, 140, 83, 50, 71, 20, 62, 143, 35, 200, 199, 200, 22, 12, 166, 192, 238, 140, 83, 50, 71, 20, 62, 143, 35, 200, 199, 200, 22, 12, 166, 192, 238, 140, 83, 50, 71, 20, 62, 143, 35, 200, 199, 200, 22, 12, 166, 192, 238, 140, 83, 50, 71, 20, 62, 143, 35, 200, 199, 200, 22, 12, 166, 192, 238, 140, 83, 50, 71, 20, 62, 143, 35, 200, 199, 200, 22, 12, 166, 192, 238, 140, 83, 50, 71, 20, 62, 143, 35, 200, 199, 200, 22, 12, 166, 192, 238, 140, 83, 50, 71, 20, 62, 143, 35, 200, 199, 200, 22, 12, 166, 192, 238, 140, 83, 50, 71, 20, 62, 143, 35, 200, 199, 200, 22, 12, 166, 192, 238, 140, 83, 50, 71, 20, 62, 143, 35, 200, 199, 200, 22, 12, 166, 192, 238, 140, 83, 50, 71, 20, 62, 143, 35, 200, 199, 200, 22, 12, 166, 192, 238, 140, 83, 50, 71, 20, 62, 143, 35, 200, 199, 200, 22, 12, 166, 192, 238, 140, 83, 50, 71, 20, 62, 143, 35, 200, 199, 200, 22, 12, 166, 192, 238, 140, 83, 50, 71, 20, 62, 143, 35, 200, 199, 200, 22, 12, 166, 192, 238, 140, 83, 50, 71, 20, 62, 143, 35, 200, 199, 200, 22, 12, 166, 192, 238, 140, 83, 50, 71, 20, 62, 143, 35, 200, 199, 200, 22, 12, 166, 192, 238, 140, 83, 50, 71, 20, 62, 143, 35, 200, 199, 200, 22, 12, 166, 192, 238, 140, 83, 50, 71, 20, 62, 143, 35, 200, 199, 200, 22, 12, 166, 192, 238, 140, 83, 50, 71, 20, 62, 143, 35, 200, 199, 200, 22, 12, 166, 192, 238, 140, 83, 50, 71, 20, 62, 143, 35, 200, 199, 200, 22, 12, 166, 192, 238, 140, 83, 50, 71, 20, 62, 143, 35, 200, 199, 200, 22, 12, 166, 192, 238, 140, 83, 50, 71, 20, 62, 143, 35, 200, 199, 200, 22, 12, 166, 192, 238, 140, 83, 50, 71, 20, 62, 143, 35, 200, 199, 200, 22, 12, 166, 192, 238, 140, 83, 50, 71, 20, 62, 143, 35, 200, 199, 200, 22, 12, 166, 192, 238, 140, 83, 50, 71, 20, 62, 143, 35, 200, 199, 200, 22, 12, 166, 192, 238, 140, 83, 50, 71, 20, 62, 143, 35, 200, 199, 200, 22, 12, 166, 192, 238, 140, 83, 50, 71, 20, 62, 143, 35, 200, 199, 200, 22, 12, 166, 192, 238, 140, 83, 50, 71, 20, 62, 143, 35, 200, 199, 200, 22, 12, 166, 192, 238, 140, 83, 50, 71, 20, 62, 143, 35, 200, 199, 200, 22, 12, 166, 192, 238, 140, 83, 50, 71, 20, 62, 143, 35, 200, 199, 200, 22, 12, 166, 192, 238, 140, 83, 50, 71, 20, 62, 143, 35, 200, 199, 200, 22, 12, 166, 192, 238, 140, 83, 50, 71, 20, 62] : List Nat).take 512) = [170, 85, 204, 51, 201, 22, 12, 166, 192, 238, 140, 83, 50, 71, 20, 62, 143, 35, 200, 199, 200, 22, 12, 166, 192, 238, 140, 83, 50, 71, 20, 62] ++ ([143, 35, 200, 199, 200, 22, 12, 166, 192, 238, 140, 83, 50, 71, 20, 62, 143, 35, 200, 199, 200, 22, 12, 166, 192, 238, 140, 83, 50, 71, 20, 62] ++ ([143, 35, 200, 199, 200, 22, 12, 166, 192, 238, 140, 83, 50, 71, 20, 62, 143, 35, 200, 199, 200, 22, 12, 166, 192, 238, 140, 83, 50, 71, 20, 62] ++ ([143, 35, 200, 199, 200, 22, 12, 166, 192, 238, 140, 83, 50, 71, 20, 62, 143, 35, 200, 199, 200, 22, 12, 166, 192, 238, 140, 83, 50, 71, 20, 62] ++ ([142, 35, 214, 79, 45, 22, 12, 70, 255, 50, 140, 111, 50, 21, 172, 160, 176, 35, 200, 183, 139, 22, 12, 220, 132, 172, 237, 62, 80, 50, 52, 114] ++ ([238, 65, 200, 199, 200, 22, 12, 166, 192, 238, 140, 83, 50, 71, 20, 62, 143, 35, 200, 199, 200, 22, 12, 166, 192, 172, 237, 62, 80, 50, 52, 110] ++ ([195, 98, 232, 138, 169, 98, 120, 195, 192, 238, 140, 83, 50, 71, 20, 62, 143, 35, 200, 199, 200, 22, 12, 166, 192, 238, 140, 83, 50, 71, 20, 62] ++ ([143, 35, 200, 199, 200, 22, 12, 166, 192, 238, 140, 83, 50, 71, 20, 62, 143, 35, 200, 199, 200, 22, 12, 166, 192, 238, 140, 83, 50, 71, 20, 62] ++ ([205, 111, 249, 245, 251, 34, 57, 144, 247, 214, 140, 83, 50, 71, 20, 62, 143, 35, 200, 199, 200, 22, 12, 166, 192, 238, 140, 83, 50, 71, 20, 62] ++ ([143, 150, 48, 167, 200, 22, 12, 166, 192, 238, 140, 83, 50, 71, 20, 62, 143, 35, 200, 199, 200, 22, 12, 166, 192, 238, 140, 83, 50, 71, 20, 62] ++ ([143, 35, 200, 199, 200, 22, 12, 166, 192, 238, 140, 83, 50, 71, 20, 62, 143, 35, 200, 199, 200, 22, 12, 166, 192, 238, 140, 83, 50, 71, 20, 62] ++ ([143, 35, 200, 199, 200, 22, 12, 166, 192, 238, 140, 83, 50, 71, 20, 62, 143, 35, 200, 199, 200, 22, 12, 166, 192, 238, 140, 83, 50, 71, 20, 62] ++ ([143, 35, 200, 199, 200, 22, 12, 166, 192, 238, 140, 83, 50, 71, 20, 62, 143, 35, 200, 199, 200, 22, 12, 166, 192, 238, 140, 83, 50, 71, 20, 62] ++ ([143, 35, 200, 199, 200, 22, 12, 166, 192, 238, 140, 83, 50, 71, 20, 62, 143, 35, 200, 199, 200, 22, 12, 166, 192, 238, 140, 83, 50, 71, 20, 62] ++ ([143, 35, 200, 199, 200, 22, 12, 166, 192, 238, 140, 83, 50, 71, 20, 62, 143, 35, 200, 199, 200, 22, 12, 166, 192, 238, 140, 83, 50, 71, 20, 62] ++ ([143, 35, 200, 199, 200, 22, 12, 166, 192, 238, 140, 83, 50, 71, 20, 62, 143, 35, 200, 199, 200, 22, 12, 166, 192, 238, 140, 83, 50, 71, 20, 62]))))))))))))))) from by decide]
    show List.foldl crc_byte 4294967295 ([170, 85, 204, 51, 201, 22, 12, 166, 192, 238, 140, 83, 50, 71, 20, 62, 143, 35, 200, 199, 200, 22, 12, 166, 192, 238, 140, 83, 50, 71, 20, 62] ++ ([143, 35, 200, 199, 200, 22, 12, 166, 192, 238, 140, 83, 50, 71, 20, 62, 143, 35, 200, 199, 200, 22, 12, 166, 192, 238, 140, 83, 50, 71, 20, 62] ++ ([143, 35, 200, 199, 200, 22, 12, 166, 192, 238, 140, 83, 50, 71, 20, 62, 143, 35, 200, 199, 200, 22, 12, 166, 192, 238, 140, 83, 50, 71, 20, 62] ++ ([143, 35, 200, 199, 200, 22, 12, 166, 192, 238, 140, 83, 50, 71, 20, 62, 143, 35, 200, 199, 200, 22, 12, 166, 192, 238, 140, 83, 50, 71, 20, 62] ++ ([142, 35, 214, 79, 45, 22, 12, 70, 255, 50, 140, 111, 50, 21, 172, 160, 176, 35, 200, 183, 139, 22, 12, 220, 132, 172, 237, 62, 80, 50, 52, 114] ++ ([238, 65, 200, 199, 200, 22, 12, 166, 192, 238, 140, 83, 50, 71, 20, 62, 143, 35, 200, 199, 200, 22, 12, 166, 192, 172, 237, 62, 80, 50, 52, 110] ++ ([195, 98, 232, 138, 169, 98, 120, 195, 192, 238, 140, 83, 50, 71, 20, 62, 143, 35, 200, 199, 200, 22, 12, 166, 192, 238, 140, 83, 50, 71, 20, 62] ++ ([143, 35, 200, 199, 200, 22, 12, 166, 192, 238, 140, 83, 50, 71, 20, 62, 143, 35, 200, 199, 200, 22, 12, 166, 192, 238, 140, 83, 50, 71, 20, 62] ++ ([205, 111, 249, 245, 251, 34, 57, 144, 247, 214, 140, 83, 50, 71, 20, 62, 143, 35, 200, 199, 200, 22, 12, 166, 192, 238, 140, 83, 50, 71, 20, 62] ++ ([143, 150, 48, 167, 200, 22, 12, 166, 192, 238, 140, 83, 50, 71, 20, 62, 143, 35, 200, 199, 200, 22, 12, 166, 192, 238, 140, 83, 50, 71, 20, 62] ++ ([143, 35, 200, 199, 200, 22, 12, 166, 192, 238, 140, 83, 50, 71, 20, 62, 143, 35, 200, 199, 200, 22, 12, 166, 192, 238, 140, 83, 50, 71, 20, 62] ++ ([143, 35, 200, 199, 200, 22, 12, 166, 192, 238, 140, 83, 50, 71, 20, 62, 143, 35, 200, 199, 200, 22, 12, 166, 192, 238, 140, 83, 50, 71, 20, 62] ++ ([143, 35, 200, 199, 200, 22, 12, 166, 192, 238, 140, 83, 50, 71, 20, 62, 143, 35, 200, 199, 200, 22, 12, 166, 192, 238, 140, 83, 50, 71, 20, 62] ++ ([143, 35, 200, 199, 200, 22, 12, 166, 192, 238, 140, 83, 50, 71, 20, 62, 143, 35, 200, 199, 200, 22, 12, 166, 192, 238, 140, 83, 50, 71, 20, 62] ++ ([143, 35, 200, 199, 200, 22, 12, 166, 192, 238, 140, 83, 50, 71, 20, 62, 143, 35, 200, 199, 200, 22, 12, 166, 192, 238, 140, 83, 50, 71, 20, 62] ++ ([143, 35, 200, 199, 200, 22, 12, 166, 192, 238, 140, 83, 50, 71, 20, 62, 143, 35, 200, 199, 200, 22, 12, 166, 192, 238, 140, 83, 50, 71, 20, 62])))))))))))))))) ^^^ 4294967295 = 3944932727
    simp only [List.foldl_append]
    rw [hfb1, hfb2, hfb3, hfb4, hfb5, hfb6, hfb7, hfb8, hfb9, hfb10, hfb11, hfb12, hfb13, hfb14, hfb15, hfb16]
    decide
  have hvfb : verify_checksum [170, 85, 204, 51, 201, 22, 12, 166, 192, 238, 140, 83, 50, 71, 20, 62, 143, 35, 200, 199, 200, 22, 12, 166, 192, 238, 140, 83, 50, 71, 20, 62, 143, 35, 200, 199, 200, 22, 12, 166, 192, 238, 140, 83, 50, 71, 20, 62, 143, 35, 200, 199, 200, 22, 12, 166, 192, 238, 140, 83, 50, 71, 20, 62, 143, 35, 200, 199, 200, 22, 12, 166, 192, 238, 140, 83, 50, 71, 20, 62, 143, 35, 200, 199, 200, 22, 12, 166, 192, 238, 140, 83, 50, 71, 20, 62, 143, 35, 200, 199, 200, 22, 12, 166, 192, 238, 140, 83, 50, 71, 20, 62, 143, 35, 200, 199, 200, 22, 12, 166, 192, 238, 140, 83, 50, 71, 20, 62, 142, 35, 214, 79, 45, 22, 12, 70, 255, 50, 140, 111, 50, 21, 172, 160, 176, 35, 200, 183, 139, 22, 12, 220, 132, 172, 237, 62, 80, 50, 52, 114, 238, 65, 200, 199, 200, 22, 12, 166, 192, 238, 140, 83, 50, 71, 20, 62, 143, 35, 200, 199, 200, 22, 12, 166, 192, 172, 237, 62, 80, 50, 52, 110, 195, 98, 232, 138, 169, 98, 120, 195, 192, 238, 140, 83, 50, 71, 20, 62, 143, 35, 200, 199, 200, 22, 12, 166, 192, 238, 140, 83, 50, 71, 20, 62, 143, 35, 200, 199, 200, 22, 12, 166, 192, 238, 140, 83, 50, 71, 20, 62, 143, 35, 200, 199, 200, 22, 12, 166, 192, 238, 140, 83, 50, 71, 20, 62, 205, 111, 249, 245, 251, 34, 57, 144, 247, 214, 140, 83, 50, 71, 20, 62, 143, 35, 200, 199, 200, 22, 12, 166, 192, 238, 140, 83, 50, 71, 20, 62, 143, 150, 48, 167, 200, 22, 12, 166, 192, 238, 140, 83, 50, 71, 20, 62, 143, 35, 200, 199, 200, 22, 12, 166, 192, 238, 140, 83, 50, 71, 20, 62, 143, 35, 200, 199, 200, 22, 12, 166, 192, 238, 140, 83, 50, 71, 20, 62, 143, 35, 200, 199, 200, 22, 12, 166, 192, 238, 140, 83, 50, 71, 20, 62, 143, 35, 200, 199, 200, 22, 12, 166, 192, 238, 140, 83, 50, 71, 20, 62, 143, 35, 200, 199, 200, 22, 12, 166, 192, 238, 140, 83, 50, 71, 20, 62, 143, 35, 200, 199, 200, 22, 12, 166, 192, 238, 140, 83, 50, 71, 20, 62, 143, 35, 200, 199, 200, 22, 12, 166, 192, 238, 140, 83, 50, 71, 20, 62, 143, 35, 200, 199, 200, 22, 12, 166, 192, 238, 140, 83, 50, 71, 20, 62, 143, 35, 200, 199, 200, 22, 12, 166, 192, 238, 140, 83, 50, 71, 20, 62, 143, 35, 200, 199, 200, 22, 12, 166, 192, 238, 140, 83, 50, 71, 20, 62, 143, 35, 200, 199, 200, 22, 12, 166, 192, 238, 140, 83, 50, 71, 20, 62, 143, 35, 200, 199, 200, 22, 12, 166, 192, 238, 140, 83, 50, 71, 20, 62, 143, 35, 200, 199, 200, 22, 12, 166, 192, 238, 140, 83, 50, 71, 20, 62, 17, 92, 55, 191, 200, 22, 12, 166, 192, 238, 140, 83, 50, 71, 20, 62, 143, 35, 200, 199, 200, 22, 12, 166, 192, 238, 140, 83, 50, 71, 20, 62, 143, 35, 200, 199, 200, 22, 12, 166, 192, 238, 140, 83, 50, 71, 20, 62, 143, 35, 200, 199, 200, 22, 12, 166, 192, 238, 140, 83, 50, 71, 20, 62, 143, 35, 200, 199, 200, 22, 12, 166, 192, 238, 140, 83, 50, 71, 20, 62, 143, 35, 200, 199, 200, 22, 12, 166, 192, 238, 140, 83, 50, 71, 20, 62, 143, 35, 200, 199, 200, 22, 12, 166, 192, 238, 140, 83, 50, 71, 20, 62, 143, 35, 200, 199, 200, 22, 12, 166, 192, 238, 140, 83, 50, 71, 20, 62, 143, 35, 200, 199, 200, 22, 12, 166, 192, 238, 140, 83, 50, 71, 20, 62, 143, 35, 200, 199, 200, 22, 12, 166, 192, 238, 140, 83, 50, 71, 20, 62, 143, 35, 200, 199, 200, 22, 12, 166, 192, 238, 140, 83, 50, 71, 20, 62, 143, 35, 200, 199, 200, 22, 12, 166, 192, 238, 140, 83, 50, 71, 20, 62, 143, 35, 200, 199, 200, 22, 12, 166, 192, 238, 140, 83, 50, 71, 20, 62, 143, 35, 200, 199, 200, 22, 12, 166, 192, 238, 140, 83, 50, 71, 20, 62, 143, 35, 200, 199, 200, 22, 12, 166, 192, 238, 140, 83, 50, 71, 20, 62, 143, 35, 200, 199, 200, 22, 12, 166, 192, 238, 140, 83, 50, 71, 20, 62, 143, 35, 200, 199, 200, 22, 12, 166, 192, 238, 140, 83, 50, 71, 20, 62, 143, 35, 200, 199, 200, 22, 12, 166, 192, 238, 140, 83, 50, 71, 20, 62, 143, 35, 200, 199, 200, 22, 12, 166, 192, 238, 140, 83, 50, 71, 20, 62, 143, 35, 200, 199, 200, 22, 12, 166, 192, 238, 140, 83, 50, 71, 20, 62, 143, 35, 200, 199, 200, 22, 12, 166, 192, 238, 140, 83, 50, 71, 20, 62, 143, 35, 200, 199, 200, 22, 12, 166, 192, 238, 140, 83, 50, 71, 20, 62, 143, 35, 200, 199, 200, 22, 12, 166, 192, 238, 140, 83, 50, 71, 20, 62, 143, 35, 200, 199, 200, 22, 12, 166, 192, 238, 140, 83, 50, 71, 20, 62, 143, 35, 200, 199, 200, 22, 12, 166, 192, 238, 140, 83, 50, 71, 20, 62, 143, 35, 200, 199, 200, 22, 12, 166, 192, 238, 140, 83, 50, 71, 20, 62, 143, 35, 200, 199, 200, 22, 12, 166, 192, 238, 140, 83, 50, 71, 20, 62, 143, 35, 200, 199, 200, 22, 12, 166, 192, 238, 140, 83, 50, 71, 20, 62, 143, 35, 200, 199, 200, 22, 12, 166, 192, 238, 140, 83, 50, 71, 20, 62, 143, 35, 200, 199, 200, 22, 12, 166, 192, 238, 140, 83, 50, 71, 20, 62, 143, 35, 200, 199, 200, 22, 12, 166, 192, 238, 140, 83, 50, 71, 20, 62, 143, 35, 200, 199, 200, 22, 12, 166, 192, 238, 140, 83, 50, 71, 20, 62] = .ok false := by
    unfold verify_checksum
    rw [if_neg (by decide : ¬(([170, 85, 204, 51, 201, 22, 12, 166, 192, 238, 140, 83, 50, 71, 20, 62, 143, 35, 200, 199, 200, 22, 12, 166, 192, 238, 140, 83, 50, 71, 20, 62, 143, 35, 200, 199, 200, 22, 12, 166, 192, 238, 140, 83, 50, 71, 20, 62, 143, 35, 200, 199, 200, 22, 12, 166, 192, 238, 140, 83, 50, 71, 20, 62, 143, 35, 200, 199, 200, 22, 12, 166, 192, 238, 140, 83, 50, 71, 20, 62, 143, 35, 200, 199, 200, 22, 12, 166, 192, 238, 140, 83, 50, 71, 20, 62, 143, 35, 200, 199, 200, 22, 12, 166, 192, 238, 140, 83, 50, 71, 20, 62, 143, 35, 200, 199, 200, 22, 12, 166, 192, 238, 140, 83, 50, 71, 20, 62, 142, 35, 214, 79, 45, 22, 12, 70, 255, 50, 140, 111, 50, 21, 172, 160, 176, 35, 200, 183, 139, 22, 12, 220, 132, 172, 237, 62, 80, 50, 52, 114, 238, 65, 200, 199, 200, 22, 12, 166, 192, 238, 140, 83, 50, 71, 20, 62, 143, 35, 200, 199, 200, 22, 12, 166, 192, 172, 237, 62, 80, 50, 52, 110, 195, 98, 232, 138, 169, 98, 120, 195, 192, 238, 140, 83, 50, 71, 20, 62, 143, 35, 200, 199, 200, 22, 12, 166, 192, 238, 140, 83, 50, 71, 20, 62, 143, 35, 200, 199, 200, 22, 12, 166, 192, 238, 140, 83, 50, 71, 20, 62, 143, 35, 200, 199, 200, 22, 12, 166, 192, 238, 140, 83, 50, 71, 20, 62, 205, 111, 249, 245, 251, 34, 57, 144, 247, 214, 140, 83, 50, 71, 20, 62, 143, 35, 200, 199, 200, 22, 12, 166, 192, 238, 140, 83, 50, 71, 20, 62, 143, 150, 48, 167, 200, 22, 12, 166, 192, 238, 140, 83, 50, 71, 20, 62, 143, 35, 200, 199, 200, 22, 12, 166, 192, 238, 140, 83, 50, 71, 20, 62, 143, 35, 200, 199, 200, 22, 12, 166, 192, 238, 140, 83, 50, 71, 20, 62, 143, 35, 200, 199, 200, 22, 12, 166, 192, 238, 140, 83, 50, 71, 20, 62, 143, 35, 200, 199, 200, 22, 12, 166, 192, 238, 140, 83, 50, 71, 20, 62, 143, 35, 200, 199, 200, 22, 12, 166, 192, 238, 140, 83, 50, 71, 20, 62, 143, 35, 200, 199, 200, 22, 12, 166, 192, 238, 140, 83, 50, 71, 20, 62, 143, 35, 200, 199, 200, 22, 12, 166, 192, 238, 140, 83, 50, 71, 20, 62, 143, 35, 200, 199, 200, 22, 12, 166, 192, 238, 140, 83, 50, 71, 20, 62, 143, 35, 200, 199, 200, 22, 12, 166, 192, 238, 140, 83, 50, 71, 20, 62, 143, 35, 200, 199, 200, 22, 12, 166, 192, 238, 140, 83, 50, 71, 20, 62, 143, 35, 200, 199, 200, 22, 12, 166, 192, 238, 140, 83, 50, 71, 20, 62, 143, 35, 200, 199, 200, 22, 12, 166, 192, 238, 140, 83, 50, 71, 20, 62, 143, 35, 200, 199, 200, 22, 12, 166, 192, 238, 140, 83, 50, 71, 20, 62, 17, 92, 55, 191, 200, 22, 12, 166, 192, 238, 140, 83, 50, 71, 20, 62, 143, 35, 200, 199, 200, 22, 12, 166, 192, 238, 140, 83, 50, 71, 20, 62, 143, 35, 200, 199, 200, 22, 12, 166, 192, 238, 140, 83, 50, 71, 20, 62, 143, 35, 200, 199, 200, 22, 12, 166, 192, 238, 140, 83, 50, 71, 20, 62, 143, 35, 200, 199, 200, 22, 12, 166, 192, 238, 140, 83, 50, 71, 20, 62, 143, 35, 200, 199, 200, 22, 12, 166, 192, 238, 140, 83, 50, 71, 20, 62, 143, 35, 200, 199, 200, 22, 12, 166, 192, 238, 140, 83, 50, 71, 20, 62, 143, 35, 200, 199, 200, 22, 12, 166, 192, 238, 140, 83, 50, 71, 20, 62, 143, 35, 200, 199, 200, 22, 12, 166, 192, 238, 140, 83, 50, 71, 20, 62, 143, 35, 200, 199, 200, 22, 12, 166, 192, 238, 140, 83, 50, 71, 20, 62, 143, 35, 200, 199, 200, 22, 12, 166, 192, 238, 140, 83, 50, 71, 20, 62, 143, 35, 200, 199, 200, 22, 12, 166, 192, 238, 140, 83, 50, 71, 20, 62, 143, 35, 200, 199, 200, 22, 12, 166, 192, 238, 140, 83, 50, 71, 20, 62, 143, 35, 200, 199, 200, 22, 12, 166, 192, 238, 140, 83, 50, 71, 20, 62, 143, 35, 200, 199, 200, 22, 12, 166, 192, 238, 140, 83, 50, 71, 20, 62, 143, 35, 200, 199, 200, 22, 12, 166, 192, 238, 140, 83, 50, 71, 20, 62, 143, 35, 200, 199, 200, 22, 12, 166, 192, 238, 140, 83, 50, 71, 20, 62, 143, 35, 200, 199, 200, 22, 12, 166, 192, 238, 140, 83, 50, 71, 20, 62, 143, 35, 200, 199, 200, 22, 12, 166, 192, 238, 140, 83, 50, 71, 20, 62, 143, 35, 200, 199, 200, 22, 12, 166, 192, 238, 140, 83, 50, 71, 20, 62, 143, 35, 200, 199, 200, 22, 12, 166, 192, 238, 140, 83, 50, 71, 20, 62, 143, 35, 200, 199, 200, 22, 12, 166, 192, 238, 140, 83, 50, 71, 20, 62, 143, 35, 200, 199, 200, 22, 12, 166, 192, 238, 140, 83, 50, 71, 20, 62, 143, 35, 200, 199, 200, 22, 12, 166, 192, 238, 140, 83, 50, 71, 20, 62, 143, 35, 200, 199, 200, 22, 12, 166, 192, 238, 140, 83, 50, 71, 20, 62, 143, 35, 200, 199, 200, 22, 12, 166, 192, 238, 140, 83, 50, 71, 20, 62, 143, 35, 200, 199, 200, 22, 12, 166, 192, 238, 140, 83, 50, 71, 20, 62, 143, 35, 200, 199, 200, 22, 12, 166, 192, 238, 140, 83, 50, 71, 20, 62, 143, 35, 200, 199, 200, 22, 12, 166, 192, 238, 140, 83, 50, 71, 20, 62, 143, 35, 200, 199, 200, 22, 12, 166, 192, 238, 140, 83, 50, 71, 20, 62, 143, 35, 200, 199, 200, 22, 12, 166, 192, 238, 140, 83, 50, 71, 20, 62, 143, 35, 200, 199, 200, 22, 12, 166, 192, 238, 140, 83, 50, 71, 20, 62] : List Nat).length < 516)), hcfb]
    decide
  have hdecfb : decode_tag_data [201, 53, 73, 193, 73, 69, 65, 188, 51, 100, 81, 89, 6, 136, 5, 40] [170, 85, 204, 51, 0, 35, 69, 103, 137, 171, 205, 239, 1, 35, 69, 103, 137, 171, 205, 239, 1, 35, 69, 103, 137, 171, 205, 239, 1, 35, 69, 103, 137, 171, 205, 239, 1, 35, 69, 103, 137, 171, 205, 239, 1, 35, 69, 103, 137, 171, 205, 239, 1, 35, 69, 103, 137, 171, 205, 239, 1, 35, 69, 103, 137, 171, 205, 239, 1, 35, 69, 103, 137, 171, 205, 239, 1, 35, 69, 103, 137, 171, 205, 239, 1, 35, 69, 103, 137, 171, 205, 239, 1, 35, 69, 103, 137, 171, 205, 239, 1, 35, 69, 103, 137, 171, 205, 239, 1, 35, 69, 103, 137, 171, 205, 239, 1, 35, 69, 103, 137, 171, 205, 239, 1, 35, 69, 103, 136, 171, 211, 103, 228, 35, 69, 135, 182, 119, 205, 211, 1, 113, 253, 249, 182, 171, 205, 159, 66, 35, 69, 29, 205, 233, 172, 130, 99, 86, 101, 43, 232, 201, 205, 239, 1, 35, 69, 103, 137, 171, 205, 239, 1, 35, 69, 103, 137, 171, 205, 239, 1, 35, 69, 103, 137, 233, 172, 130, 99, 86, 101, 55, 197, 234, 237, 162, 96, 87, 49, 2, 137, 171, 205, 239, 1, 35, 69, 103, 137, 171, 205, 239, 1, 35, 69, 103, 137, 171, 205, 239, 1, 35, 69, 103, 137, 171, 205, 239, 1, 35, 69, 103, 137, 171, 205, 239, 1, 35, 69, 103, 137, 171, 205, 239, 1, 35, 69, 103, 137, 171, 205, 239, 1, 35, 69, 103, 203, 231, 252, 221, 50, 23, 112, 81, 190, 147, 205, 239, 1, 35, 69, 103, 137, 171, 205, 239, 1, 35, 69, 103, 137, 171, 205, 239, 1, 35, 69, 103, 137, 30, 53, 143, 1, 35, 69, 103, 137, 171, 205, 239, 1, 35, 69, 103, 137, 171, 205, 239, 1, 35, 69, 103, 137, 171, 205, 239, 1, 35, 69, 103, 137, 171, 205, 239, 1, 35, 69, 103, 137, 171, 205, 239, 1, 35, 69, 103, 137, 171, 205, 239, 1, 35, 69, 103, 137, 171, 205, 239, 1, 35, 69, 103, 137, 171, 205, 239, 1, 35, 69, 103, 137, 171, 205, 239, 1, 35, 69, 103, 137, 171, 205, 239, 1, 35, 69, 103, 137, 171, 205, 239, 1, 35, 69, 103, 137, 171, 205, 239, 1, 35, 69, 103, 137, 171, 205, 239, 1, 35, 69, 103, 137, 171, 205, 239, 1, 35, 69, 103, 137, 171, 205, 239, 1, 35, 69, 103, 137, 171, 205, 239, 1, 35, 69, 103, 137, 171, 205, 239, 1, 35, 69, 103, 137, 171, 205, 239, 1, 35, 69, 103, 137, 171, 205, 239, 1, 35, 69, 103, 137, 171, 205, 239, 1, 35, 69, 103, 137, 171, 205, 239, 1, 35, 69, 103, 137, 171, 205, 239, 1, 35, 69, 103, 137, 171, 205, 239, 1, 35, 69, 103, 137, 171, 205, 239, 1, 35, 69, 103, 137, 171, 205, 239, 1, 35, 69, 103, 137, 171, 205, 239, 1, 35, 69, 103, 137, 171, 205, 239, 1, 35, 69, 103, 23, 212, 50, 151, 1, 35, 69, 103, 137, 171, 205, 239, 1, 35, 69, 103, 137, 171, 205, 239, 1, 35, 69, 103, 137, 171, 205, 239, 1, 35, 69, 103, 137, 171, 205, 239, 1, 35, 69, 103, 137, 171, 205, 239, 1, 35, 69, 103, 137, 171, 205, 239, 1, 35, 69, 103, 137, 171, 205, 239, 1, 35, 69, 103, 137, 171, 205, 239, 1, 35, 69, 103, 137, 171, 205, 239, 1, 35, 69, 103, 137, 171, 205, 239, 1, 35, 69, 103, 137, 171, 205, 239, 1, 35, 69, 103, 137, 171, 205, 239, 1, 35, 69, 103, 137, 171, 205, 239, 1, 35, 69, 103, 137, 171, 205, 239, 1, 35, 69, 103, 137, 171, 205, 239, 1, 35, 69, 103, 137, 171, 205, 239, 1, 35, 69, 103, 137, 171, 205, 239, 1, 35, 69, 103, 137, 171, 205, 239, 1, 35, 69, 103, 137, 171, 205, 239, 1, 35, 69, 103, 137, 171, 205, 239, 1, 35, 69, 103, 137, 171, 205, 239, 1, 35, 69, 103, 137, 171, 205, 239, 1, 35, 69, 103, 137, 171, 205, 239, 1, 35, 69, 103, 137, 171, 205, 239, 1, 35, 69, 103, 137, 171, 205, 239, 1, 35, 69, 103, 137, 171, 205, 239, 1, 35, 69, 103, 137, 171, 205, 239, 1, 35, 69, 103, 137, 171, 205, 239, 1, 35, 69, 103, 137, 171, 205, 239, 1, 35, 69, 103, 137, 171, 205, 239, 1, 35, 69, 103, 137, 171, 205, 239, 1, 35, 69, 103, 137, 171, 205, 239, 1, 35, 69, 103, 137, 171, 205, 239, 1, 35, 69, 103, 137, 171, 205, 239, 1, 35, 69, 103, 137, 171, 205, 239, 1, 35, 69, 103, 137, 171, 205, 239, 1, 35, 69, 103, 137, 171, 205, 239, 1, 35, 69, 103, 137, 171, 205, 239, 1, 35, 69, 103, 137, 171, 205, 239, 1, 35, 69, 103, 137, 171, 205, 239, 1, 35, 69, 103, 137, 171, 205, 239, 1, 35, 69, 103, 137, 171, 205, 239, 1, 35, 69, 103, 137, 171, 205, 239, 1, 35, 69, 103, 137, 171, 205, 239, 1, 35, 69, 103, 137, 171, 205, 239, 1, 35, 69, 103, 137, 171, 205, 239, 1, 35, 69, 103, 137, 171, 205, 239, 1, 35, 69, 103, 137, 171, 205, 239, 1, 35, 69, 103, 137, 171, 205, 239, 1, 35, 69, 103, 137, 171, 205, 239, 1, 35, 69, 103, 137, 171, 205, 239, 1, 35, 69, 103, 137, 171, 205, 239, 1, 35, 69, 103, 137, 171, 205, 239, 1, 35, 69, 103, 137, 171, 205, 239, 1, 35, 69, 103, 137, 171, 205, 239, 1, 35, 69, 103, 137, 171, 205, 239, 1, 35, 69, 103, 137, 171, 205, 239, 1, 35, 69, 103, 137, 171, 205, 239, 1, 35, 69, 103, 137, 171, 205, 239, 1, 35, 69, 103, 137, 171, 205, 239, 1, 35, 69, 103, 137, 171, 205, 239, 1, 35, 69, 103, 137, 171, 205, 239, 1, 35, 69, 103, 137, 171, 205, 239, 1, 35, 69, 103] = .ok none := by
    unfold decode_tag_data
    rw [if_neg (by decide : ¬(([170, 85, 204, 51, 0, 35, 69, 103, 137, 171, 205, 239, 1, 35, 69, 103, 137, 171, 205, 239, 1, 35, 69, 103, 137, 171, 205, 239, 1, 35, 69, 103, 137, 171, 205, 239, 1, 35, 69, 103, 137, 171, 205, 239, 1, 35, 69, 103, 137, 171, 205, 239, 1, 35, 69, 103, 137, 171, 205, 239, 1, 35, 69, 103, 137, 171, 205, 239, 1, 35, 69, 103, 137, 171, 205, 239, 1, 35, 69, 103, 137, 171, 205, 239, 1, 35, 69, 103, 137, 171, 205, 239, 1, 35, 69, 103, 137, 171, 205, 239, 1, 35, 69, 103, 137, 171, 205, 239, 1, 35, 69, 103, 137, 171, 205, 239, 1, 35, 69, 103, 137, 171, 205, 239, 1, 35, 69, 103, 136, 171, 211, 103, 228, 35, 69, 135, 182, 119, 205, 211, 1, 113, 253, 249, 182, 171, 205, 159, 66, 35, 69, 29, 205, 233, 172, 130, 99, 86, 101, 43, 232, 201, 205, 239, 1, 35, 69, 103, 137, 171, 205, 239, 1, 35, 69, 103, 137, 171, 205, 239, 1, 35, 69, 103, 137, 233, 172, 130, 99, 86, 101, 55, 197, 234, 237, 162, 96, 87, 49, 2, 137, 171, 205, 239, 1, 35, 69, 103, 137, 171, 205, 239, 1, 35, 69, 103, 137, 171, 205, 239, 1, 35, 69, 103, 137, 171, 205, 239, 1, 35, 69, 103, 137, 171, 205, 239, 1, 35, 69, 103, 137, 171, 205, 239, 1, 35, 69, 103, 137, 171, 205, 239, 1, 35, 69, 103, 203, 231, 252, 221, 50, 23, 112, 81, 190, 147, 205, 239, 1, 35, 69, 103, 137, 171, 205, 239, 1, 35, 69, 103, 137, 171, 205, 239, 1, 35, 69, 103, 137, 30, 53, 143, 1, 35, 69, 103, 137, 171, 205, 239, 1, 35, 69, 103, 137, 171, 205, 239, 1, 35, 69, 103, 137, 171, 205, 239, 1, 35, 69, 103, 137, 171, 205, 239, 1, 35, 69, 103, 137, 171, 205, 239, 1, 35, 69, 103, 137, 171, 205, 239, 1, 35, 69, 103, 137, 171, 205, 239, 1, 35, 69, 103, 137, 171, 205, 239, 1, 35, 69, 103, 137, 171, 205, 239, 1, 35, 69, 103, 137, 171, 205, 239, 1, 35, 69, 103, 137, 171, 205, 239, 1, 35, 69, 103, 137, 171, 205, 239, 1, 35, 69, 103, 137, 171, 205, 239, 1, 35, 69, 103, 137, 171, 205, 239, 1, 35, 69, 103, 137, 171, 205, 239, 1, 35, 69, 103, 137, 171, 205, 239, 1, 35, 69, 103, 137, 171, 205, 239, 1, 35, 69, 103, 137, 171, 205, 239, 1, 35, 69, 103, 137, 171, 205, 239, 1, 35, 69, 103, 137, 171, 205, 239, 1, 35, 69, 103, 137, 171, 205, 239, 1, 35, 69, 103, 137, 171, 205, 239, 1, 35, 69, 103, 137, 171, 205, 239, 1, 35, 69, 103, 137, 171, 205, 239, 1, 35, 69, 103, 137, 171, 205, 239, 1, 35, 69, 103, 137, 171, 205, 239, 1, 35, 69, 103, 137, 171, 205, 239, 1, 35, 69, 103, 23, 212, 50, 151, 1, 35, 69, 103, 137, 171, 205, 239, 1, 35, 69, 103, 137, 171, 205, 239, 1, 35, 69, 103, 137, 171, 205, 239, 1, 35, 69, 103, 137, 171, 205, 239, 1, 35, 69, 103, 137, 171, 205, 239, 1, 35, 69, 103, 137, 171, 205, 239, 1, 35, 69, 103, 137, 171, 205, 239, 1, 35, 69, 103, 137, 171, 205, 239, 1, 35, 69, 103, 137, 171, 205, 239, 1, 35, 69, 103, 137, 171, 205, 239, 1, 35, 69, 103, 137, 171, 205, 239, 1, 35, 69, 103, 137, 171, 205, 239, 1, 35, 69, 103, 137, 171, 205, 239, 1, 35, 69, 103, 137, 171, 205, 239, 1, 35, 69, 103, 137, 171, 205, 239, 1, 35, 69, 103, 137, 171, 205, 239, 1, 35, 69, 103, 137, 171, 205, 239, 1, 35, 69, 103, 137, 171, 205, 239, 1, 35, 69, 103, 137, 171, 205, 239, 1, 35, 69, 103, 137, 171, 205, 239, 1, 35, 69, 103, 137, 171, 205, 239, 1, 35, 69, 103, 137, 171, 205, 239, 1, 35, 69, 103, 137, 171, 205, 239, 1, 35, 69, 103, 137, 171, 205, 239, 1, 35, 69, 103, 137, 171, 205, 239, 1, 35, 69, 103, 137, 171, 205, 239, 1, 35, 69, 103, 137, 171, 205, 239, 1, 35, 69, 103, 137, 171, 205, 239, 1, 35, 69, 103, 137, 171, 205, 239, 1, 35, 69, 103, 137, 171, 205, 239, 1, 35, 69, 103, 137, 171, 205, 239, 1, 35, 69, 103, 137, 171, 205, 239, 1, 35, 69, 103, 137, 171, 205, 239, 1, 35, 69, 103, 137, 171, 205, 239, 1, 35, 69, 103, 137, 171, 205, 239, 1, 35, 69, 103, 137, 171, 205, 239, 1, 35, 69, 103, 137, 171, 205, 239, 1, 35, 69, 103, 137, 171, 205, 239, 1, 35, 69, 103, 137, 171, 205, 239, 1, 35, 69, 103, 137, 171, 205, 239, 1, 35, 69, 103, 137, 171, 205, 239, 1, 35, 69, 103, 137, 171, 205, 239, 1, 35, 69, 103, 137, 171, 205, 239, 1, 35, 69, 103, 137, 171, 205, 239, 1, 35, 69, 103, 137, 171, 205, 239, 1, 35, 69, 103, 137, 171, 205, 239, 1, 35, 69, 103, 137, 171, 205, 239, 1, 35, 69, 103, 137, 171, 205, 239, 1, 35, 69, 103, 137, 171, 205, 239, 1, 35, 69, 103, 137, 171, 205, 239, 1, 35, 69, 103, 137, 171, 205, 239, 1, 35, 69, 103, 137, 171, 205, 239, 1, 35, 69, 103, 137, 171, 205, 239, 1, 35, 69, 103, 137, 171, 205, 239, 1, 35, 69, 103, 137, 171, 205, 239, 1, 35, 69, 103, 137, 171, 205, 239, 1, 35, 69, 103, 137, 171, 205, 239, 1, 35, 69, 103, 137, 171, 205, 239, 1, 35, 69, 103, 137, 171, 205, 239, 1, 35, 69, 103, 137, 171, 205, 239, 1, 35, 69, 103, 137, 171, 205, 239, 1, 35, 69, 103, 137, 171, 205, 239, 1, 35, 69, 103, 137, 171, 205, 239, 1, 35, 69, 103] : List Nat).length < 512)),
      if_pos (by decide : verify_header [170, 85, 204, 51, 0, 35, 69, 103, 137, 171, 205, 239, 1, 35, 69, 103, 137, 171, 205, 239, 1, 35, 69, 103, 137, 171, 205, 239, 1, 35, 69, 103, 137, 171, 205, 239, 1, 35, 69, 103, 137, 171, 205, 239, 1, 35, 69, 103, 137, 171, 205, 239, 1, 35, 69, 103, 137, 171, 205, 239, 1, 35, 69, 103, 137, 171, 205, 239, 1, 35, 69, 103, 137, 171, 205, 239, 1, 35, 69, 103, 137, 171, 205, 239, 1, 35, 69, 103, 137, 171, 205, 239, 1, 35, 69, 103, 137, 171, 205, 239, 1, 35, 69, 103, 137, 171, 205, 239, 1, 35, 69, 103, 137, 171, 205, 239, 1, 35, 69, 103, 137, 171, 205, 239, 1, 35, 69, 103, 136, 171, 211, 103, 228, 35, 69, 135, 182, 119, 205, 211, 1, 113, 253, 249, 182, 171, 205, 159, 66, 35, 69, 29, 205, 233, 172, 130, 99, 86, 101, 43, 232, 201, 205, 239, 1, 35, 69, 103, 137, 171, 205, 239, 1, 35, 69, 103, 137, 171, 205, 239, 1, 35, 69, 103, 137, 233, 172, 130, 99, 86, 101, 55, 197, 234, 237, 162, 96, 87, 49, 2, 137, 171, 205, 239, 1, 35, 69, 103, 137, 171, 205, 239, 1, 35, 69, 103, 137, 171, 205, 239, 1, 35, 69, 103, 137, 171, 205, 239, 1, 35, 69, 103, 137, 171, 205, 239, 1, 35, 69, 103, 137, 171, 205, 239, 1, 35, 69, 103, 137, 171, 205, 239, 1, 35, 69, 103, 203, 231, 252, 221, 50, 23, 112, 81, 190, 147, 205, 239, 1, 35, 69, 103, 137, 171, 205, 239, 1, 35, 69, 103, 137, 171, 205, 239, 1, 35, 69, 103, 137, 30, 53, 143, 1, 35, 69, 103, 137, 171, 205, 239, 1, 35, 69, 103, 137, 171, 205, 239, 1, 35, 69, 103, 137, 171, 205, 239, 1, 35, 69, 103, 137, 171, 205, 239, 1, 35, 69, 103, 137, 171, 205, 239, 1, 35, 69, 103, 137, 171, 205, 239, 1, 35, 69, 103, 137, 171, 205, 239, 1, 35, 69, 103, 137, 171, 205, 239, 1, 35, 69, 103, 137, 171, 205, 239, 1, 35, 69, 103, 137, 171, 205, 239, 1, 35, 69, 103, 137, 171, 205, 239, 1, 35, 69, 103, 137, 171, 205, 239, 1, 35, 69, 103, 137, 171, 205, 239, 1, 35, 69, 103, 137, 171, 205, 239, 1, 35, 69, 103, 137, 171, 205, 239, 1, 35, 69, 103, 137, 171, 205, 239, 1, 35, 69, 103, 137, 171, 205, 239, 1, 35, 69, 103, 137, 171, 205, 239, 1, 35, 69, 103, 137, 171, 205, 239, 1, 35, 69, 103, 137, 171, 205, 239, 1, 35, 69, 103, 137, 171, 205, 239, 1, 35, 69, 103, 137, 171, 205, 239, 1, 35, 69, 103, 137, 171, 205, 239, 1, 35, 69, 103, 137, 171, 205, 239, 1, 35, 69, 103, 137, 171, 205, 239, 1, 35, 69, 103, 137, 171, 205, 239, 1, 35, 69, 103, 137, 171, 205, 239, 1, 35, 69, 103, 23, 212, 50, 151, 1, 35, 69, 103, 137, 171, 205, 239, 1, 35, 69, 103, 137, 171, 205, 239, 1, 35, 69, 103, 137, 171, 205, 239, 1, 35, 69, 103, 137, 171, 205, 239, 1, 35, 69, 103, 137, 171, 205, 239, 1, 35, 69, 103, 137, 171, 205, 239, 1, 35, 69, 103, 137, 171, 205, 239, 1, 35, 69, 103, 137, 171, 205, 239, 1, 35, 69, 103, 137, 171, 205, 239, 1, 35, 69, 103, 137, 171, 205, 239, 1, 35, 69, 103, 137, 171, 205, 239, 1, 35, 69, 103, 137, 171, 205, 239, 1, 35, 69, 103, 137, 171, 205, 239, 1, 35, 69, 103, 137, 171, 205, 239, 1, 35, 69, 103, 137, 171, 205, 239, 1, 35, 69, 103, 137, 171, 205, 239, 1, 35, 69, 103, 137, 171, 205, 239, 1, 35, 69, 103, 137, 171, 205, 239, 1, 35, 69, 103, 137, 171, 205, 239, 1, 35, 69, 103, 137, 171, 205, 239, 1, 35, 69, 103, 137, 171, 205, 239, 1, 35, 69, 103, 137, 171, 205, 239, 1, 35, 69, 103, 137, 171, 205, 239, 1, 35, 69, 103, 137, 171, 205, 239, 1, 35, 69, 103, 137, 171, 205, 239, 1, 35, 69, 103, 137, 171, 205, 239, 1, 35, 69, 103, 137, 171, 205, 239, 1, 35, 69, 103, 137, 171, 205, 239, 1, 35, 69, 103, 137, 171, 205, 239, 1, 35, 69, 103, 137, 171, 205, 239, 1, 35, 69, 103, 137, 171, 205, 239, 1, 35, 69, 103, 137, 171, 205, 239, 1, 35, 69, 103, 137, 171, 205, 239, 1, 35, 69, 103, 137, 171, 205, 239, 1, 35, 69, 103, 137, 171, 205, 239, 1, 35, 69, 103, 137, 171, 205, 239, 1, 35, 69, 103, 137, 171, 205, 239, 1, 35, 69, 103, 137, 171, 205, 239, 1, 35, 69, 103, 137, 171, 205, 239, 1, 35, 69, 103, 137, 171, 205, 239, 1, 35, 69, 103, 137, 171, 205, 239, 1, 35, 69, 103, 137, 171, 205, 239, 1, 35, 69, 103, 137, 171, 205, 239, 1, 35, 69, 103, 137, 171, 205, 239, 1, 35, 69, 103, 137, 171, 205, 239, 1, 35, 69, 103, 137, 171, 205, 239, 1, 35, 69, 103, 137, 171, 205, 239, 1, 35, 69, 103, 137, 171, 205, 239, 1, 35, 69, 103, 137, 171, 205, 239, 1, 35, 69, 103, 137, 171, 205, 239, 1, 35, 69, 103, 137, 171, 205, 239, 1, 35, 69, 103, 137, 171, 205, 239, 1, 35, 69, 103, 137, 171, 205, 239, 1, 35, 69, 103, 137, 171, 205, 239, 1, 35, 69, 103, 137, 171, 205, 239, 1, 35, 69, 103, 137, 171, 205, 239, 1, 35, 69, 103, 137, 171, 205, 239, 1, 35, 69, 103, 137, 171, 205, 239, 1, 35, 69, 103, 137, 171, 205, 239, 1, 35, 69, 103, 137, 171, 205, 239, 1, 35, 69, 103, 137, 171, 205, 239, 1, 35, 69, 103, 137, 171, 205, 239, 1, 35, 69, 103, 137, 171, 205, 239, 1, 35, 69, 103] = true)]
    simp only [hdfb, hvfb]
  have hdhk : xor_cipher [73, 93, 98, 151, 125, 107] [170, 85, 204, 51, 0, 35, 69, 103, 137, 171, 205, 239, 1, 35, 69, 103, 137, 171, 205, 239, 1, 35, 69, 103, 137, 171, 205, 239, 1, 35, 69, 103, 137, 171, 205, 239, 1, 35, 69, 103, 137, 171, 205, 239, 1, 35, 69, 103, 137, 171, 205, 239, 1, 35, 69, 103, 137, 171, 205, 239, 1, 35, 69, 103, 137, 171, 205, 239, 1, 35, 69, 103, 137, 171, 205, 239, 1, 35, 69, 103, 137, 171, 205, 239, 1, 35, 69, 103, 137, 171, 205, 239, 1, 35, 69, 103, 137, 171, 205, 239, 1, 35, 69, 103, 137, 171, 205, 239, 1, 35, 69, 103, 137, 171, 205, 239, 1, 35, 69, 103, 137, 171, 205, 239, 1, 35, 69, 103, 136, 171, 211, 103, 228, 35, 69, 135, 182, 119, 205, 211, 1, 113, 253, 249, 182, 171, 205, 159, 66, 35, 69, 29, 205, 233, 172, 130, 99, 86, 101, 43, 232, 201, 205, 239, 1, 35, 69, 103, 137, 171, 205, 239, 1, 35, 69, 103, 137, 171, 205, 239, 1, 35, 69, 103, 137, 233, 172, 130, 99, 86, 101, 55, 197, 234, 237, 162, 96, 87, 49, 2, 137, 171, 205, 239, 1, 35, 69, 103, 137, 171, 205, 239, 1, 35, 69, 103, 137, 171, 205, 239, 1, 35, 69, 103, 137, 171, 205, 239, 1, 35, 69, 103, 137, 171, 205, 239, 1, 35, 69, 103, 137, 171, 205, 239, 1, 35, 69, 103, 137, 171, 205, 239, 1, 35, 69, 103, 203, 231, 252, 221, 50, 23, 112, 81, 190, 147, 205, 239, 1, 35, 69, 103, 137, 171, 205, 239, 1, 35, 69, 103, 137, 171, 205, 239, 1, 35, 69, 103, 137, 30, 53, 143, 1, 35, 69, 103, 137, 171, 205, 239, 1, 35, 69, 103, 137, 171, 205, 239, 1, 35, 69, 103, 137, 171, 205, 239, 1, 35, 69, 103, 137, 171, 205, 239, 1, 35, 69, 103, 137, 171, 205, 239, 1, 35, 69, 103, 137, 171, 205, 239, 1, 35, 69, 103, 137, 171, 205, 239, 1, 35, 69, 103, 137, 171, 205, 239, 1, 35, 69, 103, 137, 171, 205, 239, 1, 35, 69, 103, 137, 171, 205, 239, 1, 35, 69, 103, 137, 171, 205, 239, 1, 35, 69, 103, 137, 171, 205, 239, 1, 35, 69, 103, 137, 171, 205, 239, 1, 35, 69, 103, 137, 171, 205, 239, 1, 35, 69, 103, 137, 171, 205, 239, 1, 35, 69, 103, 137, 171, 205, 239, 1, 35, 69, 103, 137, 171, 205, 239, 1, 35, 69, 103, 137, 171, 205, 239, 1, 35, 69, 103, 137, 171, 205, 239, 1, 35, 69, 103, 137, 171, 205, 239, 1, 35, 69, 103, 137, 171, 205, 239, 1, 35, 69, 103, 137, 171, 205, 239, 1, 35, 69, 103, 137, 171, 205, 239, 1, 35, 69, 103, 137, 171, 205, 239, 1, 35, 69, 103, 137, 171, 205, 239, 1, 35, 69, 103, 137, 171, 205, 239, 1, 35, 69, 103, 137, 171, 205, 239, 1, 35, 69, 103, 23, 212, 50, 151, 1, 35, 69, 103, 137, 171, 205, 239, 1, 35, 69, 103, 137, 171, 205, 239, 1, 35, 69, 103, 137, 171, 205, 239, 1, 35, 69, 103, 137, 171, 205, 239, 1, 35, 69, 103, 137, 171, 205, 239, 1, 35, 69, 103, 137, 171, 205, 239, 1, 35, 69, 103, 137, 171, 205, 239, 1, 35, 69, 103, 137, 171, 205, 239, 1, 35, 69, 103, 137, 171, 205, 239, 1, 35, 69, 103, 137, 171, 205, 239, 1, 35, 69, 103, 137, 171, 205, 239, 1, 35, 69, 103, 137, 171, 205, 239, 1, 35, 69, 103, 137, 171, 205, 239, 1, 35, 69, 103, 137, 171, 205, 239, 1, 35, 69, 103, 137, 171, 205, 239, 1, 35, 69, 103, 137, 171, 205, 239, 1, 35, 69, 103, 137, 171, 205, 239, 1, 35, 69, 103, 137, 171, 205, 239, 1, 35, 69, 103, 137, 171, 205, 239, 1, 35, 69, 103, 137, 171, 205, 239, 1, 35, 69, 103, 137, 171, 205, 239, 1, 35, 69, 103, 137, 171, 205, 239, 1, 35, 69, 103, 137, 171, 205, 239, 1, 35, 69, 103, 137, 171, 205, 239, 1, 35, 69, 103, 137, 171, 205, 239, 1, 35, 69, 103, 137, 171, 205, 239, 1, 35, 69, 103, 137, 171, 205, 239, 1, 35, 69, 103, 137, 171, 205, 239, 1, 35, 69, 103, 137, 171, 205, 239, 1, 35, 69, 103, 137, 171, 205, 239, 1, 35, 69, 103, 137, 171, 205, 239, 1, 35, 69, 103, 137, 171, 205, 239, 1, 35, 69, 103, 137, 171, 205, 239, 1, 35, 69, 103, 137, 171, 205, 239, 1, 35, 69, 103, 137, 171, 205, 239, 1, 35, 69, 103, 137, 171, 205, 239, 1, 35, 69, 103, 137, 171, 205, 239, 1, 35, 69, 103, 137, 171, 205, 239, 1, 35, 69, 103, 137, 171, 205, 239, 1, 35, 69, 103, 137, 171, 205, 239, 1, 35, 69, 103, 137, 171, 205, 239, 1, 35, 69, 103, 137, 171, 205, 239, 1, 35, 69, 103, 137, 171, 205, 239, 1, 35, 69, 103, 137, 171, 205, 239, 1, 35, 69, 103, 137, 171, 205, 239, 1, 35, 69, 103, 137, 171, 205, 239, 1, 35, 69, 103, 137, 171, 205, 239, 1, 35, 69, 103, 137, 171, 205, 239, 1, 35, 69, 103, 137, 171, 205, 239, 1, 35, 69, 103, 137, 171, 205, 239, 1, 35, 69, 103, 137, 171, 205, 239, 1, 35, 69, 103, 137, 171, 205, 239, 1, 35, 69, 103, 137, 171, 205, 239, 1, 35, 69, 103, 137, 171, 205, 239, 1, 35, 69, 103, 137, 171, 205, 239, 1, 35, 69, 103, 137, 171, 205, 239, 1, 35, 69, 103, 137, 171, 205, 239, 1, 35, 69, 103, 137, 171, 205, 239, 1, 35, 69, 103, 137, 171, 205, 239, 1, 35, 69, 103, 137, 171, 205, 239, 1, 35, 69, 103, 137, 171, 205, 239, 1, 35, 69, 103, 137, 171, 205, 239, 1, 35, 69, 103, 137, 171, 205, 239, 1, 35, 69, 103] = [170, 85, 204, 51, 73, 126, 39, 240, 244, 192, 132, 178, 99, 180, 56, 12, 192, 246, 175, 120, 124, 72, 12, 58, 235, 60, 176, 132, 72, 126, 39, 240, 244, 192, 132, 178, 99, 180, 56, 12, 192, 246, 175, 120, 124, 72, 12, 58, 235, 60, 176, 132, 72, 126, 39, 240, 244, 192, 132, 178, 99, 180, 56, 12, 192, 246, 175, 120, 124, 72, 12, 58, 235, 60, 176, 132, 72, 126, 39, 240, 244, 192, 132, 178, 99, 180, 56, 12, 192, 246, 175, 120, 124, 72, 12, 58, 235, 60, 176, 132, 72, 126, 39, 240, 244, 192, 132, 178, 99, 180, 56, 12, 192, 246, 175, 120, 124, 72, 12, 58, 235, 60, 176, 132, 72, 126, 39, 240, 245, 192, 154, 58, 134, 180, 56, 236, 255, 42, 175, 68, 124, 26, 180, 164, 212, 60, 176, 244, 11, 126, 39, 138, 176, 130, 229, 223, 1, 193, 24, 64, 161, 148, 175, 120, 124, 72, 12, 58, 235, 60, 176, 132, 72, 126, 39, 240, 244, 192, 132, 178, 99, 180, 56, 12, 192, 180, 206, 21, 30, 61, 44, 106, 167, 125, 144, 201, 41, 10, 83, 149, 244, 192, 132, 178, 99, 180, 56, 12, 192, 246, 175, 120, 124, 72, 12, 58, 235, 60, 176, 132, 72, 126, 39, 240, 244, 192, 132, 178, 99, 180, 56, 12, 192, 246, 175, 120, 124, 72, 12, 58, 235, 60, 176, 132, 72, 126, 39, 240, 244, 192, 132, 178, 99, 180, 56, 12, 130, 186, 158, 74, 79, 124, 57, 12, 220, 4, 176, 132, 72, 126, 39, 240, 244, 192, 132, 178, 99, 180, 56, 12, 192, 246, 175, 120, 124, 72, 12, 58, 235, 137, 72, 228, 72, 126, 39, 240, 244, 192, 132, 178, 99, 180, 56, 12, 192, 246, 175, 120, 124, 72, 12, 58, 235, 60, 176, 132, 72, 126, 39, 240, 244, 192, 132, 178, 99, 180, 56, 12, 192, 246, 175, 120, 124, 72, 12, 58, 235, 60, 176, 132, 72, 126, 39, 240, 244, 192, 132, 178, 99, 180, 56, 12, 192, 246, 175, 120, 124, 72, 12, 58, 235, 60, 176, 132, 72, 126, 39, 240, 244, 192, 132, 178, 99, 180, 56, 12, 192, 246, 175, 120, 124, 72, 12, 58, 235, 60, 176, 132, 72, 126, 39, 240, 244, 192, 132, 178, 99, 180, 56, 12, 192, 246, 175, 120, 124, 72, 12, 58, 235, 60, 176, 132, 72, 126, 39, 240, 244, 192, 132, 178, 99, 180, 56, 12, 192, 246, 175, 120, 124, 72, 12, 58, 235, 60, 176, 132, 72, 126, 39, 240, 244, 192, 132, 178, 99, 180, 56, 12, 192, 246, 175, 120, 124, 72, 12, 58, 235, 60, 176, 132, 72, 126, 39, 240, 244, 192, 132, 178, 99, 180, 56, 12, 192, 246, 175, 120, 124, 72, 12, 58, 235, 60, 176, 132, 72, 126, 39, 240, 244, 192, 132, 178, 99, 180, 56, 12, 192, 246, 175, 120, 124, 72, 12, 58, 235, 60, 176, 132, 72, 126, 39, 240, 106, 191, 123, 202, 99, 180, 56, 12, 192, 246, 175, 120, 124, 72, 12, 58, 235, 60, 176, 132, 72, 126, 39, 240, 244, 192, 132, 178, 99, 180, 56, 12, 192, 246, 175, 120, 124, 72, 12, 58, 235, 60, 176, 132, 72, 126, 39, 240, 244, 192, 132, 178, 99, 180, 56, 12, 192, 246, 175, 120, 124, 72, 12, 58, 235, 60, 176, 132, 72, 126, 39, 240, 244, 192, 132, 178, 99, 180, 56, 12, 192, 246, 175, 120, 124, 72, 12, 58, 235, 60, 176, 132, 72, 126, 39, 240, 244, 192, 132, 178, 99, 180, 56, 12, 192, 246, 175, 120, 124, 72, 12, 58, 235, 60, 176, 132, 72, 126, 39, 240, 244, 192, 132, 178, 99, 180, 56, 12, 192, 246, 175, 120, 124, 72, 12, 58, 235, 60, 176, 132, 72, 126, 39, 240, 244, 192, 132, 178, 99, 180, 56, 12, 192, 246, 175, 120, 124, 72, 12, 58, 235, 60, 176, 132, 72, 126, 39, 240, 244, 192, 132, 178, 99, 180, 56, 12, 192, 246, 175, 120, 124, 72, 12, 58, 235, 60, 176, 132, 72, 126, 39, 240, 244, 192, 132, 178, 99, 180, 56, 12, 192, 246, 175, 120, 124, 72, 12, 58, 235, 60, 176, 132, 72, 126, 39, 240, 244, 192, 132, 178, 99, 180, 56, 12, 192, 246, 175, 120, 124, 72, 12, 58, 235, 60, 176, 132, 72, 126, 39, 240, 244, 192, 132, 178, 99, 180, 56, 12, 192, 246, 175, 120, 124, 72, 12, 58, 235, 60, 176, 132, 72, 126, 39, 240, 244, 192, 132, 178, 99, 180, 56, 12, 192, 246, 175, 120, 124, 72, 12, 58, 235, 60, 176, 132, 72, 126, 39, 240, 244, 192, 132, 178, 99, 180, 56, 12, 192, 246, 175, 120, 124, 72, 12, 58, 235, 60, 176, 132, 72, 126, 39, 240, 244, 192, 132, 178, 99, 180, 56, 12, 192, 246, 175, 120, 124, 72, 12, 58, 235, 60, 176, 132, 72, 126, 39, 240, 244, 192, 132, 178, 99, 180, 56, 12, 192, 246, 175, 120, 124, 72, 12, 58, 235, 60, 176, 132, 72, 126, 39, 240, 244, 192, 132, 178, 99, 180, 56, 12, 192, 246, 175, 120, 124, 72, 12, 58, 235, 60, 176, 132, 72, 126, 39, 240, 244, 192, 132, 178, 99, 180, 56, 12, 192, 246, 175, 120, 124, 72, 12, 58, 235, 60, 176, 132, 72, 126, 39, 240, 244, 192, 132, 178, 99, 180, 56, 12, 192, 246, 175, 120, 124, 72, 12, 58, 235, 60, 176, 132, 72, 126, 39, 240, 244, 192, 132, 178, 99, 180, 56, 12, 192, 246, 175, 120, 124, 72, 12, 58, 235, 60, 176, 132, 72, 126, 39, 240, 244, 192, 132, 178, 99, 180, 56, 12, 192, 246, 175, 120, 124, 72, 12, 58, 235, 60, 176, 132, 72, 126, 39, 240, 244, 192, 132, 178, 99, 180, 56, 12, 192, 246, 175, 120, 124, 72, 12, 58, 235, 60, 176, 132, 72, 126, 39, 240, 244, 192, 132, 178, 99, 180, 56, 12] := by decide
  have hhk1 : List.foldl crc_byte 4294967295 [170, 85, 204, 51, 73, 126, 39, 240, 244, 192, 132, 178, 99, 180, 56, 12, 192, 246, 175, 120, 124, 72, 12, 58, 235, 60, 176, 132, 72, 126, 39, 240] = 4245227203 := by decide
  have hhk2 : List.foldl crc_byte 4245227203 [244, 192, 132, 178, 99, 180, 56, 12, 192, 246, 175, 120, 124, 72, 12, 58, 235, 60, 176, 132, 72, 126, 39, 240, 244, 192, 132, 178, 99, 180, 56, 12] = 2244248498 := by decide
  have hhk3 : List.foldl crc_byte 2244248498 [192, 246, 175, 120, 124, 72, 12, 58, 235, 60, 176, 132, 72, 126, 39, 240, 244, 192, 132, 178, 99, 180, 56, 12, 192, 246, 175, 120, 124, 72, 12, 58] = 3545932889 := by decide
  have hhk4 : List.foldl crc_byte 3545932889 [235, 60, 176, 132, 72, 126, 39, 240, 244, 192, 132, 178, 99, 180, 56, 12, 192, 246, 175, 120, 124, 72, 12, 58, 235, 60, 176, 132, 72, 126, 39, 240] = 684604691 := by decide
  have hhk5 : List.foldl crc_byte 684604691 [245, 192, 154, 58, 134, 180, 56, 236, 255, 42, 175, 68, 124, 26, 180, 164, 212, 60, 176, 244, 11, 126, 39, 138, 176, 130, 229, 223, 1, 193, 24, 64] = 4099373710 := by decide
  have hhk6 : List.foldl crc_byte 4099373710 [161, 148, 175, 120, 124, 72, 12, 58, 235, 60, 176, 132, 72, 126, 39, 240, 244, 192, 132, 178, 99, 180, 56, 12, 192, 180, 206, 21, 30, 61, 44, 106] = 1078964652 := by decide
  have hhk7 : List.foldl crc_byte 1078964652 [167, 125, 144, 201, 41, 10, 83, 149, 244, 192, 132, 178, 99, 180, 56, 12, 192, 246, 175, 120, 124, 72, 12, 58, 235, 60, 176, 132, 72, 126, 39, 240] = 3059621847 := by decide
  have hhk8 : List.foldl crc_byte 3059621847 [244, 192, 132, 178, 99, 180, 56, 12, 192, 246, 175, 120, 124, 72, 12, 58, 235, 60, 176, 132, 72, 126, 39, 240, 244, 192, 132, 178, 99, 180, 56, 12] = 3738904402 := by decide
  have hhk9 : List.foldl crc_byte 3738904402 [130, 186, 158, 74, 79, 124, 57, 12, 220, 4, 176, 132, 72, 126, 39, 240, 244, 192, 132, 178, 99, 180, 56, 12, 192, 246, 175, 120, 124, 72, 12, 58] = 329138413 := by decide
  have hhk10 : List.foldl crc_byte 329138413 [235, 137, 72, 228, 72, 126, 39, 240, 244, 192, 132, 178, 99, 180, 56, 12, 192, 246, 175, 120, 124, 72, 12, 58, 235, 60, 176, 132, 72, 126, 39, 240] = 413534603 := by decide
  have hhk11 : List.foldl crc_byte 413534603 [244, 192, 132, 178, 99, 180, 56, 12, 192, 246, 175, 120, 124, 72, 12, 58, 235, 60, 176, 132, 72, 126, 39, 240, 244, 192, 132, 178, 99, 180, 56, 12] = 1751652245 := by decide
  have hhk12 : List.foldl crc_byte 1751652245 [192, 246, 175, 120, 124, 72, 12, 58, 235, 60, 176, 132, 72, 126, 39, 240, 244, 192, 132, 178, 99, 180, 56, 12, 192, 246, 175, 120, 124, 72, 12, 58] = 1417941788 := by decide
  have hhk13 : List.foldl crc_byte 1417941788 [235, 60, 176, 132, 72, 126, 39, 240, 244, 192, 132, 178, 99, 180, 56, 12, 192, 246, 175, 120, 124, 72, 12, 58, 235, 60, 176, 132, 72, 126, 39, 240] = 4111525134 := by decide
  have hhk14 : List.foldl crc_byte 4111525134 [244, 192, 132, 178, 99, 180, 56, 12, 192, 246, 175, 120, 124, 72, 12, 58, 235, 60, 176, 132, 72, 126, 39, 240, 244, 192, 132, 178, 99, 180, 56, 12] = 2793671799 := by decide
  have hhk15 : List.foldl crc_byte 2793671799 [192, 246, 175, 120, 124, 72, 12, 58, 235, 60, 176, 132, 72, 126, 39, 240, 244, 192, 132, 178, 99, 180, 56, 12, 192, 246, 175, 120, 124, 72, 12, 58] = 3862256480 := by decide
  have hhk16 : List.foldl crc_byte 3862256480 [235, 60, 176, 132, 72, 126, 39, 240, 244, 192, 132, 178, 99, 180, 56, 12, 192, 246, 175, 120, 124, 72, 12, 58, 235, 60, 176, 132, 72, 126, 39, 240] = 2864031889 := by decide
  have hchk : crc32 (([170, 85, 204, 51, 73, 126, 39, 240, 244, 192, 132, 178, 99, 180, 56, 12, 192, 246, 175, 120, 124, 72, 12, 58, 235, 60, 176, 132, 72, 126, 39, 240, 244, 192, 132, 178, 99, 180, 56, 12, 192, 246, 175, 120, 124, 72, 12, 58, 235, 60, 176, 132, 72, 126, 39, 240, 244, 192, 132, 178, 99, 180, 56, 12, 192, 246, 175, 120, 124, 72, 12, 58, 235, 60, 176, 132, 72, 126, 39, 240, 244, 192, 132, 178, 99, 180, 56, 12, 192, 246, 175, 120, 124, 72, 12, 58, 235, 60, 176, 132, 72, 126, 39, 240, 244, 192, 132, 178, 99, 180, 56, 12, 192, 246, 175, 120, 124, 72, 12, 58, 235, 60, 176, 132, 72, 126, 39, 240, 245, 192, 154, 58, 134, 180, 56, 236, 255, 42, 175, 68, 124, 26, 180, 164, 212, 60, 176, 244, 11, 126, 39, 138, 176, 130, 229, 223, 1, 193, 24, 64, 161, 148, 175, 120, 124, 72, 12, 58, 235, 60, 176, 132, 72, 126, 39, 240, 244, 192, 132, 178, 99, 180, 56, 12, 192, 180, 206, 21, 30, 61, 44, 106, 167, 125, 144, 201, 41, 10, 83, 149, 244, 192, 132, 178, 99, 180, 56, 12, 192, 246, 175, 120, 124, 72, 12, 58, 235, 60, 176, 132, 72, 126, 39, 240, 244, 192, 132, 178, 99, 180, 56, 12, 192, 246, 175, 120, 124, 72, 12, 58, 235, 60, 176, 132, 72, 126, 39, 240, 244, 192, 132, 178, 99, 180, 56, 12, 130, 186, 158, 74, 79, 124, 57, 12, 220, 4, 176, 132, 72, 126, 39, 240, 244, 192, 132, 178, 99, 180, 56, 12, 192, 246, 175, 120, 124, 72, 12, 58, 235, 137, 72, 228, 72, 126, 39, 240, 244, 192, 132, 178, 99, 180, 56, 12, 192, 246, 175, 120, 124, 72, 12, 58, 235, 60, 176, 132, 72, 126, 39, 240, 244, 192, 132, 178, 99, 180, 56, 12, 192, 246, 175, 120, 124, 72, 12, 58, 235, 60, 176, 132, 72, 126, 39, 240, 244, 192, 132, 178, 99, 180, 56, 12, 192, 246, 175, 120, 124, 72, 12, 58, 235, 60, 176, 132, 72, 126, 39, 240, 244, 192, 132, 178, 99, 180, 56, 12, 192, 246, 175, 120, 124, 72, 12, 58, 235, 60, 176, 132, 72, 126, 39, 240, 244, 192, 132, 178, 99, 180, 56, 12, 192, 246, 175, 120, 124, 72, 12, 58, 235, 60, 176, 132, 72, 126, 39, 240, 244, 192, 132, 178, 99, 180, 56, 12, 192, 246, 175, 120, 124, 72, 12, 58, 235, 60, 176, 132, 72, 126, 39, 240, 244, 192, 132, 178, 99, 180, 56, 12, 192, 246, 175, 120, 124, 72, 12, 58, 235, 60, 176, 132, 72, 126, 39, 240, 244, 192, 132, 178, 99, 180, 56, 12, 192, 246, 175, 120, 124, 72, 12, 58, 235, 60, 176, 132, 72, 126, 39, 240, 244, 192, 132, 178, 99, 180, 56, 12, 192, 246, 175, 120, 124, 72, 12, 58, 235, 60, 176, 132, 72, 126, 39, 240, 106, 191, 123, 202, 99, 180, 56, 12, 192, 246, 175, 120, 124, 72, 12, 58, 235, 60, 176, 132, 72, 126, 39, 240, 244, 192, 132, 178, 99, 180, 56, 12, 192, 246, 175, 120, 124, 72, 12, 58, 235, 60, 176, 132, 72, 126, 39, 240, 244, 192, 132, 178, 99, 180, 56, 12, 192, 246, 175, 120, 124, 72, 12, 58, 235, 60, 176, 132, 72, 126, 39, 240, 244, 192, 132, 178, 99, 180, 56, 12, 192, 246, 175, 120, 124, 72, 12, 58, 235, 60, 176, 132, 72, 126, 39, 240, 244, 192, 132, 178, 99, 180, 56, 12, 192, 246, 175, 120, 124, 72, 12, 58, 235, 60, 176, 132, 72, 126, 39, 240, 244, 192, 132, 178, 99, 180, 56, 12, 192, 246, 175, 120, 124, 72, 12, 58, 235, 60, 176, 132, 72, 126, 39, 240, 244, 192, 132, 178, 99, 180, 56, 12, 192, 246, 175, 120, 124, 72, 12, 58, 235, 60, 176, 132, 72, 126, 39, 240, 244, 192, 132, 178, 99, 180, 56, 12, 192, 246, 175, 120, 124, 72, 12, 58, 235, 60, 176, 132, 72, 126, 39, 240, 244, 192, 132, 178, 99, 180, 56, 12, 192, 246, 175, 120, 124, 72, 12, 58, 235, 60, 176, 132, 72, 126, 39, 240, 244, 192, 132, 178, 99, 180, 56, 12, 192, 246, 175, 120, 124, 72, 12, 58, 235, 60, 176, 132, 72, 126, 39, 240, 244, 192, 132, 178, 99, 180, 56, 12, 192, 246, 175, 120, 124, 72, 12, 58, 235, 60, 176, 132, 72, 126, 39, 240, 244, 192, 132, 178, 99, 180, 56, 12, 192, 246, 175, 120, 124, 72, 12, 58, 235, 60, 176, 132, 72, 126, 39, 240, 244, 192, 132, 178, 99, 180, 56, 12, 192, 246, 175, 120, 124, 72, 12, 58, 235, 60, 176, 132, 72, 126, 39, 240, 244, 192, 132, 178, 99, 180, 56, 12, 192, 246, 175, 120, 124, 72, 12, 58, 235, 60, 176, 132, 72, 126, 39, 240, 244, 192, 132, 178, 99, 180, 56, 12, 192, 246, 175, 120, 124, 72, 12, 58, 235, 60, 176, 132, 72, 126, 39, 240, 244, 192, 132, 178, 99, 180, 56, 12, 192, 246, 175, 120, 124, 72, 12, 58, 235, 60, 176, 132, 72, 126, 39, 240, 244, 192, 132, 178, 99, 180, 56, 12, 192, 246, 175, 120, 124, 72, 12, 58, 235, 60, 176, 132, 72, 126, 39, 240, 244, 192, 132, 178, 99, 180, 56, 12, 192, 246, 175, 120, 124, 72, 12, 58, 235, 60, 176, 132, 72, 126, 39, 240, 244, 192, 132, 178, 99, 180, 56, 12, 192, 246, 175, 120, 124, 72, 12, 58, 235, 60, 176, 132, 72, 126, 39, 240, 244, 192, 132, 178, 99, 180, 56, 12, 192, 246, 175, 120, 124, 72, 12, 58, 235, 60, 176, 132, 72, 126, 39, 240, 244, 192, 132, 178, 99, 180, 56, 12, 192, 246, 175, 120, 124, 72, 12, 58, 235, 60, 176, 132, 72, 126, 39, 240, 244, 192, 132, 178, 99, 180, 56, 12] : List Nat).take 512) = 1430935406 := by
    rw [show (([170, 85, 204, 51, 73, 126, 39, 240, 244, 192, 132, 178, 99, 180, 56, 12, 192, 246, 175, 120, 124, 72, 12, 58, 235, 60, 176, 132, 72, 126, 39, 240, 244, 192, 132, 178, 99, 180, 56, 12, 192, 246, 175, 120, 124, 72, 12, 58, 235, 60, 176, 132, 72, 126, 39, 240, 244, 192, 132, 178, 99, 180, 56, 12, 192, 246, 175, 120, 124, 72, 12, 58, 235, 60, 176, 132, 72, 126, 39, 240, 244, 192, 132, 178, 99, 180, 56, 12, 192, 246, 175, 120, 124, 72, 12, 58, 235, 60, 176, 132, 72, 126, 39, 240, 244, 192, 132, 178, 99, 180, 56, 12, 192, 246, 175, 120, 124, 72, 12, 58, 235, 60, 176, 132, 72, 126, 39, 240, 245, 192, 154, 58, 134, 180, 56, 236, 255, 42, 175, 68, 124, 26, 180, 164, 212, 60, 176, 244, 11, 126, 39, 138, 176, 130, 229, 223, 1, 193, 24, 64, 161, 148, 175, 120, 124, 72, 12, 58, 235, 60, 176, 132, 72, 126, 39, 240, 244, 192, 132, 178, 99, 180, 56, 12, 192, 180, 206, 21, 30, 61, 44, 106, 167, 125, 144, 201, 41, 10, 83, 149, 244, 192, 132, 178, 99, 180, 56, 12, 192, 246, 175, 120, 124, 72, 12, 58, 235, 60, 176, 132, 72, 126, 39, 240, 244, 192, 132, 178, 99, 180, 56, 12, 192, 246, 175, 120, 124, 72, 12, 58, 235, 60, 176, 132, 72, 126, 39, 240, 244, 192, 132, 178, 99, 180, 56, 12, 130, 186, 158, 74, 79, 124, 57, 12, 220, 4, 176, 132, 72, 126, 39, 240, 244, 192, 132, 178, 99, 180, 56, 12, 192, 246, 175, 120, 124, 72, 12, 58, 235, 137, 72, 228, 72, 126, 39, 240, 244, 192, 132, 178, 99, 180, 56, 12, 192, 246, 175, 120, 124, 72, 12, 58, 235, 60, 176, 132, 72, 126, 39, 240, 244, 192, 132, 178, 99, 180, 56, 12, 192, 246, 175, 120, 124, 72, 12, 58, 235, 60, 176, 132, 72, 126, 39, 240, 244, 192, 132, 178, 99, 180, 56, 12, 192, 246, 175, 120, 124, 72, 12, 58, 235, 60, 176, 132, 72, 126, 39, 240, 244, 192, 132, 178, 99, 180, 56, 12, 192, 246, 175, 120, 124, 72, 12, 58, 235, 60, 176, 132, 72, 126, 39, 240, 244, 192, 132, 178, 99, 180, 56, 12, 192, 246, 175, 120, 124, 72, 12, 58, 235, 60, 176, 132, 72, 126, 39, 240, 244, 192, 132, 178, 99, 180, 56, 12, 192, 246, 175, 120, 124, 72, 12, 58, 235, 60, 176, 132, 72, 126, 39, 240, 244, 192, 132, 178, 99, 180, 56, 12, 192, 246, 175, 120, 124, 72, 12, 58, 235, 60, 176, 132, 72, 126, 39, 240, 244, 192, 132, 178, 99, 180, 56, 12, 192, 246, 175, 120, 124, 72, 12, 58, 235, 60, 176, 132, 72, 126, 39, 240, 244, 192, 132, 178, 99, 180, 56, 12, 192, 246, 175, 120, 124, 72, 12, 58, 235, 60, 176, 132, 72, 126, 39, 240, 106, 191, 123, 202, 99, 180, 56, 12, 192, 246, 175, 120, 124, 72, 12, 58, 235, 60, 176, 132, 72, 126, 39, 240, 244, 192, 132, 178, 99, 180, 56, 12, 192, 246, 175, 120, 124, 72, 12, 58, 235, 60, 176, 132, 72, 126, 39, 240, 244, 192, 132, 178, 99, 180, 56, 12, 192, 246, 175, 120, 124, 72, 12, 58, 235, 60, 176, 132, 72, 126, 39, 240, 244, 192, 132, 178, 99, 180, 56, 12, 192, 246, 175, 120, 124, 72, 12, 58, 235, 60, 176, 132, 72, 126, 39, 240, 244, 192, 132, 178, 99, 180, 56, 12, 192, 246, 175, 120, 124, 72, 12, 58, 235, 60, 176, 132, 72, 126, 39, 240, 244, 192, 132, 178, 99, 180, 56, 12, 192, 246, 175, 120, 124, 72, 12, 58, 235, 60, 176, 132, 72, 126, 39, 240, 244, 192, 132, 178, 99, 180, 56, 12, 192, 246, 175, 120, 124, 72, 12, 58, 235, 60, 176, 132, 72, 126, 39, 240, 244, 192, 132, 178, 99, 180, 56, 12, 192, 246, 175, 120, 124, 72, 12, 58, 235, 60, 176, 132, 72, 126, 39, 240, 244, 192, 132, 178, 99, 180, 56, 12, 192, 246, 175, 120, 124, 72, 12, 58, 235, 60, 176, 132, 72, 126, 39, 240, 244, 192, 132, 178, 99, 180, 56, 12, 192, 246, 175, 120, 124, 72, 12, 58, 235, 60, 176, 132, 72, 126, 39, 240, 244, 192, 132, 178, 99, 180, 56, 12, 192, 246, 175, 120, 124, 72, 12, 58, 235, 60, 176, 132, 72, 126, 39, 240, 244, 192, 132, 178, 99, 180, 56, 12, 192, 246, 175, 120, 124, 72, 12, 58, 235, 60, 176, 132, 72, 126, 39, 240, 244, 192, 132, 178, 99, 180, 56, 12, 192, 246, 175, 120, 124, 72, 12, 58, 235, 60, 176, 132, 72, 126, 39, 240, 244, 192, 132, 178, 99, 180, 56, 12, 192, 246, 175, 120, 124, 72, 12, 58, 235, 60, 176, 132, 72, 126, 39, 240, 244, 192, 132, 178, 99, 180, 56, 12, 192, 246, 175, 120, 124, 72, 12, 58, 235, 60, 176, 132, 72, 126, 39, 240, 244, 192, 132, 178, 99, 180, 56, 12, 192, 246, 175, 120, 124, 72, 12, 58, 235, 60, 176, 132, 72, 126, 39, 240, 244, 192, 132, 178, 99, 180, 56, 12, 192, 246, 175, 120, 124, 72, 12, 58, 235, 60, 176, 132, 72, 126, 39, 240, 244, 192, 132, 178, 99, 180, 56, 12, 192, 246, 175, 120, 124, 72, 12, 58, 235, 60, 176, 132, 72, 126, 39, 240, 244, 192, 132, 178, 99, 180, 56, 12, 192, 246, 175, 120, 124, 72, 12, 58, 235, 60, 176, 132, 72, 126, 39, 240, 244, 192, 132, 178, 99, 180, 56, 12, 192, 246, 175, 120, 124, 72, 12, 58, 235, 60, 176, 132, 72, 126, 39, 240, 244, 192, 132, 178, 99, 180, 56, 12, 192, 246, 175, 120, 124, 72, 12, 58, 235, 60, 176, 132, 72, 126, 39, 240, 244, 192, 132, 178, 99, 180, 56, 12] : List Nat).take 512) = [170, 85, 204, 51, 73, 126, 39, 240, 244, 192, 132, 178, 99, 180, 56, 12, 192, 246, 175, 120, 124, 72, 12, 58, 235, 60, 176, 132, 72, 126, 39, 240] ++ ([244, 192, 132, 178, 99, 180, 56, 12, 192, 246, 175, 120, 124, 72, 12, 58, 235, 60, 176, 132, 72, 126, 39, 240, 244, 192, 132, 178, 99, 180, 56, 12] ++ ([192, 246, 175, 120, 124, 72, 12, 58, 235, 60, 176, 132, 72, 126, 39, 240, 244, 192, 132, 178, 99, 180, 56, 12, 192, 246, 175, 120, 124, 72, 12, 58] ++ ([235, 60, 176, 132, 72, 126, 39, 240, 244, 192, 132, 178, 99, 180, 56, 12, 192, 246, 175, 120, 124, 72, 12, 58, 235, 60, 176, 132, 72, 126, 39, 240] ++ ([245, 192, 154, 58, 134, 180, 56, 236, 255, 42, 175, 68, 124, 26, 180, 164, 212, 60, 176, 244, 11, 126, 39, 138, 176, 130, 229, 223, 1, 193, 24, 64] ++ ([161, 148, 175, 120, 124, 72, 12, 58, 235, 60, 176, 132, 72, 126, 39, 240, 244, 192, 132, 178, 99, 180, 56, 12, 192, 180, 206, 21, 30, 61, 44, 106] ++ ([167, 125, 144, 201, 41, 10, 83, 149, 244, 192, 132, 178, 99, 180, 56, 12, 192, 246, 175, 120, 124, 72, 12, 58, 235, 60, 176, 132, 72, 126, 39, 240] ++ ([244, 192, 132, 178, 99, 180, 56, 12, 192, 246, 175, 120, 124, 72, 12, 58, 235, 60, 176, 132, 72, 126, 39, 240, 244, 192, 132, 178, 99, 180, 56, 12] ++ ([130, 186, 158, 74, 79, 124, 57, 12, 220, 4, 176, 132, 72, 126, 39, 240, 244, 192, 132, 178, 99, 180, 56, 12, 192, 246, 175, 120, 124, 72, 12, 58] ++ ([235, 137, 72, 228, 72, 126, 39, 240, 244, 192, 132, 178, 99, 180, 56, 12, 192, 246, 175, 120, 124, 72, 12, 58, 235, 60, 176, 132, 72, 126, 39, 240] ++ ([244, 192, 132, 178, 99, 180, 56, 12, 192, 246, 175, 120, 124, 72, 12, 58, 235, 60, 176, 132, 72, 126, 39, 240, 244, 192, 132, 178, 99, 180, 56, 12] ++ ([192, 246, 175, 120, 124, 72, 12, 58, 235, 60, 176, 132, 72, 126, 39, 240, 244, 192, 132, 178, 99, 180, 56, 12, 192, 246, 175, 120, 124, 72, 12, 58] ++ ([235, 60, 176, 132, 72, 126, 39, 240, 244, 192, 132, 178, 99, 180, 56, 12, 192, 246, 175, 120, 124, 72, 12, 58, 235, 60, 176, 132, 72, 126, 39, 240] ++ ([244, 192, 132, 178, 99, 180, 56, 12, 192, 246, 175, 120, 124, 72, 12, 58, 235, 60, 176, 132, 72, 126, 39, 240, 244, 192, 132, 178, 99, 180, 56, 12] ++ ([192, 246, 175, 120, 124, 72, 12, 58, 235, 60, 176, 132, 72, 126, 39, 240, 244, 192, 132, 178, 99, 180, 56, 12, 192, 246, 175, 120, 124, 72, 12, 58] ++ ([235, 60, 176, 132, 72, 126, 39, 240, 244, 192, 132, 178, 99, 180, 56, 12, 192, 246, 175, 120, 124, 72, 12, 58, 235, 60, 176, 132, 72, 126, 39, 240]))))))))))))))) from by decide]
    show List.foldl crc_byte 4294967295 ([170, 85, 204, 51, 73, 126, 39, 240, 244, 192, 132, 178, 99, 180, 56, 12, 192, 246, 175, 120, 124, 72, 12, 58, 235, 60, 176, 132, 72, 126, 39, 240] ++ ([244, 192, 132, 178, 99, 180, 56, 12, 192, 246, 175, 120, 124, 72, 12, 58, 235, 60, 176, 132, 72, 126, 39, 240, 244, 192, 132, 178, 99, 180, 56, 12] ++ ([192, 246, 175, 120, 124, 72, 12, 58, 235, 60, 176, 132, 72, 126, 39, 240, 244, 192, 132, 178, 99, 180, 56, 12, 192, 246, 175, 120, 124, 72, 12, 58] ++ ([235, 60, 176, 132, 72, 126, 39, 240, 244, 192, 132, 178, 99, 180, 56, 12, 192, 246, 175, 120, 124, 72, 12, 58, 235, 60, 176, 132, 72, 126, 39, 240] ++ ([245, 192, 154, 58, 134, 180, 56, 236, 255, 42, 175, 68, 124, 26, 180, 164, 212, 60, 176, 244, 11, 126, 39, 138, 176, 130, 229, 223, 1, 193, 24, 64] ++ ([161, 148, 175, 120, 124, 72, 12, 58, 235, 60, 176, 132, 72, 126, 39, 240, 244, 192, 132, 178, 99, 180, 56, 12, 192, 180, 206, 21, 30, 61, 44, 106] ++ ([167, 125, 144, 201, 41, 10, 83, 149, 244, 192, 132, 178, 99, 180, 56, 12, 192, 246, 175, 120, 124, 72, 12, 58, 235, 60, 176, 132, 72, 126, 39, 240] ++ ([244, 192, 132, 178, 99, 180, 56, 12, 192, 246, 175, 120, 124, 72, 12, 58, 235, 60, 176, 132, 72, 126, 39, 240, 244, 192, 132, 178, 99, 180, 56, 12] ++ ([130, 186, 158, 74, 79, 124, 57, 12, 220, 4, 176, 132, 72, 126, 39, 240, 244, 192, 132, 178, 99, 180, 56, 12, 192, 246, 175, 120, 124, 72, 12, 58] ++ ([235, 137, 72, 228, 72, 126, 39, 240, 244, 192, 132, 178, 99, 180, 56, 12, 192, 246, 175, 120, 124, 72, 12, 58, 235, 60, 176, 132, 72, 126, 39, 240] ++ ([244, 192, 132, 178, 99, 180, 56, 12, 192, 246, 175, 120, 124, 72, 12, 58, 235, 60, 176, 132, 72, 126, 39, 240, 244, 192, 132, 178, 99, 180, 56, 12] ++ ([192, 246, 175, 120, 124, 72, 12, 58, 235, 60, 176, 132, 72, 126, 39, 240, 244, 192, 132, 178, 99, 180, 56, 12, 192, 246, 175, 120, 124, 72, 12, 58] ++ ([235, 60, 176, 132, 72, 126, 39, 240, 244, 192, 132, 178, 99, 180, 56, 12, 192, 246, 175, 120, 124, 72, 12, 58, 235, 60, 176, 132, 72, 126, 39, 240] ++ ([244, 192, 132, 178, 99, 180, 56, 12, 192, 246, 175, 120, 124, 72, 12, 58, 235, 60, 176, 132, 72, 126, 39, 240, 244, 192, 132, 178, 99, 180, 56, 12] ++ ([192, 246, 175, 120, 124, 72, 12, 58, 235, 60, 176, 132, 72, 126, 39, 240, 244, 192, 132, 178, 99, 180, 56, 12, 192, 246, 175, 120, 124, 72, 12, 58] ++ ([235, 60, 176, 132, 72, 126, 39, 240, 244, 192, 132, 178, 99, 180, 56, 12, 192, 246, 175, 120, 124, 72, 12, 58, 235, 60, 176, 132, 72, 126, 39, 240])))))))))))))))) ^^^ 4294967295 = 1430935406
    simp only [List.foldl_append]
    rw [hhk1, hhk2, hhk3, hhk4, hhk5, hhk6, hhk7, hhk8, hhk9, hhk10, hhk11, hhk12, hhk13, hhk14, hhk15, hhk16]
    decide
  have hvhk : verify_checksum [170, 85, 204, 51, 73, 126, 39, 240, 244, 192, 132, 178, 99, 180, 56, 12, 192, 246, 175, 120, 124, 72, 12, 58, 235, 60, 176, 132, 72, 126, 39, 240, 244, 192, 132, 178, 99, 180, 56, 12, 192, 246, 175, 120, 124, 72, 12, 58, 235, 60, 176, 132, 72, 126, 39, 240, 244, 192, 132, 178, 99, 180, 56, 12, 192, 246, 175, 120, 124, 72, 12, 58, 235, 60, 176, 132, 72, 126, 39, 240, 244, 192, 132, 178, 99, 180, 56, 12, 192, 246, 175, 120, 124, 72, 12, 58, 235, 60, 176, 132, 72, 126, 39, 240, 244, 192, 132, 178, 99, 180, 56, 12, 192, 246, 175, 120, 124, 72, 12, 58, 235, 60, 176, 132, 72, 126, 39, 240, 245, 192, 154, 58, 134, 180, 56, 236, 255, 42, 175, 68, 124, 26, 180, 164, 212, 60, 176, 244, 11, 126, 39, 138, 176, 130, 229, 223, 1, 193, 24, 64, 161, 148, 175, 120, 124, 72, 12, 58, 235, 60, 176, 132, 72, 126, 39, 240, 244, 192, 132, 178, 99, 180, 56, 12, 192, 180, 206, 21, 30, 61, 44, 106, 167, 125, 144, 201, 41, 10, 83, 149, 244, 192, 132, 178, 99, 180, 56, 12, 192, 246, 175, 120, 124, 72, 12, 58, 235, 60, 176, 132, 72, 126, 39, 240, 244, 192, 132, 178, 99, 180, 56, 12, 192, 246, 175, 120, 124, 72, 12, 58, 235, 60, 176, 132, 72, 126, 39, 240, 244, 192, 132, 178, 99, 180, 56, 12, 130, 186, 158, 74, 79, 124, 57, 12, 220, 4, 176, 132, 72, 126, 39, 240, 244, 192, 132, 178, 99, 180, 56, 12, 192, 246, 175, 120, 124, 72, 12, 58, 235, 137, 72, 228, 72, 126, 39, 240, 244, 192, 132, 178, 99, 180, 56, 12, 192, 246, 175, 120, 124, 72, 12, 58, 235, 60, 176, 132, 72, 126, 39, 240, 244, 192, 132, 178, 99, 180, 56, 12, 192, 246, 175, 120, 124, 72, 12, 58, 235, 60, 176, 132, 72, 126, 39, 240, 244, 192, 132, 178, 99, 180, 56, 12, 192, 246, 175, 120, 124, 72, 12, 58, 235, 60, 176, 132, 72, 126, 39, 240, 244, 192, 132, 178, 99, 180, 56, 12, 192, 246, 175, 120, 124, 72, 12, 58, 235, 60, 176, 132, 72, 126, 39, 240, 244, 192, 132, 178, 99, 180, 56, 12, 192, 246, 175, 120, 124, 72, 12, 58, 235, 60, 176, 132, 72, 126, 39, 240, 244, 192, 132, 178, 99, 180, 56, 12, 192, 246, 175, 120, 124, 72, 12, 58, 235, 60, 176, 132, 72, 126, 39, 240, 244, 192, 132, 178, 99, 180, 56, 12, 192, 246, 175, 120, 124, 72, 12, 58, 235, 60, 176, 132, 72, 126, 39, 240, 244, 192, 132, 178, 99, 180, 56, 12, 192, 246, 175, 120, 124, 72, 12, 58, 235, 60, 176, 132, 72, 126, 39, 240, 244, 192, 132, 178, 99, 180, 56, 12, 192, 246, 175, 120, 124, 72, 12, 58, 235, 60, 176, 132, 72, 126, 39, 240, 106, 191, 123, 202, 99, 180, 56, 12, 192, 246, 175, 120, 124, 72, 12, 58, 235, 60, 176, 132, 72, 126, 39, 240, 244, 192, 132, 178, 99, 180, 56, 12, 192, 246, 175, 120, 124, 72, 12, 58, 235, 60, 176, 132, 72, 126, 39, 240, 244, 192, 132, 178, 99, 180, 56, 12, 192, 246, 175, 120, 124, 72, 12, 58, 235, 60, 176, 132, 72, 126, 39, 240, 244, 192, 132, 178, 99, 180, 56, 12, 192, 246, 175, 120, 124, 72, 12, 58, 235, 60, 176, 132, 72, 126, 39, 240, 244, 192, 132, 178, 99, 180, 56, 12, 192, 246, 175, 120, 124, 72, 12, 58, 235, 60, 176, 132, 72, 126, 39, 240, 244, 192, 132, 178, 99, 180, 56, 12, 192, 246, 175, 120, 124, 72, 12, 58, 235, 60, 176, 132, 72, 126, 39, 240, 244, 192, 132, 178, 99, 180, 56, 12, 192, 246, 175, 120, 124, 72, 12, 58, 235, 60, 176, 132, 72, 126, 39, 240, 244, 192, 132, 178, 99, 180, 56, 12, 192, 246, 175, 120, 124, 72, 12, 58, 235, 60, 176, 132, 72, 126, 39, 240, 244, 192, 132, 178, 99, 180, 56, 12, 192, 246, 175, 120, 124, 72, 12, 58, 235, 60, 176, 132, 72, 126, 39, 240, 244, 192, 132, 178, 99, 180, 56, 12, 192, 246, 175, 120, 124, 72, 12, 58, 235, 60, 176, 132, 72, 126, 39, 240, 244, 192, 132, 178, 99, 180, 56, 12, 192, 246, 175, 120, 124, 72, 12, 58, 235, 60, 176, 132, 72, 126, 39, 240, 244, 192, 132, 178, 99, 180, 56, 12, 192, 246, 175, 120, 124, 72, 12, 58, 235, 60, 176, 132, 72, 126, 39, 240, 244, 192, 132, 178, 99, 180, 56, 12, 192, 246, 175, 120, 124, 72, 12, 58, 235, 60, 176, 132, 72, 126, 39, 240, 244, 192, 132, 178, 99, 180, 56, 12, 192, 246, 175, 120, 124, 72, 12, 58, 235, 60, 176, 132, 72, 126, 39, 240, 244, 192, 132, 178, 99, 180, 56, 12, 192, 246, 175, 120, 124, 72, 12, 58, 235, 60, 176, 132, 72, 126, 39, 240, 244, 192, 132, 178, 99, 180, 56, 12, 192, 246, 175, 120, 124, 72, 12, 58, 235, 60, 176, 132, 72, 126, 39, 240, 244, 192, 132, 178, 99, 180, 56, 12, 192, 246, 175, 120, 124, 72, 12, 58, 235, 60, 176, 132, 72, 126, 39, 240, 244, 192, 132, 178, 99, 180, 56, 12, 192, 246, 175, 120, 124, 72, 12, 58, 235, 60, 176, 132, 72, 126, 39, 240, 244, 192, 132, 178, 99, 180, 56, 12, 192, 246, 175, 120, 124, 72, 12, 58, 235, 60, 176, 132, 72, 126, 39, 240, 244, 192, 132, 178, 99, 180, 56, 12, 192, 246, 175, 120, 124, 72, 12, 58, 235, 60, 176, 132, 72, 126, 39, 240, 244, 192, 132, 178, 99, 180, 56, 12, 192, 246, 175, 120, 124, 72, 12, 58, 235, 60, 176, 132, 72, 126, 39, 240, 244, 192, 132, 178, 99, 180, 56, 12] = .ok false := by
    unfold verify_checksum
    rw [if_neg (by decide : ¬(([170, 85, 204, 51, 73, 126, 39, 240, 244, 192, 132, 178, 99, 180, 56, 12, 192, 246, 175, 120, 124, 72, 12, 58, 235, 60, 176, 132, 72, 126, 39, 240, 244, 192, 132, 178, 99, 180, 56, 12, 192, 246, 175, 120, 124, 72, 12, 58, 235, 60, 176, 132, 72, 126, 39, 240, 244, 192, 132, 178, 99, 180, 56, 12, 192, 246, 175, 120, 124, 72, 12, 58, 235, 60, 176, 132, 72, 126, 39, 240, 244, 192, 132, 178, 99, 180, 56, 12, 192, 246, 175, 120, 124, 72, 12, 58, 235, 60, 176, 132, 72, 126, 39, 240, 244, 192, 132, 178, 99, 180, 56, 12, 192, 246, 175, 120, 124, 72, 12, 58, 235, 60, 176, 132, 72, 126, 39, 240, 245, 192, 154, 58, 134, 180, 56, 236, 255, 42, 175, 68, 124, 26, 180, 164, 212, 60, 176, 244, 11, 126, 39, 138, 176, 130, 229, 223, 1, 193, 24, 64, 161, 148, 175, 120, 124, 72, 12, 58, 235, 60, 176, 132, 72, 126, 39, 240, 244, 192, 132, 178, 99, 180, 56, 12, 192, 180, 206, 21, 30, 61, 44, 106, 167, 125, 144, 201, 41, 10, 83, 149, 244, 192, 132, 178, 99, 180, 56, 12, 192, 246, 175, 120, 124, 72, 12, 58, 235, 60, 176, 132, 72, 126, 39, 240, 244, 192, 132, 178, 99, 180, 56, 12, 192, 246, 175, 120, 124, 72, 12, 58, 235, 60, 176, 132, 72, 126, 39, 240, 244, 192, 132, 178, 99, 180, 56, 12, 130, 186, 158, 74, 79, 124, 57, 12, 220, 4, 176, 132, 72, 126, 39, 240, 244, 192, 132, 178, 99, 180, 56, 12, 192, 246, 175, 120, 124, 72, 12, 58, 235, 137, 72, 228, 72, 126, 39, 240, 244, 192, 132, 178, 99, 180, 56, 12, 192, 246, 175, 120, 124, 72, 12, 58, 235, 60, 176, 132, 72, 126, 39, 240, 244, 192, 132, 178, 99, 180, 56, 12, 192, 246, 175, 120, 124, 72, 12, 58, 235, 60, 176, 132, 72, 126, 39, 240, 244, 192, 132, 178, 99, 180, 56, 12, 192, 246, 175, 120, 124, 72, 12, 58, 235, 60, 176, 132, 72, 126, 39, 240, 244, 192, 132, 178, 99, 180, 56, 12, 192, 246, 175, 120, 124, 72, 12, 58, 235, 60, 176, 132, 72, 126, 39, 240, 244, 192, 132, 178, 99, 180, 56, 12, 192, 246, 175, 120, 124, 72, 12, 58, 235, 60, 176, 132, 72, 126, 39, 240, 244, 192, 132, 178, 99, 180, 56, 12, 192, 246, 175, 120, 124, 72, 12, 58, 235, 60, 176, 132, 72, 126, 39, 240, 244, 192, 132, 178, 99, 180, 56, 12, 192, 246, 175, 120, 124, 72, 12, 58, 235, 60, 176, 132, 72, 126, 39, 240, 244, 192, 132, 178, 99, 180, 56, 12, 192, 246, 175, 120, 124, 72, 12, 58, 235, 60, 176, 132, 72, 126, 39, 240, 244, 192, 132, 178, 99, 180, 56, 12, 192, 246, 175, 120, 124, 72, 12, 58, 235, 60, 176, 132, 72, 126, 39, 240, 106, 191, 123, 202, 99, 180, 56, 12, 192, 246, 175, 120, 124, 72, 12, 58, 235, 60, 176, 132, 72, 126, 39, 240, 244, 192, 132, 178, 99, 180, 56, 12, 192, 246, 175, 120, 124, 72, 12, 58, 235, 60, 176, 132, 72, 126, 39, 240, 244, 192, 132, 178, 99, 180, 56, 12, 192, 246, 175, 120, 124, 72, 12, 58, 235, 60, 176, 132, 72, 126, 39, 240, 244, 192, 132, 178, 99, 180, 56, 12, 192, 246, 175, 120, 124, 72, 12, 58, 235, 60, 176, 132, 72, 126, 39, 240, 244, 192, 132, 178, 99, 180, 56, 12, 192, 246, 175, 120, 124, 72, 12, 58, 235, 60, 176, 132, 72, 126, 39, 240, 244, 192, 132, 178, 99, 180, 56, 12, 192, 246, 175, 120, 124, 72, 12, 58, 235, 60, 176, 132, 72, 126, 39, 240, 244, 192, 132, 178, 99, 180, 56, 12, 192, 246, 175, 120, 124, 72, 12, 58, 235, 60, 176, 132, 72, 126, 39, 240, 244, 192, 132, 178, 99, 180, 56, 12, 192, 246, 175, 120, 124, 72, 12, 58, 235, 60, 176, 132, 72, 126, 39, 240, 244, 192, 132, 178, 99, 180, 56, 12, 192, 246, 175, 120, 124, 72, 12, 58, 235, 60, 176, 132, 72, 126, 39, 240, 244, 192, 132, 178, 99, 180, 56, 12, 192, 246, 175, 120, 124, 72, 12, 58, 235, 60, 176, 132, 72, 126, 39, 240, 244, 192, 132, 178, 99, 180, 56, 12, 192, 246, 175, 120, 124, 72, 12, 58, 235, 60, 176, 132, 72, 126, 39, 240, 244, 192, 132, 178, 99, 180, 56, 12, 192, 246, 175, 120, 124, 72, 12, 58, 235, 60, 176, 132, 72, 126, 39, 240, 244, 192, 132, 178, 99, 180, 56, 12, 192, 246, 175, 120, 124, 72, 12, 58, 235, 60, 176, 132, 72, 126, 39, 240, 244, 192, 132, 178, 99, 180, 56, 12, 192, 246, 175, 120, 124, 72, 12, 58, 235, 60, 176, 132, 72, 126, 39, 240, 244, 192, 132, 178, 99, 180, 56, 12, 192, 246, 175, 120, 124, 72, 12, 58, 235, 60, 176, 132, 72, 126, 39, 240, 244, 192, 132, 178, 99, 180, 56, 12, 192, 246, 175, 120, 124, 72, 12, 58, 235, 60, 176, 132, 72, 126, 39, 240, 244, 192, 132, 178, 99, 180, 56, 12, 192, 246, 175, 120, 124, 72, 12, 58, 235, 60, 176, 132, 72, 126, 39, 240, 244, 192, 132, 178, 99, 180, 56, 12, 192, 246, 175, 120, 124, 72, 12, 58, 235, 60, 176, 132, 72, 126, 39, 240, 244, 192, 132, 178, 99, 180, 56, 12, 192, 246, 175, 120, 124, 72, 12, 58, 235, 60, 176, 132, 72, 126, 39, 240, 244, 192, 132, 178, 99, 180, 56, 12, 192, 246, 175, 120, 124, 72, 12, 58, 235, 60, 176, 132, 72, 126, 39, 240, 244, 192, 132, 178, 99, 180, 56, 12, 192, 246, 175, 120, 124, 72, 12, 58, 235, 60, 176, 132, 72, 126, 39, 240, 244, 192, 132, 178, 99, 180, 56, 12] : List Nat).length < 516)), hchk]
    decide
  have hdechk : decode_tag_data [73, 93, 98, 151, 125, 107] [170, 85, 204, 51, 0, 35, 69, 103, 137, 171, 205, 239, 1, 35, 69, 103, 137, 171, 205, 239, 1, 35, 69, 103, 137, 171, 205, 239, 1, 35, 69, 103, 137, 171, 205, 239, 1, 35, 69, 103, 137, 171, 205, 239, 1, 35, 69, 103, 137, 171, 205, 239, 1, 35, 69, 103, 137, 171, 205, 239, 1, 35, 69, 103, 137, 171, 205, 239, 1, 35, 69, 103, 137, 171, 205, 239, 1, 35, 69, 103, 137, 171, 205, 239, 1, 35, 69, 103, 137, 171, 205, 239, 1, 35, 69, 103, 137, 171, 205, 239, 1, 35, 69, 103, 137, 171, 205, 239, 1, 35, 69, 103, 137, 171, 205, 239, 1, 35, 69, 103, 137, 171, 205, 239, 1, 35, 69, 103, 136, 171, 211, 103, 228, 35, 69, 135, 182, 119, 205, 211, 1, 113, 253, 249, 182, 171, 205, 159, 66, 35, 69, 29, 205, 233, 172, 130, 99, 86, 101, 43, 232, 201, 205, 239, 1, 35, 69, 103, 137, 171, 205, 239, 1, 35, 69, 103, 137, 171, 205, 239, 1, 35, 69, 103, 137, 233, 172, 130, 99, 86, 101, 55, 197, 234, 237, 162, 96, 87, 49, 2, 137, 171, 205, 239, 1, 35, 69, 103, 137, 171, 205, 239, 1, 35, 69, 103, 137, 171, 205, 239, 1, 35, 69, 103, 137, 171, 205, 239, 1, 35, 69, 103, 137, 171, 205, 239, 1, 35, 69, 103, 137, 171, 205, 239, 1, 35, 69, 103, 137, 171, 205, 239, 1, 35, 69, 103, 203, 231, 252, 221, 50, 23, 112, 81, 190, 147, 205, 239, 1, 35, 69, 103, 137, 171, 205, 239, 1, 35, 69, 103, 137, 171, 205, 239, 1, 35, 69, 103, 137, 30, 53, 143, 1, 35, 69, 103, 137, 171, 205, 239, 1, 35, 69, 103, 137, 171, 205, 239, 1, 35, 69, 103, 137, 171, 205, 239, 1, 35, 69, 103, 137, 171, 205, 239, 1, 35, 69, 103, 137, 171, 205, 239, 1, 35, 69, 103, 137, 171, 205, 239, 1, 35, 69, 103, 137, 171, 205, 239, 1, 35, 69, 103, 137, 171, 205, 239, 1, 35, 69, 103, 137, 171, 205, 239, 1, 35, 69, 103, 137, 171, 205, 239, 1, 35, 69, 103, 137, 171, 205, 239, 1, 35, 69, 103, 137, 171, 205, 239, 1, 35, 69, 103, 137, 171, 205, 239, 1, 35, 69, 103, 137, 171, 205, 239, 1, 35, 69, 103, 137, 171, 205, 239, 1, 35, 69, 103, 137, 171, 205, 239, 1, 35, 69, 103, 137, 171, 205, 239, 1, 35, 69, 103, 137, 171, 205, 239, 1, 35, 69, 103, 137, 171, 205, 239, 1, 35, 69, 103, 137, 171, 205, 239, 1, 35, 69, 103, 137, 171, 205, 239, 1, 35, 69, 103, 137, 171, 205, 239, 1, 35, 69, 103, 137, 171, 205, 239, 1, 35, 69, 103, 137, 171, 205, 239, 1, 35, 69, 103, 137, 171, 205, 239, 1, 35, 69, 103, 137, 171, 205, 239, 1, 35, 69, 103, 137, 171, 205, 239, 1, 35, 69, 103, 23, 212, 50, 151, 1, 35, 69, 103, 137, 171, 205, 239, 1, 35, 69, 103, 137, 171, 205, 239, 1, 35, 69, 103, 137, 171, 205, 239, 1, 35, 69, 103, 137, 171, 205, 239, 1, 35, 69, 103, 137, 171, 205, 239, 1, 35, 69, 103, 137, 171, 205, 239, 1, 35, 69, 103, 137, 171, 205, 239, 1, 35, 69, 103, 137, 171, 205, 239, 1, 35, 69, 103, 137, 171, 205, 239, 1, 35, 69, 103, 137, 171, 205, 239, 1, 35, 69, 103, 137, 171, 205, 239, 1, 35, 69, 103, 137, 171, 205, 239, 1, 35, 69, 103, 137, 171, 205, 239, 1, 35, 69, 103, 137, 171, 205, 239, 1, 35, 69, 103, 137, 171, 205, 239, 1, 35, 69, 103, 137, 171, 205, 239, 1, 35, 69, 103, 137, 171, 205, 239, 1, 35, 69, 103, 137, 171, 205, 239, 1, 35, 69, 103, 137, 171, 205, 239, 1, 35, 69, 103, 137, 171, 205, 239, 1, 35, 69, 103, 137, 171, 205, 239, 1, 35, 69, 103, 137, 171, 205, 239, 1, 35, 69, 103, 137, 171, 205, 239, 1, 35, 69, 103, 137, 171, 205, 239, 1, 35, 69, 103, 137, 171, 205, 239, 1, 35, 69, 103, 137, 171, 205, 239, 1, 35, 69, 103, 137, 171, 205, 239, 1, 35, 69, 103, 137, 171, 205, 239, 1, 35, 69, 103, 137, 171, 205, 239, 1, 35, 69, 103, 137, 171, 205, 239, 1, 35, 69, 103, 137, 171, 205, 239, 1, 35, 69, 103, 137, 171, 205, 239, 1, 35, 69, 103, 137, 171, 205, 239, 1, 35, 69, 103, 137, 171, 205, 239, 1, 35, 69, 103, 137, 171, 205, 239, 1, 35, 69, 103, 137, 171, 205, 239, 1, 35, 69, 103, 137, 171, 205, 239, 1, 35, 69, 103, 137, 171, 205, 239, 1, 35, 69, 103, 137, 171, 205, 239, 1, 35, 69, 103, 137, 171, 205, 239, 1, 35, 69, 103, 137, 171, 205, 239, 1, 35, 69, 103, 137, 171, 205, 239, 1, 35, 69, 103, 137, 171, 205, 239, 1, 35, 69, 103, 137, 171, 205, 239, 1, 35, 69, 103, 137, 171, 205, 239, 1, 35, 69, 103, 137, 171, 205, 239, 1, 35, 69, 103, 137, 171, 205, 239, 1, 35, 69, 103, 137, 171, 205, 239, 1, 35, 69, 103, 137, 171, 205, 239, 1, 35, 69, 103, 137, 171, 205, 239, 1, 35, 69, 103, 137, 171, 205, 239, 1, 35, 69, 103, 137, 171, 205, 239, 1, 35, 69, 103, 137, 171, 205, 239, 1, 35, 69, 103, 137, 171, 205, 239, 1, 35, 69, 103, 137, 171, 205, 239, 1, 35, 69, 103, 137, 171, 205, 239, 1, 35, 69, 103, 137, 171, 205, 239, 1, 35, 69, 103, 137, 171, 205, 239, 1, 35, 69, 103, 137, 171, 205, 239, 1, 35, 69, 103, 137, 171, 205, 239, 1, 35, 69, 103, 137, 171, 205, 239, 1, 35, 69, 103, 137, 171, 205, 239, 1, 35, 69, 103, 137, 171, 205, 239, 1, 35, 69, 103] = .ok none := by
    unfold decode_tag_data
    rw [if_neg (by decide : ¬(([170, 85, 204, 51, 0, 35, 69, 103, 137, 171, 205, 239, 1, 35, 69, 103, 137, 171, 205, 239, 1, 35, 69, 103, 137, 171, 205, 239, 1, 35, 69, 103, 137, 171, 205, 239, 1, 35, 69, 103, 137, 171, 205, 239, 1, 35, 69, 103, 137, 171, 205, 239, 1, 35, 69, 103, 137, 171, 205, 239, 1, 35, 69, 103, 137, 171, 205, 239, 1, 35, 69, 103, 137, 171, 205, 239, 1, 35, 69, 103, 137, 171, 205, 239, 1, 35, 69, 103, 137, 171, 205, 239, 1, 35, 69, 103, 137, 171, 205, 239, 1, 35, 69, 103, 137, 171, 205, 239, 1, 35, 69, 103, 137, 171, 205, 239, 1, 35, 69, 103, 137, 171, 205, 239, 1, 35, 69, 103, 136, 171, 211, 103, 228, 35, 69, 135, 182, 119, 205, 211, 1, 113, 253, 249, 182, 171, 205, 159, 66, 35, 69, 29, 205, 233, 172, 130, 99, 86, 101, 43, 232, 201, 205, 239, 1, 35, 69, 103, 137, 171, 205, 239, 1, 35, 69, 103, 137, 171, 205, 239, 1, 35, 69, 103, 137, 233, 172, 130, 99, 86, 101, 55, 197, 234, 237, 162, 96, 87, 49, 2, 137, 171, 205, 239, 1, 35, 69, 103, 137, 171, 205, 239, 1, 35, 69, 103, 137, 171, 205, 239, 1, 35, 69, 103, 137, 171, 205, 239, 1, 35, 69, 103, 137, 171, 205, 239, 1, 35, 69, 103, 137, 171, 205, 239, 1, 35, 69, 103, 137, 171, 205, 239, 1, 35, 69, 103, 203, 231, 252, 221, 50, 23, 112, 81, 190, 147, 205, 239, 1, 35, 69, 103, 137, 171, 205, 239, 1, 35, 69, 103, 137, 171, 205, 239, 1, 35, 69, 103, 137, 30, 53, 143, 1, 35, 69, 103, 137, 171, 205, 239, 1, 35, 69, 103, 137, 171, 205, 239, 1, 35, 69, 103, 137, 171, 205, 239, 1, 35, 69, 103, 137, 171, 205, 239, 1, 35, 69, 103, 137, 171, 205, 239, 1, 35, 69, 103, 137, 171, 205, 239, 1, 35, 69, 103, 137, 171, 205, 239, 1, 35, 69, 103, 137, 171, 205, 239, 1, 35, 69, 103, 137, 171, 205, 239, 1, 35, 69, 103, 137, 171, 205, 239, 1, 35, 69, 103, 137, 171, 205, 239, 1, 35, 69, 103, 137, 171, 205, 239, 1, 35, 69, 103, 137, 171, 205, 239, 1, 35, 69, 103, 137, 171, 205, 239, 1, 35, 69, 103, 137, 171, 205, 239, 1, 35, 69, 103, 137, 171, 205, 239, 1, 35, 69, 103, 137, 171, 205, 239, 1, 35, 69, 103, 137, 171, 205, 239, 1, 35, 69, 103, 137, 171, 205, 239, 1, 35, 69, 103, 137, 171, 205, 239, 1, 35, 69, 103, 137, 171, 205, 239, 1, 35, 69, 103, 137, 171, 205, 239, 1, 35, 69, 103, 137, 171, 205, 239, 1, 35, 69, 103, 137, 171, 205, 239, 1, 35, 69, 103, 137, 171, 205, 239, 1, 35, 69, 103, 137, 171, 205, 239, 1, 35, 69, 103, 137, 171, 205, 239, 1, 35, 69, 103, 23, 212, 50, 151, 1, 35, 69, 103, 137, 171, 205, 239, 1, 35, 69, 103, 137, 171, 205, 239, 1, 35, 69, 103, 137, 171, 205, 239, 1, 35, 69, 103, 137, 171, 205, 239, 1, 35, 69, 103, 137, 171, 205, 239, 1, 35, 69, 103, 137, 171, 205, 239, 1, 35, 69, 103, 137, 171, 205, 239, 1, 35, 69, 103, 137, 171, 205, 239, 1, 35, 69, 103, 137, 171, 205, 239, 1, 35, 69, 103, 137, 171, 205, 239, 1, 35, 69, 103, 137, 171, 205, 239, 1, 35, 69, 103, 137, 171, 205, 239, 1, 35, 69, 103, 137, 171, 205, 239, 1, 35, 69, 103, 137, 171, 205, 239, 1, 35, 69, 103, 137, 171, 205, 239, 1, 35, 69, 103, 137, 171, 205, 239, 1, 35, 69, 103, 137, 171, 205, 239, 1, 35, 69, 103, 137, 171, 205, 239, 1, 35, 69, 103, 137, 171, 205, 239, 1, 35, 69, 103, 137, 171, 205, 239, 1, 35, 69, 103, 137, 171, 205, 239, 1, 35, 69, 103, 137, 171, 205, 239, 1, 35, 69, 103, 137, 171, 205, 239, 1, 35, 69, 103, 137, 171, 205, 239, 1, 35, 69, 103, 137, 171, 205, 239, 1, 35, 69, 103, 137, 171, 205, 239, 1, 35, 69, 103, 137, 171, 205, 239, 1, 35, 69, 103, 137, 171, 205, 239, 1, 35, 69, 103, 137, 171, 205, 239, 1, 35, 69, 103, 137, 171, 205, 239, 1, 35, 69, 103, 137, 171, 205, 239, 1, 35, 69, 103, 137, 171, 205, 239, 1, 35, 69, 103, 137, 171, 205, 239, 1, 35, 69, 103, 137, 171, 205, 239, 1, 35, 69, 103, 137, 171, 205, 239, 1, 35, 69, 103, 137, 171, 205, 239, 1, 35, 69, 103, 137, 171, 205, 239, 1, 35, 69, 103, 137, 171, 205, 239, 1, 35, 69, 103, 137, 171, 205, 239, 1, 35, 69, 103, 137, 171, 205, 239, 1, 35, 69, 103, 137, 171, 205, 239, 1, 35, 69, 103, 137, 171, 205, 239, 1, 35, 69, 103, 137, 171, 205, 239, 1, 35, 69, 103, 137, 171, 205, 239, 1, 35, 69, 103, 137, 171, 205, 239, 1, 35, 69, 103, 137, 171, 205, 239, 1, 35, 69, 103, 137, 171, 205, 239, 1, 35, 69, 103, 137, 171, 205, 239, 1, 35, 69, 103, 137, 171, 205, 239, 1, 35, 69, 103, 137, 171, 205, 239, 1, 35, 69, 103, 137, 171, 205, 239, 1, 35, 69, 103, 137, 171, 205, 239, 1, 35, 69, 103, 137, 171, 205, 239, 1, 35, 69, 103, 137, 171, 205, 239, 1, 35, 69, 103, 137, 171, 205, 239, 1, 35, 69, 103, 137, 171, 205, 239, 1, 35, 69, 103, 137, 171, 205, 239, 1, 35, 69, 103, 137, 171, 205, 239, 1, 35, 69, 103, 137, 171, 205, 239, 1, 35, 69, 103, 137, 171, 205, 239, 1, 35, 69, 103, 137, 171, 205, 239, 1, 35, 69, 103, 137, 171, 205, 239, 1, 35, 69, 103, 137, 171, 205, 239, 1, 35, 69, 103] : List Nat).length < 512)),
      if_pos (by decide : verify_header [170, 85, 204, 51, 0, 35, 69, 103, 137, 171, 205, 239, 1, 35, 69, 103, 137, 171, 205, 239, 1, 35, 69, 103, 137, 171, 205, 239, 1, 35, 69, 103, 137, 171, 205, 239, 1, 35, 69, 103, 137, 171, 205, 239, 1, 35, 69, 103, 137, 171, 205, 239, 1, 35, 69, 103, 137, 171, 205, 239, 1, 35, 69, 103, 137, 171, 205, 239, 1, 35, 69, 103, 137, 171, 205, 239, 1, 35, 69, 103, 137, 171, 205, 239, 1, 35, 69, 103, 137, 171, 205, 239, 1, 35, 69, 103, 137, 171, 205, 239, 1, 35, 69, 103, 137, 171, 205, 239, 1, 35, 69, 103, 137, 171, 205, 239, 1, 35, 69, 103, 137, 171, 205, 239, 1, 35, 69, 103, 136, 171, 211, 103, 228, 35, 69, 135, 182, 119, 205, 211, 1, 113, 253, 249, 182, 171, 205, 159, 66, 35, 69, 29, 205, 233, 172, 130, 99, 86, 101, 43, 232, 201, 205, 239, 1, 35, 69, 103, 137, 171, 205, 239, 1, 35, 69, 103, 137, 171, 205, 239, 1, 35, 69, 103, 137, 233, 172, 130, 99, 86, 101, 55, 197, 234, 237, 162, 96, 87, 49, 2, 137, 171, 205, 239, 1, 35, 69, 103, 137, 171, 205, 239, 1, 35, 69, 103, 137, 171, 205, 239, 1, 35, 69, 103, 137, 171, 205, 239, 1, 35, 69, 103, 137, 171, 205, 239, 1, 35, 69, 103, 137, 171, 205, 239, 1, 35, 69, 103, 137, 171, 205, 239, 1, 35, 69, 103, 203, 231, 252, 221, 50, 23, 112, 81, 190, 147, 205, 239, 1, 35, 69, 103, 137, 171, 205, 239, 1, 35, 69, 103, 137, 171, 205, 239, 1, 35, 69, 103, 137, 30, 53, 143, 1, 35, 69, 103, 137, 171, 205, 239, 1, 35, 69, 103, 137, 171, 205, 239, 1, 35, 69, 103, 137, 171, 205, 239, 1, 35, 69, 103, 137, 171, 205, 239, 1, 35, 69, 103, 137, 171, 205, 239, 1, 35, 69, 103, 137, 171, 205, 239, 1, 35, 69, 103, 137, 171, 205, 239, 1, 35, 69, 103, 137, 171, 205, 239, 1, 35, 69, 103, 137, 171, 205, 239, 1, 35, 69, 103, 137, 171, 205, 239, 1, 35, 69, 103, 137, 171, 205, 239, 1, 35, 69, 103, 137, 171, 205, 239, 1, 35, 69, 103, 137, 171, 205, 239, 1, 35, 69, 103, 137, 171, 205, 239, 1, 35, 69, 103, 137, 171, 205, 239, 1, 35, 69, 103, 137, 171, 205, 239, 1, 35, 69, 103, 137, 171, 205, 239, 1, 35, 69, 103, 137, 171, 205, 239, 1, 35, 69, 103, 137, 171, 205, 239, 1, 35, 69, 103, 137, 171, 205, 239, 1, 35, 69, 103, 137, 171, 205, 239, 1, 35, 69, 103, 137, 171, 205, 239, 1, 35, 69, 103, 137, 171, 205, 239, 1, 35, 69, 103, 137, 171, 205, 239, 1, 35, 69, 103, 137, 171, 205, 239, 1, 35, 69, 103, 137, 171, 205, 239, 1, 35, 69, 103, 137, 171, 205, 239, 1, 35, 69, 103, 23, 212, 50, 151, 1, 35, 69, 103, 137, 171, 205, 239, 1, 35, 69, 103, 137, 171, 205, 239, 1, 35, 69, 103, 137, 171, 205, 239, 1, 35, 69, 103, 137, 171, 205, 239, 1, 35, 69, 103, 137, 171, 205, 239, 1, 35, 69, 103, 137, 171, 205, 239, 1, 35, 69, 103, 137, 171, 205, 239, 1, 35, 69, 103, 137, 171, 205, 239, 1, 35, 69, 103, 137, 171, 205, 239, 1, 35, 69, 103, 137, 171, 205, 239, 1, 35, 69, 103, 137, 171, 205, 239, 1, 35, 69, 103, 137, 171, 205, 239, 1, 35, 69, 103, 137, 171, 205, 239, 1, 35, 69, 103, 137, 171, 205, 239, 1, 35, 69, 103, 137, 171, 205, 239, 1, 35, 69, 103, 137, 171, 205, 239, 1, 35, 69, 103, 137, 171, 205, 239, 1, 35, 69, 103, 137, 171, 205, 239, 1, 35, 69, 103, 137, 171, 205, 239, 1, 35, 69, 103, 137, 171, 205, 239, 1, 35, 69, 103, 137, 171, 205, 239, 1, 35, 69, 103, 137, 171, 205, 239, 1, 35, 69, 103, 137, 171, 205, 239, 1, 35, 69, 103, 137, 171, 205, 239, 1, 35, 69, 103, 137, 171, 205, 239, 1, 35, 69, 103, 137, 171, 205, 239, 1, 35, 69, 103, 137, 171, 205, 239, 1, 35, 69, 103, 137, 171, 205, 239, 1, 35, 69, 103, 137, 171, 205, 239, 1, 35, 69, 103, 137, 171, 205, 239, 1, 35, 69, 103, 137, 171, 205, 239, 1, 35, 69, 103, 137, 171, 205, 239, 1, 35, 69, 103, 137, 171, 205, 239, 1, 35, 69, 103, 137, 171, 205, 239, 1, 35, 69, 103, 137, 171, 205, 239, 1, 35, 69, 103, 137, 171, 205, 239, 1, 35, 69, 103, 137, 171, 205, 239, 1, 35, 69, 103, 137, 171, 205, 239, 1, 35, 69, 103, 137, 171, 205, 239, 1, 35, 69, 103, 137, 171, 205, 239, 1, 35, 69, 103, 137, 171, 205, 239, 1, 35, 69, 103, 137, 171, 205, 239, 1, 35, 69, 103, 137, 171, 205, 239, 1, 35, 69, 103, 137, 171, 205, 239, 1, 35, 69, 103, 137, 171, 205, 239, 1, 35, 69, 103, 137, 171, 205, 239, 1, 35, 69, 103, 137, 171, 205, 239, 1, 35, 69, 103, 137, 171, 205, 239, 1, 35, 69, 103, 137, 171, 205, 239, 1, 35, 69, 103, 137, 171, 205, 239, 1, 35, 69, 103, 137, 171, 205, 239, 1, 35, 69, 103, 137, 171, 205, 239, 1, 35, 69, 103, 137, 171, 205, 239, 1, 35, 69, 103, 137, 171, 205, 239, 1, 35, 69, 103, 137, 171, 205, 239, 1, 35, 69, 103, 137, 171, 205, 239, 1, 35, 69, 103, 137, 171, 205, 239, 1, 35, 69, 103, 137, 171, 205, 239, 1, 35, 69, 103, 137, 171, 205, 239, 1, 35, 69, 103, 137, 171, 205, 239, 1, 35, 69, 103, 137, 171, 205, 239, 1, 35, 69, 103, 137, 171, 205, 239, 1, 35, 69, 103, 137, 171, 205, 239, 1, 35, 69, 103] = true)]
    simp only [hdhk, hvhk]
  refine ⟨⟨by decide, by decide⟩, ⟨_, henc, ?_, ?_⟩⟩
  · show decode_tag_data (derive_bambu_key_fallback default_uid) _ = .ok none
    rw [hkfb]; exact hdecfb
  · show decode_tag_data (derive_bambu_key_hkdf default_uid) _ = .ok none
    rw [hkhk]; exact hdechk

/-! ## `decoder.py`: the payload normalizer `NFCPayloadDecoder`

Python values reaching `decode_payload` are modelled by `PyVal`;
the `NFCDecodingError` the class raises is `PyErr.decodingError`.
Documented modelling simplifications (none of the verified statements
depends on them): the decimal spelling `str()`/`repr()` gives a float is
not reproduced digit-for-digit (`pyFloatStr` uses an exact spelling of
the rational value); `float(str)` yields the exact rational value of the
accepted literal (binary64 rounding and digit-group underscores are not
modelled); `str.strip` strips ASCII whitespace; `bytes.fromhex` accepts
exactly pairs of hex digits (spaces were already removed by the caller's
`replace`). -/

mutual
/-- A Python value as it can appear in an NFC payload (the argument of
`decode_payload` or a value inside a payload dictionary).  Lists and
dictionaries nest through the mutual types `PyValList` and `PyAssoc`
(an association list, standing for a Python dict — its keys are kept
distinct). -/
inductive PyVal where
  | none
  | bool (b : Bool)
  | int (n : ℤ)
  | float (f : PyFloat)
  | str (s : String)
  | bytes (bs : List Nat)
  | list (l : PyValList)
  | dict (d : PyAssoc)
  | set (l : PyValList)

inductive PyValList where
  | nil
  | cons (v : PyVal) (tl : PyValList)

inductive PyAssoc where
  | nil
  | cons (k : String) (v : PyVal) (tl : PyAssoc)
end

/-- `len(payload)` of a dict. -/
def PyAssoc.length : PyAssoc → Nat
  | .nil => 0
  | .cons _ _ tl => tl.length + 1

/-- `payload.get(key)` on a key-distinct association list. -/
def PyAssoc.lookup : PyAssoc → String → Option PyVal
  | .nil, _ => Option.none
  | .cons k v tl, key => if k == key then some v else tl.lookup key

/-- Remove a key (used to keep JSON objects key-distinct, a repeated
key keeping its last value as Python dict building does). -/
def PyAssoc.eraseKey : PyAssoc → String → PyAssoc
  | .nil, _ => .nil
  | .cons k v tl, key => if k == key then tl.eraseKey key else .cons k v (tl.eraseKey key)

/-- Append one binding at the end. -/
def PyAssoc.push : PyAssoc → String → PyVal → PyAssoc
  | .nil, k, v => .cons k v .nil
  | .cons k0 v0 tl, k, v => .cons k0 v0 (tl.push k v)

/-- Append one element at the end. -/
def PyValList.push : PyValList → PyVal → PyValList
  | .nil, v => .cons v .nil
  | .cons v0 tl, v => .cons v0 (tl.push v)

/-- A value of the result dictionary: `_validate_field` returns a `str`,
an `int` or a `float`, and `DEFAULT_VALUES` holds only such values. -/
inductive NVal where
  | str (s : String)
  | int (n : ℤ)
  | float (f : PyFloat)
  deriving DecidableEq, Repr

/-- The ten keys of `EXPECTED_FIELDS`. -/
inductive NField where
  | name
  | type
  | color
  | manufacturer
  | density
  | diameter
  | nozzle_temp
  | bed_temp
  | remaining_length
  | remaining_weight
  deriving DecidableEq, Repr

/-- The dictionary key of a field. -/
def fieldKey : NField → String
  | .name => "name"
  | .type => "type"
  | .color => "color"
  | .manufacturer => "manufacturer"
  | .density => "density"
  | .diameter => "diameter"
  | .nozzle_temp => "nozzle_temp"
  | .bed_temp => "bed_temp"
  | .remaining_length => "remaining_length"
  | .remaining_weight => "remaining_weight"

/-- A field's entry in `EXPECTED_FIELDS`: expected type with `max_length`
resp. `min`/`max`. -/
inductive FKind where
  | str (maxLength : Nat)
  | int (lo hi : ℤ)
  | float (lo hi : ℚ)

/-- `EXPECTED_FIELDS`. -/
def fieldSpec : NField → FKind
  | .name => .str 64
  | .type => .str 16
  | .color => .str 7
  | .manufacturer => .str 32
  | .density => .float (1/2) 5
  | .diameter => .float 1 3
  | .nozzle_temp => .int 150 350
  | .bed_temp => .int 0 150
  | .remaining_length => .float 0 10000
  | .remaining_weight => .float 0 5000

/-- `DEFAULT_VALUES` (`1.24` and `1.75` are float literals, `0` an int −
the type difference matters for the `!=` comparison counting valid
fields). -/
def defaultVal : NField → NVal
  | .name => .str "Unknown Filament"
  | .type => .str "PLA"
  | .color => .str "#FFFFFF"
  | .manufacturer => .str "Unknown"
  | .density => .float (.finite (124/100))
  | .diameter => .float (.finite (175/100))
  | .nozzle_temp => .int 200
  | .bed_temp => .int 60
  | .remaining_length => .int 0
  | .remaining_weight => .int 0

/-- The ten fields, in the order `EXPECTED_FIELDS` lists them. -/
def allFields : List NField :=
  [.name, .type, .color, .manufacturer, .density, .diameter,
   .nozzle_temp, .bed_temp, .remaining_length, .remaining_weight]

/-- Python `==` on result values: numbers compare by value across
`int`/`float` (`0 == 0.0`), `nan` is unequal to everything including
itself, strings compare to strings only. -/
def nvalEq : NVal → NVal → Bool
  | .str a, .str b => a == b
  | .int a, .int b => a == b
  | .int a, .float (.finite q) => (a : ℚ) == q
  | .float (.finite q), .int b => q == (b : ℚ)
  | .float (.finite x), .float (.finite y) => x == y
  | .float .inf, .float .inf => true
  | .float .ninf, .float .ninf => true
  | _, _ => false

/-- ASCII whitespace in the sense of `str.strip()`. -/
def isPySpace (c : Char) : Bool :=
  c == ' ' || c == '\t' || c == '\n' || c == '\r' || c == '\x0b' || c == '\x0c'

/-- `str.strip()`. -/
def pyStrip (s : String) : String :=
  String.mk (((s.toList.dropWhile isPySpace).reverse.dropWhile isPySpace).reverse)

/-- Lower-case hexadecimal digit. -/
def low_hex (n : Nat) : Char := "0123456789abcdef".toList.getD n '0'

/-- The spelling of a float under `str()`/`repr()` (documented
simplification: an exact decimal/rational spelling, not CPython's
shortest-roundtrip digits). -/
def pyFloatStr : PyFloat → String
  | .nan => "nan"
  | .inf => "inf"
  | .ninf => "-inf"
  | .finite q => if q.den = 1 then toString q.num ++ ".0" else toString q

/-- `repr()` of a string (simplified to single quotes with `\'` and `\\`
escapes). -/
def pyReprStr (s : String) : String :=
  "'" ++ String.join (s.toList.map fun c =>
    if c = '\'' then "\\'" else if c = '\\' then "\\\\" else String.singleton c) ++ "'"

/-- One byte inside `repr()` of a bytes object. -/
def pyByteEsc (b : Nat) : String :=
  if b = 92 then "\\\\"
  else if b = 39 then "\\'"
  else if b = 9 then "\\t"
  else if b = 10 then "\\n"
  else if b = 13 then "\\r"
  else if 32 ≤ b ∧ b < 127 then String.singleton (Char.ofNat b)
  else "\\x" ++ String.singleton (low_hex (b / 16 % 16)) ++ String.singleton (low_hex (b % 16))

mutual
/-- `repr()` of a Python value (spelling of floats and of exotic string
escapes simplified, as documented above). -/
def pyRepr : PyVal → String
  | .none => "None"
  | .bool b => if b then "True" else "False"
  | .int n => toString n
  | .float f => pyFloatStr f
  | .str s => pyReprStr s
  | .bytes bs => "b'" ++ String.join (bs.map pyByteEsc) ++ "'"
  | .list l => "[" ++ pyReprList l ++ "]"
  | .dict d => "\x7b" ++ pyReprAssoc d ++ "\x7d"
  | .set .nil => "set()"
  | .set l => "\x7b" ++ pyReprList l ++ "\x7d"

/-- Comma-separated `repr`s of the elements. -/
def pyReprList : PyValList → String
  | .nil => ""
  | .cons v .nil => pyRepr v
  | .cons v tl => pyRepr v ++ ", " ++ pyReprList tl

/-- Comma-separated `repr(key): repr(value)` pairs. -/
def pyReprAssoc : PyAssoc → String
  | .nil => ""
  | .cons k v .nil => pyReprStr k ++ ": " ++ pyRepr v
  | .cons k v tl => pyReprStr k ++ ": " ++ pyRepr v ++ ", " ++ pyReprAssoc tl
end

/-- `str(value)` (identity on strings, `repr` otherwise, as Python's
`str()` behaves on these values). -/
def strOfPyVal : PyVal → String
  | .str s => s
  | v => pyRepr v

/-- Consume a run of decimal digits: value, digit count, rest. -/
def takeDigits (cs : List Char) : Nat × Nat × List Char :=
  let ds := cs.takeWhile Char.isDigit
  (ds.foldl (fun a c => 10 * a + (c.toNat - 48)) 0, ds.length, cs.dropWhile Char.isDigit)

/-- Lower-case an ASCII letter. -/
def asciiLower (c : Char) : Char :=
  if 'A' ≤ c ∧ c ≤ 'Z' then Char.ofNat (c.toNat + 32) else c

/-- `float(str)`: strip, optional sign, then `inf`/`infinity`/`nan`
(case-insensitive) or a decimal literal with optional fraction and
exponent; anything else raises `ValueError`. -/
def pyParseFloat (s : String) : Except PyErr PyFloat :=
  let cs := (pyStrip s).toList.map asciiLower
  let (neg, body) :=
    match cs with
    | '+' :: rest => (false, rest)
    | '-' :: rest => (true, rest)
    | rest => (false, rest)
  if body = ['i', 'n', 'f'] ∨ body = ['i', 'n', 'f', 'i', 'n', 'i', 't', 'y'] then
    .ok (if neg then PyFloat.ninf else PyFloat.inf)
  else if body = ['n', 'a', 'n'] then .ok PyFloat.nan
  else
    let (ip, ic, r1) := takeDigits body
    let (fp, fc, r2) :=
      match r1 with
      | '.' :: rest => takeDigits rest
      | _ => (0, 0, r1)
    let (eok, ev, r3) :=
      match r2 with
      | 'e' :: rest =>
        let (esn, rest2) :=
          match rest with
          | '+' :: r => (false, r)
          | '-' :: r => (true, r)
          | r => (false, r)
        let (epv, epc, r4) := takeDigits rest2
        if epc = 0 then (false, (0 : ℤ), r4)
        else (true, if esn then -(epv : ℤ) else (epv : ℤ), r4)
      | _ => (true, 0, r2)
    if 0 < ic + fc ∧ eok ∧ r3 = [] then
      .ok (.finite ((if neg then (-1 : ℚ) else 1) * ((ip : ℚ) + (fp : ℚ) / 10 ^ fc) *
        (if 0 ≤ ev then (10 : ℚ) ^ ev.toNat else 1 / (10 : ℚ) ^ (-ev).toNat)))
    else .error .valueError

/-- `float(value)`: numbers by value (`True` is `1`), strings and ASCII
bytes by parsing, everything else a `TypeError`. -/
def pyFloatOfVal : PyVal → Except PyErr PyFloat
  | .bool b => .ok (.finite (if b then 1 else 0))
  | .int n => .ok (.finite (n : ℚ))
  | .float f => .ok f
  | .str s => pyParseFloat s
  | .bytes bs =>
    if bs.all (· < 128) then pyParseFloat (String.mk (bs.map Char.ofNat))
    else .error .valueError
  | _ => .error .typeError

/-- `int(float)`: truncation toward zero; `ValueError` on `nan`,
`OverflowError` on `±inf`. -/
def int_of_pyfloat : PyFloat → Except PyErr ℤ
  | .finite q => .ok (q.num.tdiv q.den)
  | .nan => .error .valueError
  | .inf => .error .overflowError
  | .ninf => .error .overflowError

/-- `value is None`. -/
def isNoneV : PyVal → Bool
  | .none => true
  | _ => false

/-- `_validate_field` on a `str` field: `str(value)` truncated to
`max_length` code points (truncation never fails). -/
def validateStr (m : Nat) (v : PyVal) : Except PyErr NVal :=
  .ok (.str (String.mk ((strOfPyVal v).toList.take m)))

/-- `_validate_field` on an `int` field: `int(float(value))` (truncation
toward zero), then the range check.  `float(value)` failures and
`int(nan)`'s `ValueError` are caught by the inner
`except (ValueError, TypeError)`; `int(±inf)` raises `OverflowError`,
which that handler does not catch. -/
def validateInt (lo hi : ℤ) (v : PyVal) : Except PyErr NVal :=
  match pyFloatOfVal v with
  | .error _ => .error .valueError
  | .ok .nan => .error .valueError
  | .ok .inf => .error .overflowError
  | .ok .ninf => .error .overflowError
  | .ok (.finite q) =>
    if lo ≤ q.num.tdiv q.den ∧ q.num.tdiv q.den ≤ hi then .ok (.int (q.num.tdiv q.den))
    else .error .valueError

/-- `_validate_field` on a `float` field: `float(value)`, rejection of
`nan`/`±inf`, then the range check. -/
def validateFloat (lo hi : ℚ) (v : PyVal) : Except PyErr NVal :=
  match pyFloatOfVal v with
  | .error _ => .error .valueError
  | .ok (.finite q) =>
    if lo ≤ q ∧ q ≤ hi then .ok (.float (.finite q)) else .error .valueError
  | .ok _ => .error .valueError

/-- `_validate_field`: `None` raises `ValueError`, otherwise the field's
expected type drives conversion and validation. -/
def validateF (f : NField) (v : PyVal) : Except PyErr NVal :=
  if isNoneV v then .error .valueError
  else
    match fieldSpec f with
    | .str m => validateStr m v
    | .int lo hi => validateInt lo hi v
    | .float lo hi => validateFloat lo hi v

/-- `payload.get(key)` (a Python dict has distinct keys; the JSON parser
below keeps its association lists key-distinct). -/
def dictGet (d : PyAssoc) (k : String) : Option PyVal := d.lookup k

/-- The result value of one field on the dictionary path: the validated
value, or the documented default when the key is absent (`get` returns
`None`, which `_validate_field` rejects) or validation raised. -/
def resField (d : PyAssoc) (f : NField) : NVal :=
  match validateF f ((dictGet d (fieldKey f)).getD PyVal.none) with
  | .ok nv => nv
  | .error _ => defaultVal f

/-- The result dictionary (its ten fixed keys as a structure). -/
structure NormRec where
  name : NVal
  type : NVal
  color : NVal
  manufacturer : NVal
  density : NVal
  diameter : NVal
  nozzle_temp : NVal
  bed_temp : NVal
  remaining_length : NVal
  remaining_weight : NVal
  deriving DecidableEq, Repr

/-- Build a result record from a per-field assignment. -/
def mkNormRec (g : NField → NVal) : NormRec :=
  { name := g .name
    type := g .type
    color := g .color
    manufacturer := g .manufacturer
    density := g .density
    diameter := g .diameter
    nozzle_temp := g .nozzle_temp
    bed_temp := g .bed_temp
    remaining_length := g .remaining_length
    remaining_weight := g .remaining_weight }

/-- Read a field of a result record. -/
def recField (r : NormRec) : NField → NVal
  | .name => r.name
  | .type => r.type
  | .color => r.color
  | .manufacturer => r.manufacturer
  | .density => r.density
  | .diameter => r.diameter
  | .nozzle_temp => r.nozzle_temp
  | .bed_temp => r.bed_temp
  | .remaining_length => r.remaining_length
  | .remaining_weight => r.remaining_weight

/-- The all-defaults record. -/
def defaultRec : NormRec := mkNormRec defaultVal

/-- `valid_fields`: how many result values differ (Python `!=`) from
their documented default. -/
def validFieldCount (d : PyAssoc) : Nat :=
  (allFields.filter fun f => !(nvalEq (resField d f) (defaultVal f))).length

/-- `key in EXPECTED_FIELDS`. -/
def knownKey (k : String) : Bool := allFields.any fun f => fieldKey f == k

/-- `len([k for k in payload.keys() if k in EXPECTED_FIELDS])`. -/
def providedKnownCount : PyAssoc → Nat
  | .nil => 0
  | .cons k _ tl => (if knownKey k then 1 else 0) + providedKnownCount tl

/-- `_decode_dict_payload`: every field validated-or-defaulted, then the
whole decode fails only when no result differs from its default, the
payload is non-empty and it supplied at least one known key. -/
def dictDecode (d : PyAssoc) : Except PyErr NormRec :=
  if validFieldCount d = 0 ∧ 0 < d.length ∧ 0 < providedKnownCount d then
    .error .decodingError
  else .ok (mkNormRec (resField d))

/-- `_decode_dict_payload` applied to a decoded JSON value: a non-dict
raises `NFCDecodingError("Payload is not a dictionary")`. -/
def dictDecodeVal : PyVal → Except PyErr NormRec
  | .dict d => dictDecode d
  | _ => .error .decodingError

/-! ### `json.loads` -/

/-- JSON whitespace. -/
def jsonSpace (c : Char) : Bool := c == ' ' || c == '\t' || c == '\n' || c == '\r'

/-- Skip JSON whitespace. -/
def jws (cs : List Char) : List Char := cs.dropWhile jsonSpace

/-- Four hex digits of a `\u` escape. -/
def hexQuad (a b c d : Char) : Option Nat := do
  let x1 ← hex_digit_val a
  let x2 ← hex_digit_val b
  let x3 ← hex_digit_val c
  let x4 ← hex_digit_val d
  pure (4096 * x1 + 256 * x2 + 16 * x3 + x4)

/-- The body of a JSON string after the opening quote: characters up to
the closing quote with the standard escapes; a `\u` surrogate pair is
combined, a lone surrogate becomes U+FFFD (Lean strings cannot hold lone
surrogates — documented simplification); an unescaped control character
is an error. -/
def jsonStr : Nat → List Char → Option (List Char × List Char)
  | 0, _ => Option.none
  | _, [] => Option.none
  | fuel + 1, c :: rest =>
    if c = '"' then some ([], rest)
    else if c = '\\' then
      match rest with
      | [] => Option.none
      | e :: rest2 =>
        let cont := fun (ch : Char) (rs : List Char) =>
          (jsonStr fuel rs).map (fun p => (ch :: p.1, p.2))
        if e = '"' then cont '"' rest2
        else if e = '\\' then cont '\\' rest2
        else if e = '/' then cont '/' rest2
        else if e = 'b' then cont (Char.ofNat 8) rest2
        else if e = 'f' then cont (Char.ofNat 12) rest2
        else if e = 'n' then cont '\n' rest2
        else if e = 'r' then cont '\r' rest2
        else if e = 't' then cont '\t' rest2
        else if e = 'u' then
          match rest2 with
          | a :: b2 :: c2 :: d2 :: rest3 =>
            match hexQuad a b2 c2 d2 with
            | Option.none => Option.none
            | some n =>
              if 0xD800 ≤ n ∧ n ≤ 0xDBFF then
                match rest3 with
                | '\\' :: 'u' :: a2 :: b3 :: c3 :: d3 :: rest4 =>
                  match hexQuad a2 b3 c3 d3 with
                  | some m =>
                    if 0xDC00 ≤ m ∧ m ≤ 0xDFFF then
                      cont (Char.ofNat (0x10000 + (n - 0xD800) * 1024 + (m - 0xDC00))) rest4
                    else cont (Char.ofNat 0xFFFD) rest3
                  | Option.none => cont (Char.ofNat 0xFFFD) rest3
                | _ => cont (Char.ofNat 0xFFFD) rest3
              else if 0xDC00 ≤ n ∧ n ≤ 0xDFFF then cont (Char.ofNat 0xFFFD) rest3
              else cont (Char.ofNat n) rest3
          | _ => Option.none
        else Option.none
    else if c.toNat < 32 then Option.none
    else (jsonStr fuel rest).map (fun p => (c :: p.1, p.2))

/-- A JSON number: optional minus, integer part without leading zeros,
optional fraction, optional exponent.  Without fraction and exponent the
value is a Python `int`, otherwise a float (kept exact). -/
def jsonNumber (cs : List Char) : Option (PyVal × List Char) :=
  let (neg, body) :=
    match cs with
    | '-' :: rest => (true, rest)
    | rest => (false, rest)
  match body with
  | [] => Option.none
  | c :: _ =>
    if ¬ c.isDigit then Option.none
    else
      let (ip, ic, r1) := takeDigits body
      if 1 < ic ∧ c = '0' then Option.none
      else
        let (hasF, fp, fc, r2) :=
          match r1 with
          | '.' :: rest =>
            let (v, n, r) := takeDigits rest
            (true, v, n, r)
          | _ => (false, 0, 0, r1)
        if hasF ∧ fc = 0 then Option.none
        else
          let (eok, hasE, ev, r3) :=
            match r2 with
            | e :: rest =>
              if e = 'e' ∨ e = 'E' then
                let (esn, rest2) :=
                  match rest with
                  | '+' :: r => (false, r)
                  | '-' :: r => (true, r)
                  | r => (false, r)
                let (epv, epc, r4) := takeDigits rest2
                if epc = 0 then (false, true, (0 : ℤ), r4)
                else (true, true, if esn then -(epv : ℤ) else (epv : ℤ), r4)
              else (true, false, 0, r2)
            | [] => (true, false, 0, r2)
          if ¬ eok then Option.none
          else if ¬ hasF ∧ ¬ hasE then
            some (.int (if neg then -(ip : ℤ) else (ip : ℤ)), r3)
          else
            some (.float (.finite ((if neg then (-1 : ℚ) else 1) *
              ((ip : ℚ) + (fp : ℚ) / 10 ^ fc) *
              (if 0 ≤ ev then (10 : ℚ) ^ ev.toNat else 1 / (10 : ℚ) ^ (-ev).toNat))), r3)

/-- What `jsonRun` is currently parsing: a value, the elements of an
array, or the members of an object. -/
inductive JMode where
  | val
  | arr (acc : PyValList)
  | obj (acc : PyAssoc)

/-- Recursive-descent core of `json.loads` (fuelled; the caller passes
ample fuel).  Python's parser additionally accepts the constants `NaN`,
`Infinity` and `-Infinity`.  A repeated object key keeps the last value
(as `dict` building does); the association lists produced therefore have
distinct keys. -/
def jsonRun : Nat → JMode → List Char → Option (PyVal × List Char)
  | 0, _, _ => Option.none
  | fuel + 1, .val, cs =>
    match cs with
    | [] => Option.none
    | c :: rest =>
      if c = '"' then (jsonStr fuel rest).map fun p => (.str (String.mk p.1), p.2)
      else if c = '\x7b' then jsonRun fuel (.obj .nil) (jws rest)
      else if c = '[' then jsonRun fuel (.arr .nil) (jws rest)
      else if cs.take 4 = ['t', 'r', 'u', 'e'] then some (.bool true, cs.drop 4)
      else if cs.take 5 = ['f', 'a', 'l', 's', 'e'] then some (.bool false, cs.drop 5)
      else if cs.take 4 = ['n', 'u', 'l', 'l'] then some (.none, cs.drop 4)
      else if cs.take 3 = ['N', 'a', 'N'] then some (.float .nan, cs.drop 3)
      else if cs.take 8 = ['I', 'n', 'f', 'i', 'n', 'i', 't', 'y'] then
        some (.float .inf, cs.drop 8)
      else if cs.take 9 = ['-', 'I', 'n', 'f', 'i', 'n', 'i', 't', 'y'] then
        some (.float .ninf, cs.drop 9)
      else jsonNumber cs
  | fuel + 1, .arr acc, cs =>
    match cs with
    | ']' :: rest =>
      match acc with
      | .nil => some (.list .nil, rest)
      | _ => Option.none
    | _ =>
      match jsonRun fuel .val cs with
      | Option.none => Option.none
      | some (v, r1) =>
        match jws r1 with
        | ',' :: r2 => jsonRun fuel (.arr (acc.push v)) (jws r2)
        | ']' :: r2 => some (.list (acc.push v), r2)
        | _ => Option.none
  | fuel + 1, .obj acc, cs =>
    match cs with
    | '\x7d' :: rest =>
      match acc with
      | .nil => some (.dict .nil, rest)
      | _ => Option.none
    | '"' :: rest =>
      match jsonStr fuel rest with
      | Option.none => Option.none
      | some (k, r1) =>
        match jws r1 with
        | ':' :: r2 =>
          match jsonRun fuel .val (jws r2) with
          | Option.none => Option.none
          | some (v, r3) =>
            let key := String.mk k
            let acc2 := (acc.eraseKey key).push key v
            match jws r3 with
            | ',' :: r4 => jsonRun fuel (.obj acc2) (jws r4)
            | '\x7d' :: r4 => some (.dict acc2, r4)
            | _ => Option.none
        | _ => Option.none
    | _ => Option.none

/-- `json.loads`: one value, possibly surrounded by whitespace, nothing
after it. -/
def jsonParse (s : String) : Option PyVal :=
  match jsonRun (2 * s.length + 8) .val (jws s.toList) with
  | some (v, rest) => if jws rest = [] then some v else Option.none
  | Option.none => Option.none

/-! ### The string and bytes paths -/

/-- `str.replace` (all non-overlapping occurrences, left to right);
`fuel` bounds the scan. -/
def replaceSub (pat rep : List Char) : Nat → List Char → List Char
  | 0, cs => cs
  | _, [] => []
  | fuel + 1, c :: cs =>
    if pat ≠ [] ∧ (c :: cs).take pat.length = pat then
      rep ++ replaceSub pat rep fuel ((c :: cs).drop pat.length)
    else c :: replaceSub pat rep fuel cs

/-- `s.replace(pat, rep)`. -/
def pyReplace (s pat rep : String) : String :=
  String.mk (replaceSub pat.toList rep.toList (s.length + 1) s.toList)

/-- `bytes.fromhex`: pairs of hex digits. -/
def hexDecode : List Char → Option (List Nat)
  | [] => some []
  | c1 :: c2 :: rest => do
    let b ← hex_pair_val c1 c2
    let bs ← hexDecode rest
    pure (b :: bs)
  | [_] => Option.none

/-- `decode("utf-8", errors="ignore")`: well-formed sequences decode,
malformed lead or continuation bytes are skipped. -/
def utf8Dec : Nat → List Nat → List Char
  | 0, _ => []
  | _, [] => []
  | fuel + 1, b :: rest =>
    if b < 128 then Char.ofNat b :: utf8Dec fuel rest
    else if 194 ≤ b ∧ b ≤ 223 then
      match rest with
      | b2 :: rest2 =>
        if 128 ≤ b2 ∧ b2 ≤ 191 then
          Char.ofNat ((b - 192) * 64 + (b2 - 128)) :: utf8Dec fuel rest2
        else utf8Dec fuel rest
      | [] => []
    else if 224 ≤ b ∧ b ≤ 239 then
      match rest with
      | b2 :: b3 :: rest2 =>
        if (if b = 224 then 160 else 128) ≤ b2 ∧ b2 ≤ (if b = 237 then 159 else 191) ∧
            128 ≤ b3 ∧ b3 ≤ 191 then
          Char.ofNat ((b - 224) * 4096 + (b2 - 128) * 64 + (b3 - 128)) :: utf8Dec fuel rest2
        else utf8Dec fuel rest
      | _ => utf8Dec fuel rest
    else if 240 ≤ b ∧ b ≤ 244 then
      match rest with
      | b2 :: b3 :: b4 :: rest2 =>
        if (if b = 240 then 144 else 128) ≤ b2 ∧ b2 ≤ (if b = 244 then 143 else 191) ∧
            128 ≤ b3 ∧ b3 ≤ 191 ∧ 128 ≤ b4 ∧ b4 ≤ 191 then
          Char.ofNat ((b - 240) * 262144 + (b2 - 128) * 4096 + (b3 - 128) * 64 + (b4 - 128))
            :: utf8Dec fuel rest2
        else utf8Dec fuel rest
      | _ => utf8Dec fuel rest
    else utf8Dec fuel rest

/-- `rstrip('\x00')`. -/
def rstripNull (cs : List Char) : List Char :=
  (cs.reverse.dropWhile (fun c => c == Char.ofNat 0)).reverse

/-- `_decode_bytes_payload`: empty and shorter-than-10 payloads raise
`NFCDecodingError`; the magic number at bytes 0..4 only logs a warning;
the two temperatures (always present, `len ≥ 10 ≥ 8`), the two binary32
material values (when `len ≥ 16`) and the name (from the NUL-terminated
UTF-8 tail, when `len > 16`) are validated, every per-field failure
falling back to the documented default — inside one `try` per group, so
a failed nozzle temperature also skips the bed temperature, and a failed
density also skips the diameter. -/
def bytesDecode (bs : List Nat) : Except PyErr NormRec :=
  if bs.length = 0 then .error .decodingError
  else if bs.length < 10 then .error .decodingError
  else
    let temps : NVal × NVal :=
      match validateF .nozzle_temp (.int (le16 (read_at bs 4 2))) with
      | .error _ => (defaultVal .nozzle_temp, defaultVal .bed_temp)
      | .ok nv =>
        match validateF .bed_temp (.int (le16 (read_at bs 6 2))) with
        | .error _ => (nv, defaultVal .bed_temp)
        | .ok bv => (nv, bv)
    let mats : NVal × NVal :=
      if bs.length < 16 then (defaultVal .density, defaultVal .diameter)
      else
        match validateF .density (.float (f32le (read_at bs 8 4))) with
        | .error _ => (defaultVal .density, defaultVal .diameter)
        | .ok dv =>
          match validateF .diameter (.float (f32le (read_at bs 12 4))) with
          | .error _ => (dv, defaultVal .diameter)
          | .ok di => (dv, di)
    let nameV : NVal :=
      if bs.length ≤ 16 then defaultVal .name
      else
        let sd := rstripNull (utf8Dec (bs.length + 1) (bs.drop 16))
        if sd = [] then defaultVal .name
        else
          let p0 := sd.takeWhile (fun c => c != Char.ofNat 0)
          if p0 = [] then defaultVal .name
          else
            match validateF .name (.str (String.mk p0)) with
            | .ok nv => nv
            | .error _ => defaultVal .name
    .ok { name := nameV
          type := defaultVal .type
          color := defaultVal .color
          manufacturer := defaultVal .manufacturer
          density := mats.1
          diameter := mats.2
          nozzle_temp := temps.1
          bed_temp := temps.2
          remaining_length := defaultVal .remaining_length
          remaining_weight := defaultVal .remaining_weight }

/-- `_decode_string_payload`: an empty string is invalid; otherwise
strip, try JSON (handing the decoded value to the dictionary path), then
hex after removing `0x`/space/dash (an odd-length or non-hex cleaned
string raises), handing the bytes to the bytes path. -/
def strDecode (s : String) : Except PyErr NormRec :=
  if s.length = 0 then .error .decodingError
  else
    let t := pyStrip s
    match jsonParse t with
    | some v => dictDecodeVal v
    | Option.none =>
      let clean := pyReplace (pyReplace (pyReplace t "0x" "") " " "") "-" ""
      if clean.length % 2 ≠ 0 then .error .decodingError
      else
        match hexDecode clean.toList with
        | Option.none => .error .decodingError
        | some bs => bytesDecode bs

/-- `decode_payload`: `None` and unsupported outer types raise
`NFCDecodingError`; dict, str and bytes dispatch to their paths. -/
def decodePayload : PyVal → Except PyErr NormRec
  | .none => .error .decodingError
  | .dict d => dictDecode d
  | .str s => strDecode s
  | .bytes bs => bytesDecode bs
  | .bool _ => .error .decodingError
  | .int _ => .error .decodingError
  | .float _ => .error .decodingError
  | .list _ => .error .decodingError
  | .set _ => .error .decodingError

/-! ## Support lemmas: what decoded records look like -/

theorem recField_mk (g : NField → NVal) (f : NField) : recField (mkNormRec g) f = g f := by
  cases f <;> rfl

theorem dictDecode_ok {d : PyAssoc} {rec : NormRec} (h : dictDecode d = .ok rec) :
    rec = mkNormRec (resField d) := by
  unfold dictDecode at h
  by_cases hc : validFieldCount d = 0 ∧ 0 < d.length ∧ 0 < providedKnownCount d
  · rw [if_pos hc] at h
    exact Except.noConfusion h
  · rw [if_neg hc] at h
    injection h with h2
    exact h2.symm

/-! ## Claim C5: decoded records and the documented invariants -/

unseal Rat.add Rat.mul Rat.sub Rat.inv Rat.ofScientific in
/-- C6 counterexample: a usable field value is obtained (200 validates
for `nozzle_temp`), yet the decode fails — the validated value equals
the documented default, so `valid_fields` counts it as zero. -/
theorem C6_default_equal_counterexample :
    validateF .nozzle_temp (PyVal.int 200) = .ok (.int 200) ∧
    decodePayload (.dict (.cons "nozzle_temp" (PyVal.int 200) .nil)) =
      .error .decodingError := by
  constructor <;> decide

/-- C6 (amended): the mapping path fails iff no resulting field differs
(Python `!=`) from its documented default, the mapping is non-empty and
it supplied at least one known key; otherwise it succeeds with every
field validated-or-defaulted. -/
theorem C6_dict_failure_iff :
    ∀ d : PyAssoc,
      (decodePayload (.dict d) = .error .decodingError ↔
        validFieldCount d = 0 ∧ 0 < d.length ∧ 0 < providedKnownCount d) ∧
      (decodePayload (.dict d) = .error .decodingError ∨
        decodePayload (.dict d) = .ok (mkNormRec (resField d))) := by
  intro d
  show (dictDecode d = _ ↔ _) ∧ (dictDecode d = _ ∨ dictDecode d = _)
  by_cases h : validFieldCount d = 0 ∧ 0 < d.length ∧ 0 < providedKnownCount d
  · have hd : dictDecode d = .error .decodingError := by
      unfold dictDecode
      rw [if_pos h]
    rw [hd]
    exact ⟨⟨fun _ => h, fun _ => rfl⟩, Or.inl rfl⟩
  · have hd : dictDecode d = .ok (mkNormRec (resField d)) := by
      unfold dictDecode
      rw [if_neg h]
    rw [hd]
    exact ⟨⟨fun hc => absurd hc (by simp), fun hc => absurd hc h⟩, Or.inr rfl⟩

/-! ## Claim C7: malformed payloads give typed errors, with one exception -/

unseal Rat.add Rat.mul Rat.sub Rat.inv Rat.ofScientific in
/-- C7 counterexample: the claim lists the empty dict among the inputs
producing a typed error, but `decode_payload({})` succeeds and returns
the all-defaults record (the repository's own malformed-payload test
asserts exactly this). -/
theorem C7_empty_dict_counterexample :
    decodePayload (.dict .nil) = .ok defaultRec := by decide

unseal Rat.add Rat.mul Rat.sub Rat.inv Rat.ofScientific in
/-- C7 (amended): `None`, unsupported outer types, strings that are
neither JSON nor hex, odd-length hex strings and byte strings shorter
than 10 bytes all produce the typed `NFCDecodingError`; the empty dict,
however, decodes successfully to the all-defaults record. -/
theorem C7_error_handling :
    decodePayload PyVal.none = .error .decodingError ∧
    (∀ n : ℤ, decodePayload (.int n) = .error .decodingError) ∧
    (∀ l : PyValList, decodePayload (.list l) = .error .decodingError) ∧
    (∀ l : PyValList, decodePayload (.set l) = .error .decodingError) ∧
    decodePayload (.str "\x7binvalid") = .error .decodingError ∧
    decodePayload (.str "abc") = .error .decodingError ∧
    (∀ bs : List Nat, bs.length < 10 → decodePayload (.bytes bs) = .error .decodingError) ∧
    decodePayload (.dict .nil) = .ok defaultRec := by
  refine ⟨rfl, fun n => rfl, fun l => rfl, fun l => rfl, by decide, by decide, ?_, by decide⟩
  intro bs h
  show bytesDecode bs = _
  unfold bytesDecode
  by_cases h0 : bs.length = 0
  · rw [if_pos h0]
  · rw [if_neg h0, if_pos h]

/-! ## Claim C8: failing fields fall back to their defaults -/

unseal Rat.add Rat.mul Rat.sub Rat.inv Rat.ofScientific in
/-- C8: on the mapping path a present field whose validation fails is
replaced by the documented default without failing the decode; `nan` and
`±inf` raw floats always fail float validation; and concretely
`decode_payload({"name": "Valid", "nozzle_temp": 9999})` succeeds with
`name == "Valid"` and `nozzle_temp == 200` (the documented default). -/
theorem C8_default_substitution :
    (∀ d rec, dictDecode d = .ok rec →
      ∀ f e, validateF f ((dictGet d (fieldKey f)).getD PyVal.none) = .error e →
        recField rec f = defaultVal f) ∧
    (∀ f lo hi, fieldSpec f = .float lo hi →
      validateF f (.float .nan) = .error .valueError ∧
      validateF f (.float .inf) = .error .valueError ∧
      validateF f (.float .ninf) = .error .valueError) ∧
    (∃ rec,
      decodePayload (.dict (.cons "name" (PyVal.str "Valid")
        (.cons "nozzle_temp" (PyVal.int 9999) .nil))) = .ok rec ∧
      rec.name = .str "Valid" ∧ rec.nozzle_temp = .int 200) := by
  refine ⟨?_, ?_, ⟨{ defaultRec with name := .str "Valid" }, by decide, rfl, rfl⟩⟩
  · intro d rec h f e hv
    rw [dictDecode_ok h, recField_mk]
    unfold resField
    rw [hv]
  · intro f lo hi hs
    refine ⟨?_, ?_, ?_⟩ <;> (unfold validateF; rw [if_neg (by decide), hs]; rfl)

/-! ## Claim C10: the bytes path never fails for payloads of 10+ bytes -/

/-- C10: every byte payload of length at least 10 decodes successfully:
the magic number only warns, and every per-field failure is caught and
replaced by the field's default. -/
theorem C10_bytes_robustness :
    ∀ bs : List Nat, 10 ≤ bs.length → ∃ rec, decodePayload (.bytes bs) = .ok rec := by
  intro bs h
  show ∃ rec, bytesDecode bs = .ok rec
  unfold bytesDecode
  rw [if_neg (by omega), if_neg (by omega)]
  exact ⟨_, rfl⟩

unseal Rat.add Rat.mul Rat.sub Rat.inv Rat.ofScientific in
/-- Witness for C10 at a concrete 10-byte payload. -/
theorem C10_bytes_robustness_witness :
    ∃ rec, decodePayload (.bytes (List.replicate 10 0)) = .ok rec :=
  C10_bytes_robustness (List.replicate 10 0) (by decide)

end SpoolCoder
